import Mathlib

/-!
# Light tracer of the Glow lightmap baker

Shallow embedding of `Source/Urho3D/Glow/LightTracer.cpp`,
`Source/Urho3D/Glow/LightmapTracer.h` and of the probe mesh sampler of
`Source/Urho3D/Graphics/GlobalIllumination.cpp`.

Floating point numbers are embedded as exact rationals; where the integer a function
returns depends on the rounding of its `float` operations, in `GetNearestLocation`, the
results of these operations are rounded by `roundToFloat`; `RandomDirection` is also given
over any ordered field of scalars, where the square root can be exact.  Pointers to read-only
data become values, pointers to mutable data become explicit state.  Functions
of the ray tracing backend and of the math library that are not part of the
sources are fields of `Backend`.
-/

namespace Glow

/-! ## Math types -/

/-- Two component vector (`Vector2`). -/
structure Vector2 where
  x_ : ℚ
  y_ : ℚ
deriving DecidableEq, Inhabited

/-- Two component integer vector (`IntVector2`). -/
structure IntVector2 where
  x_ : Int
  y_ : Int
deriving DecidableEq, Inhabited

/-- Modelled from the spec: the math library (`Math/Vector3.h`) is not among the sources.
Three component vector (`Vector3`) over the rationals, with the operators the tracer uses. -/
@[ext]
structure Vector3 where
  x_ : ℚ
  y_ : ℚ
  z_ : ℚ
deriving DecidableEq

/-- Modelled from the spec: the math library (`Math/Vector4.h`) is not among the sources.
Four component vector (`Vector4`) over the rationals, with the operators the tracer uses. -/
@[ext]
structure Vector4 where
  x_ : ℚ
  y_ : ℚ
  z_ : ℚ
  w_ : ℚ
deriving DecidableEq

/-- RGBA colour (`Color`). -/
structure Color where
  r_ : ℚ
  g_ : ℚ
  b_ : ℚ
  a_ : ℚ
deriving DecidableEq

namespace Vector3

/-- The vector `Vector3::ZERO`; it is also what the default constructor gives. -/
def ZERO : Vector3 := ⟨0, 0, 0⟩
/-- The vector `Vector3::ONE`. -/
def ONE : Vector3 := ⟨1, 1, 1⟩
/-- The vector `Vector3::UP`. -/
def UP : Vector3 := ⟨0, 1, 0⟩
/-- The vector `Vector3::DOWN`. -/
def DOWN : Vector3 := ⟨0, -1, 0⟩
instance : Inhabited Vector3 := ⟨ZERO⟩

/-- Componentwise sum, `operator +`. -/
def add (a b : Vector3) : Vector3 := ⟨a.x_ + b.x_, a.y_ + b.y_, a.z_ + b.z_⟩
/-- Componentwise product, `operator *(const Vector3&)`. -/
def mul (a b : Vector3) : Vector3 := ⟨a.x_ * b.x_, a.y_ * b.y_, a.z_ * b.z_⟩
/-- Product with a scalar on the right, `operator *(float)`. -/
def scale (a : Vector3) (s : ℚ) : Vector3 := ⟨a.x_ * s, a.y_ * s, a.z_ * s⟩
/-- Product with a scalar on the left, `operator *(float, const Vector3&)`. -/
def lscale (s : ℚ) (a : Vector3) : Vector3 := ⟨a.x_ * s, a.y_ * s, a.z_ * s⟩
/-- Division by a scalar, `operator /=(float)`: the components are multiplied by the inverse. -/
def divScalar (a : Vector3) (s : ℚ) : Vector3 := ⟨a.x_ * (1 / s), a.y_ * (1 / s), a.z_ * (1 / s)⟩
/-- Unary minus. -/
def neg (a : Vector3) : Vector3 := ⟨-a.x_, -a.y_, -a.z_⟩
/-- Scalar product, `DotProduct`. -/
def DotProduct (a b : Vector3) : ℚ := a.x_ * b.x_ + a.y_ * b.y_ + a.z_ * b.z_
/-- Squared length, `LengthSquared`. -/
def LengthSquared (a : Vector3) : ℚ := a.x_ * a.x_ + a.y_ * a.y_ + a.z_ * a.z_

end Vector3

namespace Vector4

/-- The zero vector, what the default constructor gives. -/
def ZERO : Vector4 := ⟨0, 0, 0, 0⟩

instance : Inhabited Vector4 := ⟨ZERO⟩

/-- Constructor `Vector4(const Vector3&, float)`. -/
def ofVector3 (v : Vector3) (w : ℚ) : Vector4 := ⟨v.x_, v.y_, v.z_, w⟩
/-- Componentwise sum, `operator +`. -/
def add (a b : Vector4) : Vector4 := ⟨a.x_ + b.x_, a.y_ + b.y_, a.z_ + b.z_, a.w_ + b.w_⟩
/-- Division by a scalar, `operator /=(float)`: the components are multiplied by the inverse. -/
def divScalar (a : Vector4) (s : ℚ) : Vector4 :=
  ⟨a.x_ * (1 / s), a.y_ * (1 / s), a.z_ * (1 / s), a.w_ * (1 / s)⟩
/-- The first three components. -/
def toVector3 (a : Vector4) : Vector3 := ⟨a.x_, a.y_, a.z_⟩

end Vector4

/-- The colour as a vector, `Color::ToVector3`. -/
def Color.ToVector3 (c : Color) : Vector3 := ⟨c.r_, c.g_, c.b_⟩

/-- Modelled from the spec: `Clamp` of `Math/MathDefs.h` is not among the sources.  Clamp a
value to a range. -/
def Clamp {α : Type} [LT α] [DecidableRel (fun a b : α => a < b)] (value min max : α) : α :=
  if value < min then min else if max < value then max else value

/-- Modelled from the spec: `Lerp` of `Math/MathDefs.h` is not among the sources.  Linear
interpolation of vectors, `lhs * (1 - t) + rhs * t`. -/
def Lerp (lhs rhs : Vector3) (t : ℚ) : Vector3 := (lhs.scale (1 - t)).add (rhs.scale t)

/-- Modelled from the spec: `RoundToInt` of `Math/MathDefs.h` is not among the sources.  Round
to the nearest integer, halves away from zero. -/
def RoundToInt (x : ℚ) : Int := if 0 ≤ x then Int.floor (x + 1 / 2) else Int.ceil (x - 1 / 2)

/-- Modelled from the spec: `FloorToInt` of `Math/MathDefs.h` is not among the sources.  Round
down to an integer. -/
def FloorToInt (x : ℚ) : Int := Int.floor x

/-- The whole number nearest to `q`; of two whole numbers that are equally near the even
one. -/
def roundHalfEven (q : ℚ) : Int :=
  let f := Int.floor q
  if q - f < 1 / 2 then f
  else if 1 / 2 < q - f then f + 1
  else if f % 2 = 0 then f else f + 1

/-- The `float` that stores the result `x` of an operation on `float`s: the number with a
significand of 24 binary digits that is nearest to `x`, of two that are equally near the one
with the even significand (IEEE 754 binary32, round to nearest, ties to even).  The range of
the exponent is not bounded: there are neither overflow nor subnormal numbers. -/
def roundToFloat (x : ℚ) : ℚ :=
  if x = 0 then 0
  else
    let ulp : ℚ := 2 ^ (Int.log 2 |x| - 23)
    (roundHalfEven (x / ulp) : ℚ) * ulp

/-- The largest `unsigned`, `M_MAX_UNSIGNED`. -/
def M_MAX_UNSIGNED : Nat := 4294967295

/-- The value Embree uses for "no geometry", `RTC_INVALID_GEOMETRY_ID`. -/
def RTC_INVALID_GEOMETRY_ID : Nat := 4294967295

/-! ## Ray tracer data -/

/-- Diffuse texture of a geometry: its pixels are read with `GetPixel`. -/
structure Image where
  GetPixel : Int → Int → Color

/-- Modelled from the spec: `RaytracerGeometry` of `Glow/RaytracerScene.h` is not among the
sources.  Geometry of the ray tracer scene, with the attributes the tracer reads. -/
structure RaytracerGeometry where
  objectIndex_ : Nat
  geometryIndex_ : Nat
  lodIndex_ : Nat
  numLods_ : Nat
  lightmapIndex_ : Nat
  embreeGeometry_ : Nat
  opaque_ : Bool
  diffuseColor_ : Vector3
  alpha_ : ℚ
  diffuseImage_ : Option Image
  diffuseImageWidth_ : Int
  diffuseImageHeight_ : Int

instance : Inhabited RaytracerGeometry :=
  ⟨⟨0, 0, 0, 0, 0, 0, true, Vector3.ZERO, 0, none, 0, 0⟩⟩

/-- Ray of Embree (`RTCRay`). -/
structure RTCRay where
  org : Vector3
  dir : Vector3
  tnear : ℚ
  tfar : ℚ
  time : ℚ
  mask : Nat
  id : Nat
  flags : Nat
deriving DecidableEq

/-- Hit of Embree (`RTCHit`). -/
structure RTCHit where
  Ng : Vector3
  u : ℚ
  v : ℚ
  primID : Nat
  geomID : Nat
deriving DecidableEq

/-- Ray and hit of one query (`RTCRayHit`). -/
structure RTCRayHit where
  ray : RTCRay
  hit : RTCHit
deriving DecidableEq

/-- Candidate hit the traversal offers to the filter function: the hit and its distance. -/
structure RTCCandidate where
  hit : RTCHit
  t : ℚ
deriving DecidableEq

/-- Functions and constants the tracer takes from outside of the sources: the
acceleration structure of Embree, the random number generator and the math library. -/
structure Backend where
  /-- Candidate hits of a ray, in the order the traversal offers them to the filter. -/
  candidates : RTCRay → List RTCCandidate
  /-- Vertex attribute interpolation `rtcInterpolate0(geometry, primID, u, v, slot)`. -/
  interpolate0 : Nat → Nat → ℚ → ℚ → Nat → Vector3
  /-- Square root of the math library. -/
  sqrt : ℚ → ℚ
  /-- The method `Vector3::Normalized`. -/
  Normalized : Vector3 → Vector3
  /-- The stream of the random number generator: draw number `n` of `Random(1.0f)`. -/
  randomUnit : Nat → ℚ
  /-- Sampling of the light probe mesh, `lightProbesMesh_->Sample(bakedSphericalHarmonics_,
  position, hint)` followed by `Evaluate(normal)`: the value and the hint after the call. -/
  sampleProbes : Vector3 → Nat → Vector3 → Vector3 × Nat
  /-- The constant `M_PI`. -/
  M_PI : ℚ
  /-- The ray mask `RaytracerScene::AllGeometry`. -/
  AllGeometry : Nat
  /-- The ray mask `RaytracerScene::PrimaryLODGeometry`. -/
  PrimaryLODGeometry : Nat

/-! ## Intersection filter policies -/

/-- Return true if first geometry is non-primary LOD of another geometry or different LOD of itself. -/
def IsUnwantedLod (currentGeometry hitGeometry : RaytracerGeometry) : Bool :=
  let hitLod := hitGeometry.lodIndex_ != 0
  let sameGeometry := currentGeometry.objectIndex_ == hitGeometry.objectIndex_
    && currentGeometry.geometryIndex_ == hitGeometry.geometryIndex_
  let hitLodOfAnotherGeometry := !sameGeometry && hitLod
  let hitAnotherLodOfSameGeometry := sameGeometry && hitGeometry.lodIndex_ != currentGeometry.lodIndex_
  hitLodOfAnotherGeometry || hitAnotherLodOfSameGeometry

/-- Return texture color at hit position. Texture must be present. -/
def GetHitDiffuseTextureColor (be : Backend) (hitGeometry : RaytracerGeometry) (image : Image)
    (hit : RTCHit) : Color :=
  let uv := be.interpolate0 hitGeometry.embreeGeometry_ hit.primID hit.u hit.v 0
  let x := Clamp (RoundToInt (uv.x_ * hitGeometry.diffuseImageWidth_)) 0 (hitGeometry.diffuseImageWidth_ - 1)
  let y := Clamp (RoundToInt (uv.y_ * hitGeometry.diffuseImageHeight_)) 0 (hitGeometry.diffuseImageHeight_ - 1)
  image.GetPixel x y

/-- Return true if transparent, update incoming light. Used for direct light calculations.
The result is the returned flag and the incoming light after the call. -/
def IsTransparedForDirect (be : Backend) (hitGeometry : RaytracerGeometry) (hit : RTCHit)
    (incomingLight : Vector3) : Bool × Vector3 :=
  if hitGeometry.opaque_ then
    (false, incomingLight)
  else
    -- Consider material
    let hitSurfaceColor := hitGeometry.diffuseColor_
    let hitSurfaceAlpha := hitGeometry.alpha_
    -- Consider texture
    let (hitSurfaceColor, hitSurfaceAlpha) :=
      match hitGeometry.diffuseImage_ with
      | some image =>
        let diffuseColor := GetHitDiffuseTextureColor be hitGeometry image hit
        (hitSurfaceColor.mul diffuseColor.ToVector3, hitSurfaceAlpha * diffuseColor.a_)
      | none => (hitSurfaceColor, hitSurfaceAlpha)
    let transparency := Clamp (1 - hitSurfaceAlpha) 0 1
    let filterIntensity := 1 - transparency
    (true, incomingLight.mul (Vector3.lscale transparency (Lerp Vector3.ONE hitSurfaceColor filterIntensity)))

/-- Ray tracing context for direct light baking for charts.  The pointers to the
current geometry and to the incoming light are embedded as the values they point to. -/
structure DirectTracingContextForCharts where
  currentGeometry_ : RaytracerGeometry
  geometryIndex_ : List RaytracerGeometry
  incomingLight_ : Vector3

/-- Filter function for direct light baking for charts.  `valid` is `args->valid[0]`;
the result is the context after the call (it holds the incoming light) and the flag. -/
def TracingFilterForChartsDirect (be : Backend) (ctx : DirectTracingContextForCharts) (hit : RTCHit)
    (valid : Int) : DirectTracingContextForCharts × Int :=
  -- Ignore invalid
  if valid = 0 then
    (ctx, valid)
  else
    -- Ignore if unwanted LOD
    let hitGeometry := ctx.geometryIndex_.getD hit.geomID default
    let valid := if IsUnwantedLod ctx.currentGeometry_ hitGeometry then 0 else valid
    -- Accumulate and ignore if transparent
    let r := IsTransparedForDirect be hitGeometry hit ctx.incomingLight_
    let valid := if r.1 then 0 else valid
    ({ ctx with incomingLight_ := r.2 }, valid)

/-- Ray tracing context for direct light baking for light probes. -/
structure DirectTracingContextForLightProbes where
  geometryIndex_ : List RaytracerGeometry
  incomingLight_ : Vector3

/-- Filter function for direct light baking for light probes. -/
def TracingFilterForLightProbesDirect (be : Backend) (ctx : DirectTracingContextForLightProbes)
    (hit : RTCHit) (valid : Int) : DirectTracingContextForLightProbes × Int :=
  -- Ignore invalid
  if valid = 0 then
    (ctx, valid)
  else
    -- Ignore if LOD
    let hitGeometry := ctx.geometryIndex_.getD hit.geomID default
    let valid := if hitGeometry.lodIndex_ != 0 then 0 else valid
    -- Accumulate and ignore if transparent
    let r := IsTransparedForDirect be hitGeometry hit ctx.incomingLight_
    let valid := if r.1 then 0 else valid
    ({ ctx with incomingLight_ := r.2 }, valid)

/-! ## Buffers and settings -/

/-- Modelled from the spec: `LightmapChartGeometryBuffer` of `Glow/LightmapGeometryBaker.h` is
not among the sources.  Geometry buffer of a lightmap chart: arrays indexed by texel. -/
structure LightmapChartGeometryBuffer where
  geometryIds_ : List Nat
  positions_ : List Vector3
  smoothNormals_ : List Vector3
  faceNormals_ : List Vector3
  texelRadiuses_ : List ℚ
  albedo_ : List Vector3
  emission_ : List Vector3

/-- Modelled from the spec: `LightmapTracingSettings` is not among the sources.  Tracing
configuration with the fields the tracer reads.  `MaxBounces` is the static
constant of the class. -/
structure LightmapTracingSettings where
  MaxBounces : Nat
  numTasks_ : Nat
  numDirectSamples_ : Nat
  numIndirectChartSamples_ : Nat
  numIndirectProbeSamples_ : Nat
  numBounces_ : Nat
  rayPositionOffset_ : ℚ
  shadowLeakBias_ : ℚ
  shadowLeakOffset_ : ℚ

/-- Direct light accumulated for given lightmap chart.  The arrays are the ones
`LightTracer.cpp` reads and writes: `directLight_`, `surfaceLight_` and `albedo_`. -/
structure LightmapChartBakedDirect where
  width_ : Nat
  height_ : Nat
  realWidth_ : ℚ
  realHeight_ : ℚ
  directLight_ : List Vector4
  surfaceLight_ : List Vector3
  albedo_ : List Vector3

/-- Modelled from the spec: `RaytracerScene` of `Glow/RaytracerScene.h` is not among the
sources.  Scene of the ray tracer: the maximal distance and the geometries; the Embree
scene itself is `Backend.candidates`. -/
structure RaytracerScene where
  maxDistance : ℚ
  geometries : List RaytracerGeometry

/-- Modelled from the spec: the intersection query calls a filter hook for each candidate
hit before acceptance.  The filter is called with a non zero flag, and the
candidate becomes the hit of the ray when the filter leaves the flag non zero. -/
def offerCandidate {C : Type} (filter : C → RTCHit → Int → C × Int) (s : C × RTCRayHit)
    (c : RTCCandidate) : C × RTCRayHit :=
  let r := filter s.1 c.hit (-1)
  if r.2 = 0 then (r.1, s.2)
  else (r.1, { ray := { s.2.ray with tfar := c.t }, hit := c.hit })

/-- Modelled from the spec: the intersection query `intersect(ray, context)` with its filter
hook, `rtcIntersect1` of Embree with the filter function of the context.  The
filter is called with a non zero flag for every candidate the traversal offers; a
candidate whose flag the filter leaves non zero becomes the hit of the ray and
shortens the ray, a candidate whose flag is cleared leaves ray and hit as they are. -/
def rtcIntersect1 {C : Type} (be : Backend) (filter : C → RTCHit → Int → C × Int) (ctx : C)
    (rayHit : RTCRayHit) : C × RTCRayHit :=
  (be.candidates rayHit.ray).foldl (offerCandidate filter) (ctx, rayHit)

/-- Element `i` of an array increased by `v` (`array[i] += v`). -/
def addAt {α : Type} [Inhabited α] (add : α → α → α) (xs : List α) (i : Nat) (v : α) : List α :=
  xs.set i (add (xs.getD i default) v)

/-! ## Direct light -/

/-- Directional light ray generator. -/
structure DirectionalRayGenerator where
  lightColor_ : Color
  lightDirection_ : Vector3

/-- Return emitted light intensity for given position. -/
def DirectionalRayGenerator.GetLightIntensity (g : DirectionalRayGenerator) (_position : Vector3) : Vector3 :=
  g.lightColor_.ToVector3

/-- Return ray direction for given position. -/
def DirectionalRayGenerator.GetRayDirection (g : DirectionalRayGenerator) (_position : Vector3) : Vector3 :=
  g.lightDirection_

/-- Direct light tracing for charts: tracing element. -/
structure ChartDirectTracingElement where
  position_ : Vector3
  smoothNormal_ : Vector3
  geometryId_ : Nat
  directLight_ : Vector3

namespace ChartDirectTracingElement

/-- Returns whether element is valid (`operator bool`). -/
def valid (e : ChartDirectTracingElement) : Bool := e.geometryId_ != 0

/-- Begin sample. Return position, normal and initial ray direction.  The incoming
light lives in the ray context, which the caller's variable is aliased to. -/
def BeginSample (e : ChartDirectTracingElement) (_sampleIndex : Nat)
    (rayContext : DirectTracingContextForCharts) (generator : DirectionalRayGenerator) :
    DirectTracingContextForCharts × Vector3 × Vector3 :=
  ({ rayContext with incomingLight_ := generator.GetLightIntensity e.position_ },
    e.position_, generator.GetRayDirection e.position_)

/-- End sample. -/
def EndSample (e : ChartDirectTracingElement) (light direction : Vector3) : ChartDirectTracingElement :=
  let intensity := max 0 (e.smoothNormal_.DotProduct direction)
  { e with directLight_ := e.directLight_.add (light.scale intensity) }

end ChartDirectTracingElement

/-- Direct light tracing for charts: tracing kernel.  The baked chart the kernel
points to is passed along as state. -/
structure ChartDirectTracingKernel where
  geometryBuffer_ : LightmapChartGeometryBuffer
  geometryBufferToRaytracer_ : List Nat
  raytracerGeometries_ : List RaytracerGeometry
  settings_ : LightmapTracingSettings
  bakeDirect_ : Bool
  bakeIndirect_ : Bool

namespace ChartDirectTracingKernel

/-- Return number of elements to trace. -/
def GetNumElements (_k : ChartDirectTracingKernel) (bakedDirect : LightmapChartBakedDirect) : Nat :=
  bakedDirect.directLight_.length

/-- Return number of samples. -/
def GetNumSamples (k : ChartDirectTracingKernel) : Nat := k.settings_.numDirectSamples_

/-- Return ray intersect context. -/
def GetRayContext (k : ChartDirectTracingKernel) : DirectTracingContextForCharts :=
  { currentGeometry_ := default, geometryIndex_ := k.raytracerGeometries_, incomingLight_ := default }

/-- Begin tracing element. -/
def BeginElement (k : ChartDirectTracingKernel) (elementIndex : Nat)
    (rayContext : DirectTracingContextForCharts) :
    ChartDirectTracingElement × DirectTracingContextForCharts :=
  let geometryId := k.geometryBuffer_.geometryIds_.getD elementIndex 0
  if geometryId = 0 then
    (⟨Vector3.ZERO, Vector3.ZERO, 0, Vector3.ZERO⟩, rayContext)
  else
    let raytracerGeometryId := k.geometryBufferToRaytracer_.getD geometryId 0
    let rayContext := { rayContext with
      currentGeometry_ := k.raytracerGeometries_.getD raytracerGeometryId default }
    let position := k.geometryBuffer_.positions_.getD elementIndex default
    let smoothNormal := k.geometryBuffer_.smoothNormals_.getD elementIndex default
    let faceNormal := k.geometryBuffer_.faceNormals_.getD elementIndex default
    (⟨position.add (faceNormal.scale k.settings_.rayPositionOffset_), smoothNormal, geometryId,
      Vector3.ZERO⟩, rayContext)

/-- End tracing element. -/
def EndElement (k : ChartDirectTracingKernel) (bakedDirect : LightmapChartBakedDirect)
    (elementIndex : Nat) (element : ChartDirectTracingElement) : LightmapChartBakedDirect :=
  let weight : ℚ := 1 / (k.GetNumSamples : ℚ)
  let directLight := element.directLight_.scale weight
  let bakedDirect :=
    if k.bakeDirect_ then
      { bakedDirect with
        directLight_ := addAt Vector4.add bakedDirect.directLight_ elementIndex
          (Vector4.ofVector3 directLight 0) }
    else bakedDirect
  if k.bakeIndirect_ then
    let albedo := k.geometryBuffer_.albedo_.getD elementIndex default
    { bakedDirect with
      surfaceLight_ := addAt Vector3.add bakedDirect.surfaceLight_ elementIndex (albedo.mul directLight) }
  else bakedDirect

end ChartDirectTracingKernel

/-- Variables of one task of `TraceDirectLight` that live across elements. -/
structure DirectTaskState where
  bakedDirect : LightmapChartBakedDirect
  rayContext : DirectTracingContextForCharts
  rayHit : RTCRayHit

/-- The block "Cast direct ray" of `TraceDirectLight` up to the query: the ray ends at
`position`, comes from `maxDistance` further back and the hit record is marked invalid. -/
def castDirectRay (rayHit : RTCRayHit) (position rayDirection : Vector3) (maxDistance : ℚ) : RTCRayHit :=
  { ray := { rayHit.ray with
      dir := rayDirection
      org := ⟨position.x_ - rayDirection.x_ * maxDistance, position.y_ - rayDirection.y_ * maxDistance,
        position.z_ - rayDirection.z_ * maxDistance⟩
      tfar := maxDistance }
    hit := { rayHit.hit with geomID := RTC_INVALID_GEOMETRY_ID } }

/-- Body of the sample loop of `TraceDirectLight`. -/
def TraceDirectLightSample (be : Backend) (generator : DirectionalRayGenerator) (maxDistance : ℚ)
    (s : ChartDirectTracingElement × DirectTracingContextForCharts × RTCRayHit) (sampleIndex : Nat) :
    ChartDirectTracingElement × DirectTracingContextForCharts × RTCRayHit :=
  let element := s.1
  let b := element.BeginSample sampleIndex s.2.1 generator
  let rayContext := b.1
  let position := b.2.1
  let rayDirection := b.2.2
  -- Cast direct ray
  let rayHit := castDirectRay s.2.2 position rayDirection maxDistance
  let q := rtcIntersect1 be (TracingFilterForChartsDirect be) rayContext rayHit
  if q.2.hit.geomID ≠ RTC_INVALID_GEOMETRY_ID then
    (element, q.1, q.2)
  else
    (element.EndSample q.1.incomingLight_ rayDirection.neg, q.1, q.2)

/-- Body of the element loop of `TraceDirectLight`. -/
def TraceDirectLightElement (be : Backend) (kernel : ChartDirectTracingKernel)
    (generator : DirectionalRayGenerator) (maxDistance : ℚ) (s : DirectTaskState) (elementIndex : Nat) :
    DirectTaskState :=
  let b := kernel.BeginElement elementIndex s.rayContext
  if !b.1.valid then
    { s with rayContext := b.2 }
  else
    let r := (List.range kernel.GetNumSamples).foldl
      (TraceDirectLightSample be generator maxDistance) (b.1, b.2, s.rayHit)
    { bakedDirect := kernel.EndElement s.bakedDirect elementIndex r.1
      rayContext := r.2.1
      rayHit := r.2.2 }

/-- The task of `TraceDirectLight` for the elements `fromIndex ≤ i < toIndex`: the
result is the baked chart after the task. -/
def TraceDirectLightTask (be : Backend) (kernel : ChartDirectTracingKernel)
    (generator : DirectionalRayGenerator) (raytracerScene : RaytracerScene)
    (bakedDirect : LightmapChartBakedDirect) (fromIndex toIndex : Nat) : LightmapChartBakedDirect :=
  let rayHit : RTCRayHit :=
    { ray := { org := default, dir := default, tnear := 0, tfar := 0, time := 0,
               mask := be.AllGeometry, id := 0, flags := 0 }
      hit := { Ng := default, u := 0, v := 0, primID := 0, geomID := 0 } }
  ((List.range' fromIndex (toIndex - fromIndex)).foldl
    (TraceDirectLightElement be kernel generator raytracerScene.maxDistance)
    { bakedDirect := bakedDirect, rayContext := kernel.GetRayContext, rayHit := rayHit }).bakedDirect

/-- Modelled from the spec: `ParallelFor` of `Glow/Helpers.h` is not part of the
sources.  The range `0 ≤ i < count` is cut into `numTasks` contiguous chunks and the
callback runs once for each chunk; the tasks are run one after the other. -/
def ParallelFor {σ : Type} (count numTasks : Nat) (callback : σ → Nat → Nat → σ) (s : σ) : σ :=
  let chunkSize := (count + numTasks - 1) / numTasks
  (List.range numTasks).foldl
    (fun s i => callback s (i * chunkSize) (min (i * chunkSize + chunkSize) count)) s

/-- Trace direct lighting, for the chart kernel and the directional generator. -/
def TraceDirectLight (be : Backend) (sharedKernel : ChartDirectTracingKernel)
    (sharedGenerator : DirectionalRayGenerator) (raytracerScene : RaytracerScene)
    (settings : LightmapTracingSettings) (bakedDirect : LightmapChartBakedDirect) :
    LightmapChartBakedDirect :=
  ParallelFor (sharedKernel.GetNumElements bakedDirect) settings.numTasks_
    (fun baked fromIndex toIndex =>
      TraceDirectLightTask be sharedKernel sharedGenerator raytracerScene baked fromIndex toIndex)
    bakedDirect

/-- Accumulate direct light from a directional light into a chart. -/
def BakeDirectionalLightForCharts (be : Backend) (bakedDirect : LightmapChartBakedDirect)
    (geometryBuffer : LightmapChartGeometryBuffer) (raytracerScene : RaytracerScene)
    (geometryBufferToRaytracer : List Nat) (lightColor : Color) (lightDirection : Vector3)
    (bakeDirect bakeIndirect : Bool) (settings : LightmapTracingSettings) : LightmapChartBakedDirect :=
  let generator : DirectionalRayGenerator := ⟨lightColor, lightDirection⟩
  let kernel : ChartDirectTracingKernel :=
    ⟨geometryBuffer, geometryBufferToRaytracer, raytracerScene.geometries, settings, bakeDirect, bakeIndirect⟩
  TraceDirectLight be kernel generator raytracerScene settings bakedDirect

/-- The task of `BakeEmissionLight` for the texels `fromIndex ≤ i < toIndex`.  The statement
`if (emission != Vector3::ZERO) i = i;` of the source does nothing and is left out. -/
def BakeEmissionLightTask (geometryBuffer : LightmapChartGeometryBuffer)
    (bakedDirect : LightmapChartBakedDirect) (fromIndex toIndex : Nat) : LightmapChartBakedDirect :=
  (List.range' fromIndex (toIndex - fromIndex)).foldl
    (fun (bakedDirect : LightmapChartBakedDirect) i =>
      let geometryId := geometryBuffer.geometryIds_.getD i 0
      if geometryId = 0 then bakedDirect
      else
        let albedo := geometryBuffer.albedo_.getD i default
        let emission := geometryBuffer.emission_.getD i default
        { bakedDirect with
          directLight_ := addAt Vector4.add bakedDirect.directLight_ i (Vector4.ofVector3 emission 0)
          surfaceLight_ := addAt Vector3.add bakedDirect.surfaceLight_ i emission
          albedo_ := bakedDirect.albedo_.set i albedo })
    bakedDirect

/-- Copy the emission of every texel into the direct light and the surface light. -/
def BakeEmissionLight (bakedDirect : LightmapChartBakedDirect)
    (geometryBuffer : LightmapChartGeometryBuffer) (settings : LightmapTracingSettings) :
    LightmapChartBakedDirect :=
  ParallelFor bakedDirect.directLight_.length settings.numTasks_
    (fun baked fromIndex toIndex => BakeEmissionLightTask geometryBuffer baked fromIndex toIndex)
    bakedDirect

/-! ## Random directions -/

/-- Modelled from the spec: `Random` of `Math/Random.h` is not among the sources.  Random
number between `min` and `max`, `Random(min, max)`; the state of the
generator is the number of draws made so far. -/
def Random (be : Backend) (rng : Nat) (min max : ℚ) : ℚ × Nat :=
  (be.randomUnit rng * (max - min) + min, rng + 1)

/-- Modelled from the spec: `Vector3::Length` is not among the sources.  Length of a vector,
the square root of the squared length. -/
def Vector3.Length (be : Backend) (a : Vector3) : ℚ := be.sqrt a.LengthSquared

/-- Generate random direction.  The `do ... while` loop runs at most `fuel` times;
`none` when it has not ended by then. -/
def RandomDirection (be : Backend) : (fuel : Nat) → (rng : Nat) → Option (Vector3 × Nat)
  | 0, _ => none
  | fuel + 1, rng =>
    let x := Random be rng (-1) 1
    let y := Random be x.2 (-1) 1
    let z := Random be y.2 (-1) 1
    let result : Vector3 := ⟨x.1, y.1, z.1⟩
    let len := result.Length be
    if len > 1 then RandomDirection be fuel z.2
    else some (result.divScalar len, z.2)

/-- Generate random hemisphere direction. -/
def RandomHemisphereDirection (be : Backend) (fuel : Nat) (rng : Nat) (normal : Vector3) :
    Option (Vector3 × Nat) :=
  (RandomDirection be fuel rng).map fun r =>
    if r.1.DotProduct normal < 0 then (r.1.neg, r.2) else r

/-! ## Random directions over any ordered field of scalars

The same two functions with the scalars `float` read as an ordered field `K`, so that the
square root can be the exact one of the real numbers. -/

/-- Modelled from the spec: the math library (`Math/Vector3.h`) is not among the sources.
Three component vector over the scalars `K`. -/
structure Vector3Of (K : Type) where
  x_ : K
  y_ : K
  z_ : K

namespace Vector3Of

/-- Division by a scalar, `operator /=(float)`: the components are multiplied by the inverse. -/
def divScalar {K : Type} [Field K] (a : Vector3Of K) (s : K) : Vector3Of K :=
  ⟨a.x_ * (1 / s), a.y_ * (1 / s), a.z_ * (1 / s)⟩
/-- Unary minus. -/
def neg {K : Type} [Field K] (a : Vector3Of K) : Vector3Of K := ⟨-a.x_, -a.y_, -a.z_⟩
/-- Scalar product, `DotProduct`. -/
def DotProduct {K : Type} [Field K] (a b : Vector3Of K) : K :=
  a.x_ * b.x_ + a.y_ * b.y_ + a.z_ * b.z_
/-- Squared length, `LengthSquared`. -/
def LengthSquared {K : Type} [Field K] (a : Vector3Of K) : K :=
  a.x_ * a.x_ + a.y_ * a.y_ + a.z_ * a.z_

end Vector3Of

/-- The vector of the rational embedding as a vector over the scalars `ℚ`. -/
def Vector3.toVector3Of (a : Vector3) : Vector3Of ℚ := ⟨a.x_, a.y_, a.z_⟩

/-- Modelled from the spec: `Random` of `Math/Random.h` is not among the sources.  Random
number between `min` and `max` over the scalars `K`, from the stream `randomUnit`. -/
def RandomOver {K : Type} [Field K] (randomUnit : Nat → K) (rng : Nat) (min max : K) : K × Nat :=
  (randomUnit rng * (max - min) + min, rng + 1)

/-- Generate random direction, over the scalars `K` with the square root `sqrt`.  The
`do ... while` loop runs at most `fuel` times; `none` when it has not ended by then. -/
def RandomDirectionOver {K : Type} [LinearOrderedField K] (sqrt : K → K) (randomUnit : Nat → K) :
    (fuel : Nat) → (rng : Nat) → Option (Vector3Of K × Nat)
  | 0, _ => none
  | fuel + 1, rng =>
    let x := RandomOver randomUnit rng (-1) 1
    let y := RandomOver randomUnit x.2 (-1) 1
    let z := RandomOver randomUnit y.2 (-1) 1
    let result : Vector3Of K := ⟨x.1, y.1, z.1⟩
    let len := sqrt result.LengthSquared
    if len > 1 then RandomDirectionOver sqrt randomUnit fuel z.2
    else some (result.divScalar len, z.2)

/-- Generate random hemisphere direction, over the scalars `K`. -/
def RandomHemisphereDirectionOver {K : Type} [LinearOrderedField K] (sqrt : K → K)
    (randomUnit : Nat → K) (fuel : Nat) (rng : Nat) (normal : Vector3Of K) :
    Option (Vector3Of K × Nat) :=
  (RandomDirectionOver sqrt randomUnit fuel rng).map fun r =>
    if r.1.DotProduct normal < 0 then (r.1.neg, r.2) else r

/-! ## Indirect light -/

/-- Return true if transparent. Used for indirect light calculations.  The result is
the flag and the state of the random number generator. -/
def IsTransparentForIndirect (be : Backend) (rng : Nat) (hitGeometry : RaytracerGeometry)
    (hit : RTCHit) : Bool × Nat :=
  if hitGeometry.opaque_ then
    (false, rng)
  else
    let sample := Random be rng 0 1
    -- Consider material
    let hitSurfaceAlpha := hitGeometry.alpha_
    if hitSurfaceAlpha < sample.1 then
      (true, sample.2)
    else
      -- Consider texture
      match hitGeometry.diffuseImage_ with
      | some image =>
        let hitSurfaceAlpha := hitSurfaceAlpha * (GetHitDiffuseTextureColor be hitGeometry image hit).a_
        if hitSurfaceAlpha < sample.1 then (true, sample.2) else (false, sample.2)
      | none => (false, sample.2)

/-- Ray tracing context for indirect light baking. -/
structure IndirectTracingContext where
  geometryIndex_ : List RaytracerGeometry

/-- Filter function for indirect light baking.  The state of the random number
generator goes along with the context. -/
def TracingFilterIndirect (be : Backend) (ctx : IndirectTracingContext × Nat) (hit : RTCHit)
    (valid : Int) : (IndirectTracingContext × Nat) × Int :=
  -- Ignore invalid
  if valid = 0 then
    (ctx, valid)
  else
    -- Ignore if transparent
    let hitGeometry := ctx.1.geometryIndex_.getD hit.geomID default
    let r := IsTransparentForIndirect be ctx.2 hitGeometry hit
    ((ctx.1, r.2), if r.1 then 0 else valid)

instance : Inhabited LightmapChartBakedDirect := ⟨⟨0, 0, 0, 0, [], [], []⟩⟩

namespace LightmapChartBakedDirect

/-- Return nearest point location by UV.  The products and the differences are `float`s:
they are rounded. -/
def GetNearestLocation (b : LightmapChartBakedDirect) (uv : Vector2) : IntVector2 :=
  let x := FloorToInt (min (roundToFloat (uv.x_ * b.realWidth_)) (roundToFloat (b.realWidth_ - 1)))
  let y := FloorToInt (min (roundToFloat (uv.y_ * b.realHeight_)) (roundToFloat (b.realHeight_ - 1)))
  ⟨x, y⟩

/-- Index of a location in the arrays, `location.x_ + location.y_ * width_` computed in `unsigned`. -/
def locationIndex (b : LightmapChartBakedDirect) (location : IntVector2) : Nat :=
  ((location.x_ + location.y_ * (b.width_ : Int)) % 4294967296).toNat

/-- Modelled from the spec: `GetSurfaceLight` is not in the header among the sources.  Return
surface light by location, read the way `GetLight` reads its array. -/
def GetSurfaceLight (b : LightmapChartBakedDirect) (location : IntVector2) : Vector3 :=
  b.surfaceLight_.getD (b.locationIndex location) default

/-- Modelled from the spec: `GetAlbedo` is not in the header among the sources.  Return albedo
by location, read the way `GetLight` reads its array. -/
def GetAlbedo (b : LightmapChartBakedDirect) (location : IntVector2) : Vector3 :=
  b.albedo_.getD (b.locationIndex location) default

end LightmapChartBakedDirect

/-- Indirect light accumulated for given lightmap chart. -/
structure LightmapChartBakedIndirect where
  width_ : Nat
  height_ : Nat
  light_ : List Vector4
  lightSwap_ : List Vector4

/-- Normalize indirect light. -/
def LightmapChartBakedIndirect.NormalizeLight (b : LightmapChartBakedIndirect) :
    LightmapChartBakedIndirect :=
  { b with light_ := b.light_.map fun value => if value.w_ > 0 then value.divScalar value.w_ else value }

/-- Indirect light tracing for charts: tracing element. -/
structure ChartIndirectTracingElement where
  position_ : Vector3
  faceNormal_ : Vector3
  smoothNormal_ : Vector3
  geometryId_ : Nat
  indirectLight_ : Vector4

/-- Position, normals, ray direction and albedo a sample begins with. -/
structure SampleStart where
  position : Vector3
  faceNormal : Vector3
  smoothNormal : Vector3
  rayDirection : Vector3
  albedo : Vector3

namespace ChartIndirectTracingElement

/-- Returns whether element is valid (`operator bool`). -/
def valid (e : ChartIndirectTracingElement) : Bool := e.geometryId_ != 0

/-- Begin sample. Return position, normal and initial ray direction. -/
def BeginSample (be : Backend) (fuel : Nat) (e : ChartIndirectTracingElement) (_sampleIndex : Nat)
    (rng : Nat) : Option (SampleStart × Nat) :=
  (RandomHemisphereDirection be fuel rng e.faceNormal_).map fun r =>
    (⟨e.position_, e.faceNormal_, e.smoothNormal_, r.1, Vector3.ONE⟩, r.2)

/-- End sample. -/
def EndSample (e : ChartIndirectTracingElement) (light : Vector3) : ChartIndirectTracingElement :=
  { e with indirectLight_ := e.indirectLight_.add (Vector4.ofVector3 light 1) }

end ChartIndirectTracingElement

/-- Indirect light tracing for charts: tracing kernel.  The baked chart the kernel
points to is passed along as state; the light probes are behind `Backend.sampleProbes`. -/
structure ChartIndirectTracingKernel where
  geometryBuffer_ : LightmapChartGeometryBuffer
  geometryBufferToRaytracer_ : List Nat
  raytracerGeometries_ : List RaytracerGeometry
  settings_ : LightmapTracingSettings
  lightProbesMeshHint_ : Nat

namespace ChartIndirectTracingKernel

/-- Return number of elements to trace. -/
def GetNumElements (_k : ChartIndirectTracingKernel) (bakedIndirect : LightmapChartBakedIndirect) : Nat :=
  bakedIndirect.light_.length

/-- Return number of samples. -/
def GetNumSamples (k : ChartIndirectTracingKernel) : Nat := k.settings_.numIndirectChartSamples_

/-- Begin tracing element: the element, the kernel (its hint may move) and the baked chart. -/
def BeginElement (be : Backend) (k : ChartIndirectTracingKernel)
    (bakedIndirect : LightmapChartBakedIndirect) (elementIndex : Nat) :
    ChartIndirectTracingElement × ChartIndirectTracingKernel × LightmapChartBakedIndirect :=
  let geometryId := k.geometryBuffer_.geometryIds_.getD elementIndex 0
  if geometryId = 0 then
    (⟨Vector3.ZERO, Vector3.ZERO, Vector3.ZERO, 0, Vector4.ZERO⟩, k, bakedIndirect)
  else
    let position := k.geometryBuffer_.positions_.getD elementIndex default
    let smoothNormal := k.geometryBuffer_.smoothNormals_.getD elementIndex default
    let raytracerGeometryId := k.geometryBufferToRaytracer_.getD geometryId 0
    let raytracerGeometry := k.raytracerGeometries_.getD raytracerGeometryId default
    if raytracerGeometry.numLods_ > 1 then
      let sh := be.sampleProbes position k.lightProbesMeshHint_ smoothNormal
      (⟨Vector3.ZERO, Vector3.ZERO, Vector3.ZERO, 0, Vector4.ZERO⟩,
        { k with lightProbesMeshHint_ := sh.2 },
        { bakedIndirect with
          light_ := addAt Vector4.add bakedIndirect.light_ elementIndex (Vector4.ofVector3 sh.1 1) })
    else
      let faceNormal := k.geometryBuffer_.faceNormals_.getD elementIndex default
      (⟨position.add (faceNormal.scale k.settings_.rayPositionOffset_), faceNormal, smoothNormal,
        geometryId, Vector4.ZERO⟩, k, bakedIndirect)

/-- End tracing element. -/
def EndElement (_k : ChartIndirectTracingKernel) (bakedIndirect : LightmapChartBakedIndirect)
    (elementIndex : Nat) (element : ChartIndirectTracingElement) : LightmapChartBakedIndirect :=
  { bakedIndirect with
    light_ := addAt Vector4.add bakedIndirect.light_ elementIndex element.indirectLight_ }

end ChartIndirectTracingKernel

/-- Variables of one sample of `TraceIndirectLight`, with the variables of the task the
sample works on: the bounce arrays, the ray and the random number generator. -/
structure IndirectSampleState where
  currentPosition : Vector3
  currentFaceNormal : Vector3
  currentSmoothNormal : Vector3
  currentRayDirection : Vector3
  numBounces : Nat
  albedo : List Vector3
  incomingSamples : List Vector3
  incomingFactors : List ℚ
  rayHit : RTCRayHit
  rng : Nat

/-- The bounce loop of `TraceIndirectLight`, `n` iterations from `bounceIndex` on;
a `break` returns the state as it is. -/
def TraceIndirectLightBounces (be : Backend) (fuel : Nat) (bakedDirect : List LightmapChartBakedDirect)
    (raytracerScene : RaytracerScene) (settings : LightmapTracingSettings) :
    (n : Nat) → (bounceIndex : Nat) → IndirectSampleState → Option IndirectSampleState
  | 0, _, s => some s
  | n + 1, bounceIndex, s =>
    let geometryIndex := raytracerScene.geometries
    let rayHit : RTCRayHit :=
      { ray := { s.rayHit.ray with
          org := s.currentPosition, dir := s.currentRayDirection, tfar := raytracerScene.maxDistance }
        hit := { s.rayHit.hit with geomID := RTC_INVALID_GEOMETRY_ID } }
    let q := rtcIntersect1 be (TracingFilterIndirect be) (⟨geometryIndex⟩, s.rng) rayHit
    let rayHit := q.2
    let s := { s with rayHit := rayHit, rng := q.1.2 }
    if rayHit.hit.geomID = RTC_INVALID_GEOMETRY_ID then
      some s
    -- Check normal orientation
    else if s.currentRayDirection.DotProduct rayHit.hit.Ng > 0 then
      some s
    else
      -- Sample lightmap UV
      let geometry := geometryIndex.getD rayHit.hit.geomID default
      let uv := be.interpolate0 geometry.embreeGeometry_ rayHit.hit.primID rayHit.hit.u rayHit.hit.v 0
      let lightmapUV : Vector2 := ⟨uv.x_, uv.y_⟩
      -- Modify incoming flux
      let probability := 1 / (2 * be.M_PI)
      let cosTheta := max 0 (s.currentRayDirection.DotProduct s.currentSmoothNormal)
      let reflectance := 1 / be.M_PI
      let brdf := reflectance / be.M_PI
      let lightmapIndex := geometry.lightmapIndex_
      let chart := bakedDirect.getD lightmapIndex default
      let sampleLocation := chart.GetNearestLocation lightmapUV
      let s := { s with
        incomingSamples := s.incomingSamples.set bounceIndex (chart.GetSurfaceLight sampleLocation)
        incomingFactors := s.incomingFactors.set bounceIndex (brdf * cosTheta / probability)
        numBounces := s.numBounces + 1 }
      -- Go to next hemisphere
      if s.numBounces < settings.numBounces_ then
        -- Offset position a bit
        let hitNormal := be.Normalized rayHit.hit.Ng
        -- Update smooth normal
        let smoothNormal :=
          be.interpolate0 geometry.embreeGeometry_ rayHit.hit.primID rayHit.hit.u rayHit.hit.v 1
        -- Update face normal and find new direction to sample
        (RandomHemisphereDirection be fuel s.rng hitNormal).bind fun d =>
          TraceIndirectLightBounces be fuel bakedDirect raytracerScene settings n (bounceIndex + 1)
            { s with
              -- Update albedo for hit surface
              albedo := s.albedo.set (bounceIndex + 1) (chart.GetAlbedo sampleLocation)
              -- Move to hit position
              currentPosition :=
                ⟨rayHit.ray.org.x_ + rayHit.ray.dir.x_ * rayHit.ray.tfar
                    + hitNormal.x_ * settings.rayPositionOffset_,
                  rayHit.ray.org.y_ + rayHit.ray.dir.y_ * rayHit.ray.tfar
                    + hitNormal.y_ * settings.rayPositionOffset_,
                  rayHit.ray.org.z_ + rayHit.ray.dir.z_ * rayHit.ray.tfar
                    + hitNormal.z_ * settings.rayPositionOffset_⟩
              currentSmoothNormal := be.Normalized smoothNormal
              currentFaceNormal := hitNormal
              currentRayDirection := d.1
              rng := d.2 }
      else
        TraceIndirectLightBounces be fuel bakedDirect raytracerScene settings n (bounceIndex + 1) s

/-- Accumulate samples back-to-front: the bounces `numBounces - 1` down to `0`.  The
statement `albedo[bounceIndex] = albedo[bounceIndex]` of the source does nothing and is
left out. -/
def AccumulateBounces (s : IndirectSampleState) : Vector3 :=
  (List.range s.numBounces).reverse.foldl
    (fun (sampleIndirectLight : Vector3) bounceIndex =>
      ((sampleIndirectLight.add (s.incomingSamples.getD bounceIndex default)).scale
        (s.incomingFactors.getD bounceIndex 0)).mul (s.albedo.getD bounceIndex default))
    Vector3.ZERO

/-- Variables of one task of `TraceIndirectLight` that live across elements. -/
structure IndirectTaskState where
  kernel : ChartIndirectTracingKernel
  bakedIndirect : LightmapChartBakedIndirect
  albedo : List Vector3
  incomingSamples : List Vector3
  incomingFactors : List ℚ
  rayHit : RTCRayHit
  rng : Nat

/-- Body of the sample loop of `TraceIndirectLight`. -/
def TraceIndirectLightSample (be : Backend) (fuel : Nat) (bakedDirect : List LightmapChartBakedDirect)
    (raytracerScene : RaytracerScene) (settings : LightmapTracingSettings)
    (s : ChartIndirectTracingElement × IndirectTaskState) (sampleIndex : Nat) :
    Option (ChartIndirectTracingElement × IndirectTaskState) :=
  (s.1.BeginSample be fuel sampleIndex s.2.rng).bind fun b =>
    (TraceIndirectLightBounces be fuel bakedDirect raytracerScene settings settings.numBounces_ 0
      { currentPosition := b.1.position
        currentFaceNormal := b.1.faceNormal
        currentSmoothNormal := b.1.smoothNormal
        currentRayDirection := b.1.rayDirection
        numBounces := 0
        albedo := s.2.albedo.set 0 b.1.albedo
        incomingSamples := s.2.incomingSamples
        incomingFactors := s.2.incomingFactors
        rayHit := s.2.rayHit
        rng := b.2 }).map fun r =>
      (s.1.EndSample (AccumulateBounces r),
        { s.2 with
          albedo := r.albedo, incomingSamples := r.incomingSamples, incomingFactors := r.incomingFactors
          rayHit := r.rayHit, rng := r.rng })

/-- Body of the element loop of `TraceIndirectLight`. -/
def TraceIndirectLightElement (be : Backend) (fuel : Nat) (bakedDirect : List LightmapChartBakedDirect)
    (raytracerScene : RaytracerScene) (settings : LightmapTracingSettings) (s : IndirectTaskState)
    (elementIndex : Nat) : Option IndirectTaskState :=
  let b := s.kernel.BeginElement be s.bakedIndirect elementIndex
  let s := { s with kernel := b.2.1, bakedIndirect := b.2.2 }
  if !b.1.valid then
    some s
  else
    ((List.range s.kernel.GetNumSamples).foldlM
      (TraceIndirectLightSample be fuel bakedDirect raytracerScene settings) (b.1, s)).map fun r =>
      { r.2 with bakedIndirect := r.2.kernel.EndElement r.2.bakedIndirect elementIndex r.1 }

/-- The task of `TraceIndirectLight` for the elements `fromIndex ≤ i < toIndex`: the
baked chart and the state of the random number generator after the task. -/
def TraceIndirectLightTask (be : Backend) (fuel : Nat) (sharedKernel : ChartIndirectTracingKernel)
    (bakedDirect : List LightmapChartBakedDirect) (raytracerScene : RaytracerScene)
    (settings : LightmapTracingSettings) (s : LightmapChartBakedIndirect × Nat)
    (fromIndex toIndex : Nat) : Option (LightmapChartBakedIndirect × Nat) :=
  let rayHit : RTCRayHit :=
    { ray := { org := default, dir := default, tnear := 0, tfar := 0, time := 0,
               mask := be.PrimaryLODGeometry, id := 0, flags := 0 }
      hit := { Ng := default, u := 0, v := 0, primID := 0, geomID := 0 } }
  ((List.range' fromIndex (toIndex - fromIndex)).foldlM
    (TraceIndirectLightElement be fuel bakedDirect raytracerScene settings)
    { kernel := sharedKernel
      bakedIndirect := s.1
      albedo := List.replicate settings.MaxBounces default
      incomingSamples := List.replicate settings.MaxBounces default
      incomingFactors := List.replicate settings.MaxBounces 0
      rayHit := rayHit
      rng := s.2 }).map fun r => (r.bakedIndirect, r.rng)

/-- Trace indirect lighting, for the chart kernel.  The result is the baked chart and
the state of the random number generator; `none` when a random direction was not
found within `fuel` draws. -/
def TraceIndirectLight (be : Backend) (fuel : Nat) (sharedKernel : ChartIndirectTracingKernel)
    (bakedDirect : List LightmapChartBakedDirect) (raytracerScene : RaytracerScene)
    (settings : LightmapTracingSettings) (bakedIndirect : LightmapChartBakedIndirect) (rng : Nat) :
    Option (LightmapChartBakedIndirect × Nat) :=
  ParallelFor (sharedKernel.GetNumElements bakedIndirect) settings.numTasks_
    (fun (s : Option (LightmapChartBakedIndirect × Nat)) fromIndex toIndex =>
      s.bind fun s =>
        TraceIndirectLightTask be fuel sharedKernel bakedDirect raytracerScene settings s fromIndex toIndex)
    (some (bakedIndirect, rng))

/-- Accumulate indirect light into a chart. -/
def BakeIndirectLightForCharts (be : Backend) (fuel : Nat) (bakedIndirect : LightmapChartBakedIndirect)
    (bakedDirect : List LightmapChartBakedDirect) (geometryBuffer : LightmapChartGeometryBuffer)
    (raytracerScene : RaytracerScene) (geometryBufferToRaytracer : List Nat)
    (settings : LightmapTracingSettings) (rng : Nat) : Option (LightmapChartBakedIndirect × Nat) :=
  let kernel : ChartIndirectTracingKernel :=
    ⟨geometryBuffer, geometryBufferToRaytracer, raytracerScene.geometries, settings, 0⟩
  TraceIndirectLight be fuel kernel bakedDirect raytracerScene settings bakedIndirect rng

/-! ## Light probe mesh of the global illumination component -/

/-- Product with a scalar, `Vector4::operator *(float)`. -/
def Vector4.scale (a : Vector4) (s : ℚ) : Vector4 := ⟨a.x_ * s, a.y_ * s, a.z_ * s, a.w_ * s⟩

/-- Component by index, `Vector4::operator [](unsigned)`. -/
def Vector4.get (a : Vector4) (i : Fin 4) : ℚ :=
  match i with
  | 0 => a.x_
  | 1 => a.y_
  | 2 => a.z_
  | 3 => a.w_

/-- Modelled from the spec: `SphericalHarmonicsDot9` of `Math/SphericalHarmonics.h` is not
among the sources.  Spherical harmonics of a colour with 9 coefficients in the "dot" form:
seven vectors that scale and add component by component; the default value is zero. -/
structure SphericalHarmonicsDot9 where
  Ar_ : Vector4
  Ag_ : Vector4
  Ab_ : Vector4
  Br_ : Vector4
  Bg_ : Vector4
  Bb_ : Vector4
  C_ : Vector4
deriving DecidableEq

namespace SphericalHarmonicsDot9

/-- The value of the default constructor, `SphericalHarmonicsDot9{}`. -/
def ZERO : SphericalHarmonicsDot9 :=
  ⟨Vector4.ZERO, Vector4.ZERO, Vector4.ZERO, Vector4.ZERO, Vector4.ZERO, Vector4.ZERO, Vector4.ZERO⟩

instance : Inhabited SphericalHarmonicsDot9 := ⟨ZERO⟩

/-- Product with a scalar, `operator *(float)`. -/
def scale (a : SphericalHarmonicsDot9) (s : ℚ) : SphericalHarmonicsDot9 :=
  ⟨a.Ar_.scale s, a.Ag_.scale s, a.Ab_.scale s, a.Br_.scale s, a.Bg_.scale s, a.Bb_.scale s,
    a.C_.scale s⟩

/-- Sum, `operator +=`. -/
def add (a b : SphericalHarmonicsDot9) : SphericalHarmonicsDot9 :=
  ⟨a.Ar_.add b.Ar_, a.Ag_.add b.Ag_, a.Ab_.add b.Ab_, a.Br_.add b.Br_, a.Bg_.add b.Bg_,
    a.Bb_.add b.Bb_, a.C_.add b.C_⟩

end SphericalHarmonicsDot9

/-- Modelled from the spec: `Tetrahedron` of `Math/TetrahedralMesh.h` is not among the
sources.  Four vertex indices and four neighbour indices; `M_MAX_UNSIGNED` as a neighbour
stands for "outside of the mesh". -/
structure Tetrahedron where
  indices_ : Fin 4 → Nat
  neighbors_ : Fin 4 → Nat

instance : Inhabited Tetrahedron := ⟨⟨fun _ => 0, fun _ => M_MAX_UNSIGNED⟩⟩

/-- Modelled from the spec: `TetrahedralMesh` of `Math/TetrahedralMesh.h` is not among the
sources.  The tetrahedra, the number of inner tetrahedra, and the barycentric sampler
`GetBarycentricCoords(tetIndex, position)` the component calls. -/
structure TetrahedralMesh where
  tetrahedrons_ : List Tetrahedron
  numInnerTetrahedrons_ : Nat
  GetBarycentricCoords : Nat → Vector3 → Vector4

/-- The component `GlobalIllumination`, with what the samplers read: the mesh of the
light probes and the baked light `lightProbesCollection_.lightProbes_[i].bakedLight_`. -/
structure GlobalIllumination where
  lightProbesMesh_ : TetrahedralMesh
  lightProbesBakedLight_ : List SphericalHarmonicsDot9

/-- How a call of `SampleLightProbeMesh` returns: at once on an empty mesh, from inside
the loop on containment, after the `break` on the sentinel neighbour, or after the loop
has used up its iterations. -/
inductive WalkExit where
  | empty
  | contained
  | sentinel
  | exhausted
deriving DecidableEq

/-- Result of `SampleLightProbeMesh`: the returned weights and the reference parameter
`hint` after the call.  The other fields are not in the source; they record how the call
returned, how often the loop assigned `hint` and how often `GetBarycentricCoords` was
called. -/
structure WalkResult where
  weights : Vector4
  hint : Nat
  exit : WalkExit
  steps : Nat
  evaluations : Nat
deriving DecidableEq

/-- The index of the neighbour the walk steps to: the chain of comparisons of the loop
of `SampleLightProbeMesh`. -/
def walkNeighbor (weights : Vector4) : Fin 4 :=
  if weights.x_ < weights.y_ ∧ weights.x_ < weights.z_ ∧ weights.x_ < weights.w_ then 0
  else if weights.y_ < weights.z_ ∧ weights.y_ < weights.w_ then 1
  else if weights.z_ < weights.w_ then 2
  else 3

/-- The loop of `SampleLightProbeMesh` with `iterations` iterations left, and the `return`
that follows it. -/
def SampleLightProbeMeshLoop (mesh : TetrahedralMesh) (position : Vector3) :
    (iterations : Nat) → (hint : Nat) → WalkResult
  | 0, hint => ⟨mesh.GetBarycentricCoords hint position, hint, WalkExit.exhausted, 0, 1⟩
  | n + 1, hint =>
    let weights := mesh.GetBarycentricCoords hint position
    if weights.x_ ≥ 0 ∧ weights.y_ ≥ 0 ∧ weights.z_ ≥ 0 ∧ weights.w_ ≥ 0 then
      ⟨weights, hint, WalkExit.contained, 0, 1⟩
    else
      let hint := (mesh.tetrahedrons_.getD hint default).neighbors_ (walkNeighbor weights)
      if hint = M_MAX_UNSIGNED then
        ⟨mesh.GetBarycentricCoords hint position, hint, WalkExit.sentinel, 1, 2⟩
      else
        let r := SampleLightProbeMeshLoop mesh position n hint
        { r with steps := r.steps + 1, evaluations := r.evaluations + 1 }

/-- Sample the light probe mesh: the barycentric weights for `position`, and the
tetrahedron found in `hint`.  The number of tetrahedra is taken to fit `unsigned`. -/
def GlobalIllumination.SampleLightProbeMesh (gi : GlobalIllumination) (position : Vector3)
    (hint : Nat) : WalkResult :=
  if gi.lightProbesMesh_.tetrahedrons_.isEmpty then
    ⟨Vector4.ZERO, hint, WalkExit.empty, 0, 0⟩
  else
    let maxIters := gi.lightProbesMesh_.tetrahedrons_.length
    let hint := if hint ≥ maxIters then 0 else hint
    SampleLightProbeMeshLoop gi.lightProbesMesh_ position maxIters hint

/-- Sample the ambient spherical harmonics at `position`: the value and `hint` after the
call. -/
def GlobalIllumination.SampleAmbientSH (gi : GlobalIllumination) (position : Vector3) (hint : Nat) :
    SphericalHarmonicsDot9 × Nat :=
  let r := gi.SampleLightProbeMesh position hint
  let weights := r.weights
  let hint := r.hint
  if hint ≥ gi.lightProbesMesh_.tetrahedrons_.length then
    (SphericalHarmonicsDot9.ZERO, hint)
  else
    let tetrahedron := gi.lightProbesMesh_.tetrahedrons_.getD hint default
    let sh := (List.finRange 3).foldl
      (fun (sh : SphericalHarmonicsDot9) (i : Fin 3) =>
        sh.add ((gi.lightProbesBakedLight_.getD (tetrahedron.indices_ (Fin.castSucc i)) default).scale
          (weights.get (Fin.castSucc i))))
      SphericalHarmonicsDot9.ZERO
    if hint < gi.lightProbesMesh_.numInnerTetrahedrons_ then
      (sh.add ((gi.lightProbesBakedLight_.getD (tetrahedron.indices_ 3) default).scale (weights.get 3)),
        hint)
    else (sh, hint)

/-! ## Indirect light of light probes -/

/-- Modelled from the spec: `SphericalHarmonicsColor9` of `Math/SphericalHarmonics.h` is not
among the sources.  Spherical harmonics of a colour with 9 coefficients, which scale and
add coefficient by coefficient; the default value is zero. -/
structure SphericalHarmonicsColor9 where
  values_ : Fin 9 → Vector3

namespace SphericalHarmonicsColor9

/-- The value of the default constructor. -/
def ZERO : SphericalHarmonicsColor9 := ⟨fun _ => Vector3.ZERO⟩

instance : Inhabited SphericalHarmonicsColor9 := ⟨ZERO⟩

/-- Product with a scalar, `operator *(float)`. -/
def scale (a : SphericalHarmonicsColor9) (s : ℚ) : SphericalHarmonicsColor9 :=
  ⟨fun i => (a.values_ i).scale s⟩

/-- Sum, `operator +=`. -/
def add (a b : SphericalHarmonicsColor9) : SphericalHarmonicsColor9 :=
  ⟨fun i => (a.values_ i).add (b.values_ i)⟩

end SphericalHarmonicsColor9

/-- Functions of `Math/SphericalHarmonics.h` the probe kernels take from outside of the
sources. -/
structure HarmonicsBackend where
  /-- The constructor `SphericalHarmonicsColor9(direction, color)`. -/
  ofDirection : Vector3 → Vector3 → SphericalHarmonicsColor9
  /-- The constructor `SphericalHarmonicsDot9{ sh }`. -/
  toDot9 : SphericalHarmonicsColor9 → SphericalHarmonicsDot9

/-- Modelled from the spec: `LightProbeCollection` of `Graphics/LightProbeGroup.h` is not
among the sources.  The arrays of the collection the probe kernels read and write. -/
structure LightProbeCollection where
  worldPositions_ : List Vector3
  bakedSphericalHarmonics_ : List SphericalHarmonicsDot9

/-- What stops a task of the probe pass: the loop of the random directions has not ended
within the fuel, or a division gave a value that is not finite. -/
inductive TraceFault where
  | outOfFuel
  | nonFinite
deriving DecidableEq

/-- Division of floats, `a / b`.  The rationals have neither infinities nor NaN, which is
what a division of floats by zero gives: such a division is the fault `nonFinite` here. -/
def divideFloat (a b : ℚ) : Except TraceFault ℚ :=
  if b = 0 then Except.error TraceFault.nonFinite else Except.ok (a / b)

/-- Indirect light tracing for light probes: tracing element. -/
structure LightProbeIndirectTracingElement where
  position_ : Vector3
  currentDirection_ : Vector3
  sh_ : SphericalHarmonicsColor9
  average_ : Vector3
  weight_ : ℚ

namespace LightProbeIndirectTracingElement

/-- Returns whether element is valid (`operator bool`). -/
def valid (_e : LightProbeIndirectTracingElement) : Bool := true

/-- Begin sample. Return position, normal and initial ray direction; the element keeps
the direction. -/
def BeginSample (be : Backend) (fuel : Nat) (e : LightProbeIndirectTracingElement)
    (_sampleIndex : Nat) (rng : Nat) :
    Option (LightProbeIndirectTracingElement × SampleStart × Nat) :=
  (RandomDirection be fuel rng).map fun r =>
    ({ e with currentDirection_ := r.1 }, ⟨e.position_, r.1, r.1, r.1, Vector3.ONE⟩, r.2)

/-- End sample. -/
def EndSample (hb : HarmonicsBackend) (e : LightProbeIndirectTracingElement) (light : Vector3) :
    LightProbeIndirectTracingElement :=
  { e with
    sh_ := e.sh_.add (hb.ofDirection e.currentDirection_ light)
    average_ := e.average_.add light
    weight_ := e.weight_ + 1 }

end LightProbeIndirectTracingElement

/-- Indirect light tracing for light probes: tracing kernel.  The collection the kernel
points to is passed along as state. -/
structure LightProbeIndirectTracingKernel where
  settings_ : LightmapTracingSettings

namespace LightProbeIndirectTracingKernel

/-- Return number of samples. -/
def GetNumSamples (k : LightProbeIndirectTracingKernel) : Nat := k.settings_.numIndirectProbeSamples_

/-- Begin tracing element: the element of the position, the other members with their
default values. -/
def BeginElement (_k : LightProbeIndirectTracingKernel) (collection : LightProbeCollection)
    (elementIndex : Nat) : LightProbeIndirectTracingElement :=
  { position_ := collection.worldPositions_.getD elementIndex default
    currentDirection_ := Vector3.ZERO
    sh_ := SphericalHarmonicsColor9.ZERO
    average_ := Vector3.ZERO
    weight_ := 0 }

/-- End tracing element: `sh{ element.sh_ * (M_PI / element.weight_) }` is added to the
baked harmonics of the probe. -/
def EndElement (_k : LightProbeIndirectTracingKernel) (be : Backend) (hb : HarmonicsBackend)
    (collection : LightProbeCollection) (elementIndex : Nat)
    (element : LightProbeIndirectTracingElement) : Except TraceFault LightProbeCollection :=
  (divideFloat be.M_PI element.weight_).map fun factor =>
    { collection with
      bakedSphericalHarmonics_ := addAt SphericalHarmonicsDot9.add collection.bakedSphericalHarmonics_
        elementIndex (hb.toDot9 (element.sh_.scale factor)) }

end LightProbeIndirectTracingKernel

/-- Variables of one task of `TraceIndirectLight` for the probe kernel that live across
elements. -/
structure ProbeTaskState where
  collection : LightProbeCollection
  albedo : List Vector3
  incomingSamples : List Vector3
  incomingFactors : List ℚ
  rayHit : RTCRayHit
  rng : Nat

/-- Body of the sample loop of `TraceIndirectLight`, for the probe kernel. -/
def TraceIndirectLightProbeSample (be : Backend) (hb : HarmonicsBackend) (fuel : Nat)
    (bakedDirect : List LightmapChartBakedDirect) (raytracerScene : RaytracerScene)
    (settings : LightmapTracingSettings)
    (s : LightProbeIndirectTracingElement × ProbeTaskState) (sampleIndex : Nat) :
    Except TraceFault (LightProbeIndirectTracingElement × ProbeTaskState) :=
  match s.1.BeginSample be fuel sampleIndex s.2.rng with
  | none => Except.error TraceFault.outOfFuel
  | some b =>
    match TraceIndirectLightBounces be fuel bakedDirect raytracerScene settings settings.numBounces_ 0
      { currentPosition := b.2.1.position
        currentFaceNormal := b.2.1.faceNormal
        currentSmoothNormal := b.2.1.smoothNormal
        currentRayDirection := b.2.1.rayDirection
        numBounces := 0
        albedo := s.2.albedo.set 0 b.2.1.albedo
        incomingSamples := s.2.incomingSamples
        incomingFactors := s.2.incomingFactors
        rayHit := s.2.rayHit
        rng := b.2.2 } with
    | none => Except.error TraceFault.outOfFuel
    | some r =>
      Except.ok (b.1.EndSample hb (AccumulateBounces r),
        { s.2 with
          albedo := r.albedo, incomingSamples := r.incomingSamples, incomingFactors := r.incomingFactors
          rayHit := r.rayHit, rng := r.rng })

/-- Body of the element loop of `TraceIndirectLight`, for the probe kernel. -/
def TraceIndirectLightProbeElement (be : Backend) (hb : HarmonicsBackend) (fuel : Nat)
    (bakedDirect : List LightmapChartBakedDirect) (raytracerScene : RaytracerScene)
    (settings : LightmapTracingSettings) (kernel : LightProbeIndirectTracingKernel)
    (s : ProbeTaskState) (elementIndex : Nat) : Except TraceFault ProbeTaskState :=
  let element := kernel.BeginElement s.collection elementIndex
  if !element.valid then
    Except.ok s
  else
    ((List.range kernel.GetNumSamples).foldlM
      (TraceIndirectLightProbeSample be hb fuel bakedDirect raytracerScene settings) (element, s)).bind
      fun r =>
        (kernel.EndElement be hb r.2.collection elementIndex r.1).map fun collection =>
          { r.2 with collection := collection }

/-! ## Geometry buffer preprocessing -/

/-- The arrays of the bounces in a task of `TraceIndirectLight`, each of `MaxBounces`
elements. -/
inductive BounceArray where
  | albedo
  | incomingSamples
  | incomingFactors
deriving DecidableEq

/-- An access to an array of the bounces: the array, the index, and whether the element is
written or read. -/
structure BounceAccess where
  array : BounceArray
  index : Nat
  write : Bool
deriving DecidableEq

/-- The bounce loop of `TraceIndirectLight` with a record of its accesses to the arrays of
the bounces, in the order they are made: the loop writes `incomingSamples[bounceIndex]` and
`incomingFactors[bounceIndex]`, and `albedo[bounceIndex + 1]` when it goes to the next
hemisphere. -/
def TraceIndirectLightBouncesLog (be : Backend) (fuel : Nat)
    (bakedDirect : List LightmapChartBakedDirect) (raytracerScene : RaytracerScene)
    (settings : LightmapTracingSettings) :
    (n : Nat) → (bounceIndex : Nat) → IndirectSampleState →
      Option (IndirectSampleState × List BounceAccess)
  | 0, _, s => some (s, [])
  | n + 1, bounceIndex, s =>
    let geometryIndex := raytracerScene.geometries
    let rayHit : RTCRayHit :=
      { ray := { s.rayHit.ray with
          org := s.currentPosition, dir := s.currentRayDirection, tfar := raytracerScene.maxDistance }
        hit := { s.rayHit.hit with geomID := RTC_INVALID_GEOMETRY_ID } }
    let q := rtcIntersect1 be (TracingFilterIndirect be) (⟨geometryIndex⟩, s.rng) rayHit
    let rayHit := q.2
    let s := { s with rayHit := rayHit, rng := q.1.2 }
    if rayHit.hit.geomID = RTC_INVALID_GEOMETRY_ID then
      some (s, [])
    -- Check normal orientation
    else if s.currentRayDirection.DotProduct rayHit.hit.Ng > 0 then
      some (s, [])
    else
      -- Sample lightmap UV
      let geometry := geometryIndex.getD rayHit.hit.geomID default
      let uv := be.interpolate0 geometry.embreeGeometry_ rayHit.hit.primID rayHit.hit.u rayHit.hit.v 0
      let lightmapUV : Vector2 := ⟨uv.x_, uv.y_⟩
      -- Modify incoming flux
      let probability := 1 / (2 * be.M_PI)
      let cosTheta := max 0 (s.currentRayDirection.DotProduct s.currentSmoothNormal)
      let reflectance := 1 / be.M_PI
      let brdf := reflectance / be.M_PI
      let lightmapIndex := geometry.lightmapIndex_
      let chart := bakedDirect.getD lightmapIndex default
      let sampleLocation := chart.GetNearestLocation lightmapUV
      let s := { s with
        incomingSamples := s.incomingSamples.set bounceIndex (chart.GetSurfaceLight sampleLocation)
        incomingFactors := s.incomingFactors.set bounceIndex (brdf * cosTheta / probability)
        numBounces := s.numBounces + 1 }
      let accesses : List BounceAccess :=
        [⟨BounceArray.incomingSamples, bounceIndex, true⟩,
          ⟨BounceArray.incomingFactors, bounceIndex, true⟩]
      -- Go to next hemisphere
      if s.numBounces < settings.numBounces_ then
        -- Offset position a bit
        let hitNormal := be.Normalized rayHit.hit.Ng
        -- Update smooth normal
        let smoothNormal :=
          be.interpolate0 geometry.embreeGeometry_ rayHit.hit.primID rayHit.hit.u rayHit.hit.v 1
        -- Update face normal and find new direction to sample
        (RandomHemisphereDirection be fuel s.rng hitNormal).bind fun d =>
          (TraceIndirectLightBouncesLog be fuel bakedDirect raytracerScene settings n (bounceIndex + 1)
            { s with
              -- Update albedo for hit surface
              albedo := s.albedo.set (bounceIndex + 1) (chart.GetAlbedo sampleLocation)
              -- Move to hit position
              currentPosition :=
                ⟨rayHit.ray.org.x_ + rayHit.ray.dir.x_ * rayHit.ray.tfar
                    + hitNormal.x_ * settings.rayPositionOffset_,
                  rayHit.ray.org.y_ + rayHit.ray.dir.y_ * rayHit.ray.tfar
                    + hitNormal.y_ * settings.rayPositionOffset_,
                  rayHit.ray.org.z_ + rayHit.ray.dir.z_ * rayHit.ray.tfar
                    + hitNormal.z_ * settings.rayPositionOffset_⟩
              currentSmoothNormal := be.Normalized smoothNormal
              currentFaceNormal := hitNormal
              currentRayDirection := d.1
              rng := d.2 }).map fun r =>
            (r.1, accesses ++ ⟨BounceArray.albedo, bounceIndex + 1, true⟩ :: r.2)
      else
        (TraceIndirectLightBouncesLog be fuel bakedDirect raytracerScene settings n (bounceIndex + 1)
          s).map fun r => (r.1, accesses ++ r.2)

/-- The accesses of the accumulation of the samples back-to-front to the arrays of the
bounces, in the order they are made: for the bounces `numBounces - 1` down to `0` the loop
reads `albedo[bounceIndex]` for the comparison, `incomingSamples[bounceIndex]`,
`incomingFactors[bounceIndex]` and `albedo[bounceIndex]`. -/
def AccumulateBouncesLog (s : IndirectSampleState) : List BounceAccess :=
  (List.range s.numBounces).reverse.flatMap fun bounceIndex =>
    [⟨BounceArray.albedo, bounceIndex, false⟩, ⟨BounceArray.incomingSamples, bounceIndex, false⟩,
      ⟨BounceArray.incomingFactors, bounceIndex, false⟩, ⟨BounceArray.albedo, bounceIndex, false⟩]

/-- The access of `BeginSample` to the arrays of the bounces: the albedo of the sample is
written to `albedo[0]`. -/
def BeginSampleLog : List BounceAccess := [⟨BounceArray.albedo, 0, true⟩]

/-! ## Test data and definitions for the statements -/

/-- A geometry with the given object, geometry and LOD index, opaque and untextured. -/
def opaqueGeometry (objectIndex geometryIndex lodIndex : Nat) : RaytracerGeometry :=
  { objectIndex_ := objectIndex, geometryIndex_ := geometryIndex, lodIndex_ := lodIndex, numLods_ := 1,
    lightmapIndex_ := 0, embreeGeometry_ := 0, opaque_ := true, diffuseColor_ := Vector3.ONE,
    alpha_ := 1, diffuseImage_ := none, diffuseImageWidth_ := 0, diffuseImageHeight_ := 0 }

/-- A geometry with the given object, geometry and LOD index, not opaque, untextured, white
and with the given alpha. -/
def glassGeometry (objectIndex geometryIndex lodIndex : Nat) (alpha : ℚ) : RaytracerGeometry :=
  { opaqueGeometry objectIndex geometryIndex lodIndex with opaque_ := false, alpha_ := alpha }

/-- A hit of the geometry with the given index. -/
def hitOf (geomID : Nat) : RTCHit := { Ng := Vector3.UP, u := 0, v := 0, primID := 0, geomID := geomID }

/-- A backend whose scene holds the given candidates for every ray; the other
functions are simple stand-ins. -/
def sceneBackend (candidates : List RTCCandidate) : Backend :=
  { candidates := fun _ => candidates
    interpolate0 := fun _ _ _ _ _ => Vector3.ZERO
    sqrt := fun x => x
    Normalized := fun v => v
    randomUnit := fun _ => 1 / 2
    sampleProbes := fun _ hint _ => (Vector3.ZERO, hint)
    M_PI := 22 / 7
    AllGeometry := 4294967295
    PrimaryLODGeometry := 1 }

/-- Geometries of the test scenes: a floor, a half transparent glass pane, a wall and
the LOD 1 of the floor. -/
def testGeometries : List RaytracerGeometry :=
  [opaqueGeometry 0 0 0, glassGeometry 1 0 0 (1 / 2), opaqueGeometry 2 0 0, opaqueGeometry 0 0 1]

/-- Geometry buffer of the test scenes: a flat quad of two texels that face up. -/
def quadBuffer : LightmapChartGeometryBuffer :=
  { geometryIds_ := [1, 1]
    positions_ := [⟨0, 0, 0⟩, ⟨1, 0, 0⟩]
    smoothNormals_ := [Vector3.UP, Vector3.UP]
    faceNormals_ := [Vector3.UP, Vector3.UP]
    texelRadiuses_ := [1, 1]
    albedo_ := [⟨1 / 2, 1 / 2, 1 / 2⟩, ⟨1 / 2, 1 / 2, 1 / 2⟩]
    emission_ := [Vector3.ZERO, ⟨1, 2, 3⟩] }

/-- Geometry buffer with an empty texel followed by a texel of the floor. -/
def holeBuffer : LightmapChartGeometryBuffer :=
  { quadBuffer with geometryIds_ := [0, 1] }

/-- Settings of the test scenes, with the given number of tasks and of direct samples. -/
def testSettings (numTasks numDirectSamples : Nat) : LightmapTracingSettings :=
  { MaxBounces := 8, numTasks_ := numTasks, numDirectSamples_ := numDirectSamples
    numIndirectChartSamples_ := 1, numIndirectProbeSamples_ := 1, numBounces_ := 1
    rayPositionOffset_ := 0, shadowLeakBias_ := 0, shadowLeakOffset_ := 0 }

/-- Chart kernel of the quad that bakes direct and indirect light. -/
def quadKernel (numDirectSamples : Nat) : ChartDirectTracingKernel :=
  ⟨quadBuffer, [0, 0], testGeometries, testSettings 1 numDirectSamples, true, true⟩

/-- A light that shines straight down. -/
def sun : DirectionalRayGenerator := ⟨⟨1, 1 / 2, 1 / 4, 1⟩, Vector3.DOWN⟩

/-- The scene of the test geometries. -/
def testScene : RaytracerScene := ⟨100, testGeometries⟩

/-- A zero-initialised chart of two texels. -/
def emptyChart : LightmapChartBakedDirect :=
  ⟨2, 1, 2, 1, [Vector4.ZERO, Vector4.ZERO], [Vector3.ZERO, Vector3.ZERO], [Vector3.ZERO, Vector3.ZERO]⟩

/-- The state a sample of the element `element` starts from in the test scenes. -/
def sampleStart (element : ChartDirectTracingElement) :
    ChartDirectTracingElement × DirectTracingContextForCharts × RTCRayHit :=
  (element, ⟨opaqueGeometry 0 0 0, testGeometries, Vector3.ZERO⟩,
    ⟨⟨Vector3.ZERO, Vector3.ZERO, 0, 0, 0, 4294967295, 0, 0⟩, hitOf 0⟩)

/-- A zero-initialised indirect chart of two texels. -/
def emptyIndirectChart : LightmapChartBakedIndirect :=
  ⟨2, 1, [Vector4.ZERO, Vector4.ZERO], [Vector4.ZERO, Vector4.ZERO]⟩

/-- The light transport unroll of the spec for one colour channel and `n` recorded bounces:
the sum over `i < n` of `surfaceLight i` times the product over `j ≤ i` of
`factor j × albedo j`. -/
def transportUnroll (surfaceLight factor albedo : Nat → ℚ) (n : Nat) : ℚ :=
  ∑ i in Finset.range n, surfaceLight i * ∏ j in Finset.range (i + 1), (factor j * albedo j)

/-- The light transport unroll of the spec for the bounces recorded in a sample state,
channel by channel. -/
def unrollOf (s : IndirectSampleState) : Vector3 :=
  ⟨transportUnroll (fun i => (s.incomingSamples.getD i default).x_)
      (fun i => s.incomingFactors.getD i 0) (fun i => (s.albedo.getD i default).x_) s.numBounces,
    transportUnroll (fun i => (s.incomingSamples.getD i default).y_)
      (fun i => s.incomingFactors.getD i 0) (fun i => (s.albedo.getD i default).y_) s.numBounces,
    transportUnroll (fun i => (s.incomingSamples.getD i default).z_)
      (fun i => s.incomingFactors.getD i 0) (fun i => (s.albedo.getD i default).z_) s.numBounces⟩

/-- The intersection query of an iteration of the bounce loop that starts in the state `s`:
the context with the state of the random number generator, and the ray with its hit. -/
def bounceQuery (be : Backend) (raytracerScene : RaytracerScene) (s : IndirectSampleState) :
    (IndirectTracingContext × Nat) × RTCRayHit :=
  rtcIntersect1 be (TracingFilterIndirect be) (⟨raytracerScene.geometries⟩, s.rng)
    { ray := { s.rayHit.ray with
        org := s.currentPosition, dir := s.currentRayDirection, tfar := raytracerScene.maxDistance }
      hit := { s.rayHit.hit with geomID := RTC_INVALID_GEOMETRY_ID } }

/-- The state in which an iteration of the bounce loop leaves the loop by `break`: nothing
but the ray and the random number generator has moved. -/
def breakBounces (be : Backend) (raytracerScene : RaytracerScene) (s : IndirectSampleState) :
    IndirectSampleState :=
  { s with rayHit := (bounceQuery be raytracerScene s).2, rng := (bounceQuery be raytracerScene s).1.2 }

/-- The state after an iteration of the bounce loop has recorded the hit of its query as
bounce `bounceIndex`: the surface light and the factor are stored and `numBounces` has grown. -/
def recordBounce (be : Backend) (bakedDirect : List LightmapChartBakedDirect)
    (raytracerScene : RaytracerScene) (s : IndirectSampleState) (bounceIndex : Nat) :
    IndirectSampleState :=
  let q := bounceQuery be raytracerScene s
  let geometry := raytracerScene.geometries.getD q.2.hit.geomID default
  let uv := be.interpolate0 geometry.embreeGeometry_ q.2.hit.primID q.2.hit.u q.2.hit.v 0
  let chart := bakedDirect.getD geometry.lightmapIndex_ default
  let sampleLocation := chart.GetNearestLocation ⟨uv.x_, uv.y_⟩
  { s with
    rayHit := q.2
    rng := q.1.2
    incomingSamples := s.incomingSamples.set bounceIndex (chart.GetSurfaceLight sampleLocation)
    incomingFactors := s.incomingFactors.set bounceIndex
      (1 / be.M_PI / be.M_PI * max 0 (s.currentRayDirection.DotProduct s.currentSmoothNormal)
        / (1 / (2 * be.M_PI)))
    numBounces := s.numBounces + 1 }

/-- The state with which the bounce loop enters its next iteration after it has recorded the
hit of its query as bounce `bounceIndex` and a further bounce is allowed: the albedo of the
hit surface is stored at `bounceIndex + 1`, the position moves to the hit, offset along the
normal, and `d` is the new direction with the state of the generator. -/
def continueBounce (be : Backend) (bakedDirect : List LightmapChartBakedDirect)
    (raytracerScene : RaytracerScene) (settings : LightmapTracingSettings)
    (s : IndirectSampleState) (bounceIndex : Nat) (d : Vector3 × Nat) : IndirectSampleState :=
  let q := bounceQuery be raytracerScene s
  let geometry := raytracerScene.geometries.getD q.2.hit.geomID default
  let uv := be.interpolate0 geometry.embreeGeometry_ q.2.hit.primID q.2.hit.u q.2.hit.v 0
  let chart := bakedDirect.getD geometry.lightmapIndex_ default
  let sampleLocation := chart.GetNearestLocation ⟨uv.x_, uv.y_⟩
  let hitNormal := be.Normalized q.2.hit.Ng
  let smoothNormal := be.interpolate0 geometry.embreeGeometry_ q.2.hit.primID q.2.hit.u q.2.hit.v 1
  { recordBounce be bakedDirect raytracerScene s bounceIndex with
    albedo := s.albedo.set (bounceIndex + 1) (chart.GetAlbedo sampleLocation)
    currentPosition :=
      ⟨q.2.ray.org.x_ + q.2.ray.dir.x_ * q.2.ray.tfar + hitNormal.x_ * settings.rayPositionOffset_,
        q.2.ray.org.y_ + q.2.ray.dir.y_ * q.2.ray.tfar + hitNormal.y_ * settings.rayPositionOffset_,
        q.2.ray.org.z_ + q.2.ray.dir.z_ * q.2.ray.tfar + hitNormal.z_ * settings.rayPositionOffset_⟩
    currentSmoothNormal := be.Normalized smoothNormal
    currentFaceNormal := hitNormal
    currentRayDirection := d.1
    rng := d.2 }

/-- A sample state of the test scenes: a ray that goes straight down from above the floor,
no bounce recorded yet. -/
def fallingSample : IndirectSampleState :=
  { currentPosition := ⟨0, 1, 0⟩
    currentFaceNormal := Vector3.DOWN
    currentSmoothNormal := Vector3.DOWN
    currentRayDirection := Vector3.DOWN
    numBounces := 0
    albedo := List.replicate 8 Vector3.ONE
    incomingSamples := List.replicate 8 Vector3.ZERO
    incomingFactors := List.replicate 8 0
    rayHit := ⟨⟨Vector3.ZERO, Vector3.ZERO, 0, 0, 0, 1, 0, 0⟩, hitOf 0⟩
    rng := 0 }

/-- Whether the four barycentric weights are all non negative: the point is inside. -/
def allNonneg (weights : Vector4) : Prop :=
  weights.x_ ≥ 0 ∧ weights.y_ ≥ 0 ∧ weights.z_ ≥ 0 ∧ weights.w_ ≥ 0

/-- Whether every neighbour entry of the mesh is the index of a tetrahedron or the
sentinel `M_MAX_UNSIGNED`. -/
def neighborsWellFormed (mesh : TetrahedralMesh) : Prop :=
  ∀ t ∈ mesh.tetrahedrons_, ∀ k : Fin 4,
    t.neighbors_ k < mesh.tetrahedrons_.length ∨ t.neighbors_ k = M_MAX_UNSIGNED

/-- Spec-side definition of the index the walk chooses, in the words of the specification:
an index at which the barycentric weight is the minimum of the four weights, the highest
such index when several weights tie. -/
def specMinIndex (w : Vector4) : Fin 4 :=
  let m := min (min w.x_ w.y_) (min w.z_ w.w_)
  if w.w_ = m then 3
  else if w.z_ = m then 2
  else if w.y_ = m then 1
  else 0

/-- Spec-side definition of the walk, in the words of the specification: the tetrahedra the
walk visits from `hint` with `iterations` steps allowed.  The walk stays where the point is
inside; elsewhere it moves to the neighbour `specMinIndex` designates, and it ends there
when this neighbour is the sentinel. -/
def specWalk (mesh : TetrahedralMesh) (position : Vector3) : (iterations : Nat) → (hint : Nat) → List Nat
  | 0, hint => [hint]
  | n + 1, hint =>
    if 0 ≤ (mesh.GetBarycentricCoords hint position).x_
        ∧ 0 ≤ (mesh.GetBarycentricCoords hint position).y_
        ∧ 0 ≤ (mesh.GetBarycentricCoords hint position).z_
        ∧ 0 ≤ (mesh.GetBarycentricCoords hint position).w_ then [hint]
    else if (mesh.tetrahedrons_.getD hint default).neighbors_
        (specMinIndex (mesh.GetBarycentricCoords hint position)) = M_MAX_UNSIGNED then
      [hint, (mesh.tetrahedrons_.getD hint default).neighbors_
        (specMinIndex (mesh.GetBarycentricCoords hint position))]
    else
      hint :: specWalk mesh position n ((mesh.tetrahedrons_.getD hint default).neighbors_
        (specMinIndex (mesh.GetBarycentricCoords hint position)))

/-- What the specification says of two tetrahedra the walk visits one after the other: the
point is outside of the first one, and the second one is the neighbour of the first one at
the index `specMinIndex` designates. -/
def specStep (mesh : TetrahedralMesh) (position : Vector3) (a b : Nat) : Prop :=
  ¬ allNonneg (mesh.GetBarycentricCoords a position)
    ∧ b = (mesh.tetrahedrons_.getD a default).neighbors_
        (specMinIndex (mesh.GetBarycentricCoords a position))

/-- Weights of a tetrahedron that does not contain the point: the first one is negative. -/
def outsideWeights : Vector4 := ⟨-1, 1, 1 / 2, 1 / 2⟩

/-- Weights of a tetrahedron that contains the point. -/
def insideWeights : Vector4 := ⟨1 / 4, 1 / 4, 1 / 4, 1 / 4⟩

/-- A tetrahedron with the given first neighbour and no other neighbour. -/
def tetrahedronTo (neighbor : Nat) : Tetrahedron :=
  ⟨![0, 1, 2, 3], ![neighbor, M_MAX_UNSIGNED, M_MAX_UNSIGNED, M_MAX_UNSIGNED]⟩

/-- A light probe whose baked light is not zero. -/
def litProbe : SphericalHarmonicsDot9 :=
  { SphericalHarmonicsDot9.ZERO with C_ := ⟨1, 1, 1, 1⟩ }

/-- A component with two tetrahedra that are neighbours of each other: the point is
outside of the first one and inside of the second one. -/
def walkIllumination : GlobalIllumination :=
  { lightProbesMesh_ :=
      { tetrahedrons_ := [tetrahedronTo 1, tetrahedronTo 0]
        numInnerTetrahedrons_ := 2
        GetBarycentricCoords := fun i _ => if i = 0 then outsideWeights else insideWeights }
    lightProbesBakedLight_ := [litProbe, litProbe, litProbe, litProbe] }

/-- A component with two tetrahedra that are neighbours of each other, none of which
contains the point: the walk goes round in a cycle. -/
def cyclicIllumination : GlobalIllumination :=
  { lightProbesMesh_ :=
      { tetrahedrons_ := [tetrahedronTo 1, tetrahedronTo 0]
        numInnerTetrahedrons_ := 2
        GetBarycentricCoords := fun _ _ => outsideWeights }
    lightProbesBakedLight_ := [litProbe, litProbe, litProbe, litProbe] }

/-- A component with one tetrahedron without neighbours that does not contain the point. -/
def lonelyIllumination : GlobalIllumination :=
  { lightProbesMesh_ :=
      { tetrahedrons_ := [tetrahedronTo M_MAX_UNSIGNED]
        numInnerTetrahedrons_ := 1
        GetBarycentricCoords := fun _ _ => outsideWeights }
    lightProbesBakedLight_ := [litProbe, litProbe, litProbe, litProbe] }

/-- A component without light probes. -/
def emptyIllumination : GlobalIllumination :=
  { lightProbesMesh_ :=
      { tetrahedrons_ := [], numInnerTetrahedrons_ := 0, GetBarycentricCoords := fun _ _ => insideWeights }
    lightProbesBakedLight_ := [] }

/-- What `SampleAmbientSH` returns when `hint` designates a tetrahedron after the walk: the
baked light of the vertices of that tetrahedron, weighted; the fourth vertex counts for an
inner tetrahedron only. -/
def blendTetrahedron (gi : GlobalIllumination) (hint : Nat) (weights : Vector4) :
    SphericalHarmonicsDot9 :=
  let tetrahedron := gi.lightProbesMesh_.tetrahedrons_.getD hint default
  let sh := (List.finRange 3).foldl
    (fun (sh : SphericalHarmonicsDot9) (i : Fin 3) =>
      sh.add ((gi.lightProbesBakedLight_.getD (tetrahedron.indices_ (Fin.castSucc i)) default).scale
        (weights.get (Fin.castSucc i))))
    SphericalHarmonicsDot9.ZERO
  if hint < gi.lightProbesMesh_.numInnerTetrahedrons_ then
    sh.add ((gi.lightProbesBakedLight_.getD (tetrahedron.indices_ 3) default).scale (weights.get 3))
  else sh

/-- Stand-ins for the functions of the spherical harmonics: the colour goes to the first
coefficient, and the first coefficient goes to the constant term. -/
def testHarmonics : HarmonicsBackend :=
  { ofDirection := fun _ color => ⟨fun i => if i = 0 then color else Vector3.ZERO⟩
    toDot9 := fun sh => { SphericalHarmonicsDot9.ZERO with C_ := Vector4.ofVector3 (sh.values_ 0) 1 } }

/-- A collection of one probe at the origin with baked light. -/
def probeCollection : LightProbeCollection := ⟨[Vector3.ZERO], [litProbe]⟩

/-- The variables of a task of the probe pass before the first element. -/
def probeTaskStart (collection : LightProbeCollection) : ProbeTaskState :=
  { collection := collection
    albedo := List.replicate 8 default
    incomingSamples := List.replicate 8 default
    incomingFactors := List.replicate 8 0
    rayHit :=
      { ray := { org := default, dir := default, tnear := 0, tfar := 0, time := 0,
                 mask := 1, id := 0, flags := 0 }
        hit := { Ng := default, u := 0, v := 0, primID := 0, geomID := 0 } }
    rng := 0 }

/-- What the loop of `BakeEmissionLight` does to the baked chart for texel `i`. -/
def emissionStep (geometryBuffer : LightmapChartGeometryBuffer)
    (bakedDirect : LightmapChartBakedDirect) (i : Nat) : LightmapChartBakedDirect :=
  let geometryId := geometryBuffer.geometryIds_.getD i 0
  if geometryId = 0 then bakedDirect
  else
    let albedo := geometryBuffer.albedo_.getD i default
    let emission := geometryBuffer.emission_.getD i default
    { bakedDirect with
      directLight_ := addAt Vector4.add bakedDirect.directLight_ i (Vector4.ofVector3 emission 0)
      surfaceLight_ := addAt Vector3.add bakedDirect.surfaceLight_ i emission
      albedo_ := bakedDirect.albedo_.set i albedo }

/-- The vector `RandomDirection` draws when the generator has made `rng` draws: three
numbers `Random(-1.0f, 1.0f)`. -/
def directionDraw (be : Backend) (rng : Nat) : Vector3 :=
  ⟨(Random be rng (-1) 1).1, (Random be (rng + 1) (-1) 1).1, (Random be (rng + 2) (-1) 1).1⟩

/-- The vector `RandomDirectionOver` draws when the generator has made `rng` draws. -/
def directionDrawOver {K : Type} [Field K] (randomUnit : Nat → K) (rng : Nat) : Vector3Of K :=
  ⟨(RandomOver randomUnit rng (-1) 1).1, (RandomOver randomUnit (rng + 1) (-1) 1).1,
    (RandomOver randomUnit (rng + 2) (-1) 1).1⟩

/-- A backend whose generator gives `1` for its first three draws, then `13 / 20`, `7 / 10`
and `1 / 2` from then on: the first vector of `RandomDirection` is `(1, 1, 1)` and the second
is `(3 / 10, 2 / 5, 0)`, of squared length `1 / 4`, whose square root the backend has. -/
def drawBackend : Backend :=
  { sceneBackend [] with
    sqrt := fun x => if x = 1 / 4 then 1 / 2 else x
    randomUnit := fun n => if n ≤ 2 then 1 else if n = 3 then 13 / 20 else if n = 4 then 7 / 10
      else 1 / 2 }

/-- The transparency of the spec for the direct filter, `clamp(1 - alpha, 0, 1)`. -/
def specTransparency (alpha : ℚ) : ℚ := max 0 (min 1 (1 - alpha))

/-- One channel of the filtered light of the spec for the direct filter:
`light × t × lerp(1, colour, 1 - t)` with `lerp(a, b, s) = a + (b - a) × s`. -/
def specFilteredChannel (light colour t : ℚ) : ℚ := light * t * (1 + (colour - 1) * (1 - t))

/-- The filtered light of the spec for the direct filter, channel by channel. -/
def specFilteredLight (light colour : Vector3) (alpha : ℚ) : Vector3 :=
  ⟨specFilteredChannel light.x_ colour.x_ (specTransparency alpha),
    specFilteredChannel light.y_ colour.y_ (specTransparency alpha),
    specFilteredChannel light.z_ colour.z_ (specTransparency alpha)⟩

/-- The light the direct filters leave of `light` after the given candidates: every
candidate that is not opaque takes its share. -/
def filteredLight (be : Backend) (geometryIndex : List RaytracerGeometry)
    (candidates : List RTCCandidate) (light : Vector3) : Vector3 :=
  candidates.foldl
    (fun l c => (IsTransparedForDirect be (geometryIndex.getD c.hit.geomID default) c.hit l).2) light

/-- The position the rays of texel `i` are aimed at. -/
def texelPosition (kernel : ChartDirectTracingKernel) (i : Nat) : Vector3 :=
  (kernel.geometryBuffer_.positions_.getD i default).add
    ((kernel.geometryBuffer_.faceNormals_.getD i default).scale kernel.settings_.rayPositionOffset_)

/-- The ray `TraceDirectLight` casts for the samples of texel `i`. -/
def sampleRay (be : Backend) (kernel : ChartDirectTracingKernel) (generator : DirectionalRayGenerator)
    (maxDistance : ℚ) (i : Nat) : RTCRay :=
  { org := ⟨(texelPosition kernel i).x_ - generator.lightDirection_.x_ * maxDistance,
      (texelPosition kernel i).y_ - generator.lightDirection_.y_ * maxDistance,
      (texelPosition kernel i).z_ - generator.lightDirection_.z_ * maxDistance⟩
    dir := generator.lightDirection_
    tnear := 0, tfar := maxDistance, time := 0, mask := be.AllGeometry, id := 0, flags := 0 }

/-- The geometry texel `i` belongs to. -/
def texelGeometry (kernel : ChartDirectTracingKernel) (i : Nat) : RaytracerGeometry :=
  kernel.raytracerGeometries_.getD
    (kernel.geometryBufferToRaytracer_.getD (kernel.geometryBuffer_.geometryIds_.getD i 0) 0) default

/-- The ray context at the start of a sample of texel `i`. -/
def sampleContext (kernel : ChartDirectTracingKernel) (generator : DirectionalRayGenerator) (i : Nat) :
    DirectTracingContextForCharts :=
  { currentGeometry_ := texelGeometry kernel i
    geometryIndex_ := kernel.raytracerGeometries_
    incomingLight_ := generator.lightColor_.ToVector3 }

/-- The ray and hit record a sample of texel `i` hands to the intersection query; `hit`
is the hit record of the query before. -/
def sampleRayHit (be : Backend) (kernel : ChartDirectTracingKernel)
    (generator : DirectionalRayGenerator) (maxDistance : ℚ) (i : Nat) (hit : RTCHit) : RTCRayHit :=
  { ray := sampleRay be kernel generator maxDistance i
    hit := { hit with geomID := RTC_INVALID_GEOMETRY_ID } }

/-- Whether the intersection query of the samples of texel `i` reports a hit.  All samples
of a texel cast the same ray in the same context, so that they share one answer. -/
def sampleOccluded (be : Backend) (kernel : ChartDirectTracingKernel)
    (generator : DirectionalRayGenerator) (maxDistance : ℚ) (i : Nat) : Bool :=
  decide ((rtcIntersect1 be (TracingFilterForChartsDirect be) (sampleContext kernel generator i)
    (sampleRayHit be kernel generator maxDistance i (hitOf 0))).2.hit.geomID
    ≠ RTC_INVALID_GEOMETRY_ID)

/-- What one sample of texel `i` adds to the direct light of its element. -/
def sampleContribution (be : Backend) (kernel : ChartDirectTracingKernel)
    (generator : DirectionalRayGenerator) (maxDistance : ℚ) (i : Nat) : Vector3 :=
  if sampleOccluded be kernel generator maxDistance i then Vector3.ZERO
  else
    (filteredLight be kernel.raytracerGeometries_
        (be.candidates (sampleRay be kernel generator maxDistance i))
        generator.lightColor_.ToVector3).scale
      (max 0 ((kernel.geometryBuffer_.smoothNormals_.getD i default).DotProduct
        generator.lightDirection_.neg))

/-- What the element loop of `TraceDirectLight` does to the baked chart for texel `i`. -/
def directElementEffect (be : Backend) (kernel : ChartDirectTracingKernel)
    (generator : DirectionalRayGenerator) (maxDistance : ℚ) (bakedDirect : LightmapChartBakedDirect)
    (i : Nat) : LightmapChartBakedDirect :=
  if kernel.geometryBuffer_.geometryIds_.getD i 0 = 0 then bakedDirect
  else
    kernel.EndElement bakedDirect i
      ⟨texelPosition kernel i, kernel.geometryBuffer_.smoothNormals_.getD i default,
        kernel.geometryBuffer_.geometryIds_.getD i 0,
        (sampleContribution be kernel generator maxDistance i).scale (kernel.GetNumSamples : ℚ)⟩

/-- The fields of the ray that a task of `TraceDirectLight` sets once. -/
def RayInv (be : Backend) (rayHit : RTCRayHit) : Prop :=
  rayHit.ray.tnear = 0 ∧ rayHit.ray.time = 0 ∧ rayHit.ray.mask = be.AllGeometry
    ∧ rayHit.ray.id = 0 ∧ rayHit.ray.flags = 0

/-! ## Intersection filter policies: theorems -/

/-- C6: `IsUnwantedLod` is true exactly when the hit is another LOD of the current
geometry or a non-primary LOD of another geometry; a LOD 2 hit of the current geometry
at LOD 0 is rejected and a LOD 0 hit of another object is accepted. -/
theorem IsUnwantedLod_iff (current hit : RaytracerGeometry) :
    (IsUnwantedLod current hit = true ↔
      (hit.objectIndex_ = current.objectIndex_ ∧ hit.geometryIndex_ = current.geometryIndex_
          ∧ hit.lodIndex_ ≠ current.lodIndex_)
        ∨ ((hit.objectIndex_ ≠ current.objectIndex_ ∨ hit.geometryIndex_ ≠ current.geometryIndex_)
          ∧ hit.lodIndex_ ≠ 0))
    ∧ (hit.objectIndex_ = current.objectIndex_ → hit.geometryIndex_ = current.geometryIndex_ →
        current.lodIndex_ = 0 → hit.lodIndex_ = 2 → IsUnwantedLod current hit = true)
    ∧ (hit.objectIndex_ ≠ current.objectIndex_ → hit.lodIndex_ = 0 →
        IsUnwantedLod current hit = false) := by
  refine ⟨?_, ?_, ?_⟩
  · simp only [IsUnwantedLod, Bool.or_eq_true, Bool.and_eq_true, Bool.not_eq_true', bne_iff_ne,
      beq_iff_eq, ne_eq, Bool.and_eq_false_imp, beq_eq_false_iff_ne]
    omega
  · intro ho hg hc hl
    simp [IsUnwantedLod, ho, hg, hc, hl]
  · intro ho hl
    have ho' : ¬ current.objectIndex_ = hit.objectIndex_ := fun e => ho e.symm
    simp [IsUnwantedLod, ho', hl]

/-- Witness of C6: the two cases the claim names, on concrete geometries. -/
theorem IsUnwantedLod_iff_witness :
    IsUnwantedLod (opaqueGeometry 3 1 0) (opaqueGeometry 3 1 2) = true
      ∧ IsUnwantedLod (opaqueGeometry 3 1 0) (opaqueGeometry 4 1 0) = false :=
  ⟨(IsUnwantedLod_iff (opaqueGeometry 3 1 0) (opaqueGeometry 3 1 2)).2.1 rfl rfl rfl rfl,
    (IsUnwantedLod_iff (opaqueGeometry 3 1 0) (opaqueGeometry 4 1 0)).2.2 (by decide) rfl⟩

/-- C7, as stated, fails: the LOD 0 of an object is unwanted for a ray that starts on
LOD 1 of the same object and geometry. -/
theorem IsUnwantedLod_lod0_counterexample :
    ¬ (∀ current hit : RaytracerGeometry, hit.lodIndex_ = 0 → IsUnwantedLod current hit = false) := by
  intro h
  have := h (opaqueGeometry 0 0 1) (opaqueGeometry 0 0 0) rfl
  revert this
  decide

/-- C7, amended: a hit of LOD 0 is accepted exactly when it belongs to another object or
geometry than the current one, or when the current geometry is itself at LOD 0. -/
theorem IsUnwantedLod_lod0 (current hit : RaytracerGeometry) (hlod : hit.lodIndex_ = 0) :
    IsUnwantedLod current hit = false ↔
      (hit.objectIndex_ ≠ current.objectIndex_ ∨ hit.geometryIndex_ ≠ current.geometryIndex_
        ∨ current.lodIndex_ = 0) := by
  simp only [IsUnwantedLod, Bool.or_eq_false_iff, Bool.and_eq_false_imp, Bool.and_eq_true,
    Bool.not_eq_true', bne_iff_ne, beq_iff_eq, ne_eq, bne_eq_false_iff_eq, Bool.not_eq_false,
    Bool.not_eq_eq_eq_not, Bool.not_true, beq_eq_false_iff_ne, hlod]
  constructor
  · rintro ⟨-, h⟩
    by_cases ho : current.objectIndex_ = hit.objectIndex_
    · by_cases hg : current.geometryIndex_ = hit.geometryIndex_
      · exact Or.inr (Or.inr (h ⟨ho, hg⟩).symm)
      · exact Or.inr (Or.inl (fun e => hg e.symm))
    · exact Or.inl (fun e => ho e.symm)
  · intro h
    refine ⟨fun _ => trivial, ?_⟩
    rintro ⟨ho, hg⟩
    omega

/-- Witness of the amended C7: LOD 0 of another object is seen from LOD 1. -/
theorem IsUnwantedLod_lod0_witness :
    IsUnwantedLod (opaqueGeometry 0 0 1) (opaqueGeometry 5 0 0) = false :=
  (IsUnwantedLod_lod0 (opaqueGeometry 0 0 1) (opaqueGeometry 5 0 0) rfl).2 (Or.inl (by decide))

/-- The clamp of the source agrees with the clamp of the spec on `1 - alpha`. -/
theorem Clamp_eq_specTransparency (alpha : ℚ) : Clamp (1 - alpha) 0 1 = specTransparency alpha := by
  unfold Clamp specTransparency
  split_ifs with h1 h2
  · rw [max_eq_left]
    exact le_trans (min_le_right _ _) h1.le
  · rw [min_eq_left h2.le, max_eq_right zero_le_one]
  · rw [min_eq_right (not_lt.mp h2), max_eq_right (not_lt.mp h1)]

/-- C8: on an untextured geometry `IsTransparedForDirect` returns false and keeps the
incoming light when the geometry is opaque, and otherwise returns true and multiplies the
incoming light by `t × lerp(white, diffuseColor, 1 - t)`, `t = clamp(1 - alpha, 0, 1)`. -/
theorem IsTransparedForDirect_untextured (be : Backend) (hitGeometry : RaytracerGeometry)
    (hit : RTCHit) (incomingLight : Vector3) (htex : hitGeometry.diffuseImage_ = none) :
    (hitGeometry.opaque_ = true →
        IsTransparedForDirect be hitGeometry hit incomingLight = (false, incomingLight))
    ∧ (hitGeometry.opaque_ = false →
        IsTransparedForDirect be hitGeometry hit incomingLight
          = (true, specFilteredLight incomingLight hitGeometry.diffuseColor_ hitGeometry.alpha_)) := by
  constructor
  · intro ho
    simp [IsTransparedForDirect, ho]
  · intro ho
    simp only [IsTransparedForDirect, ho, htex, Clamp_eq_specTransparency, Bool.false_eq_true,
      if_false, Prod.mk.injEq, true_and]
    simp only [specFilteredLight, specFilteredChannel, Vector3.mul, Vector3.lscale, Lerp,
      Vector3.add, Vector3.scale, Vector3.ONE, Vector3.mk.injEq]
    refine ⟨?_, ?_, ?_⟩ <;> ring

/-- Witness of C8: a half transparent white glass halves the light. -/
theorem IsTransparedForDirect_untextured_witness :
    IsTransparedForDirect (sceneBackend []) (glassGeometry 0 0 0 (1 / 2)) (hitOf 0) Vector3.ONE
      = (true, specFilteredLight Vector3.ONE Vector3.ONE (1 / 2)) :=
  (IsTransparedForDirect_untextured (sceneBackend []) (glassGeometry 0 0 0 (1 / 2)) (hitOf 0)
    Vector3.ONE rfl).2 rfl

/-- C9: on an untextured geometry that is not opaque, the direct filter with alpha 1
leaves no incoming light, so that the sample adds nothing to the direct light of the
element, and with alpha 0 leaves the incoming light as it is, whatever the colour. -/
theorem IsTransparedForDirect_endpoints (be : Backend) (hitGeometry : RaytracerGeometry)
    (hit : RTCHit) (incomingLight : Vector3) (hsolid : hitGeometry.opaque_ = false)
    (htex : hitGeometry.diffuseImage_ = none) :
    (hitGeometry.alpha_ = 1 →
        IsTransparedForDirect be hitGeometry hit incomingLight = (true, Vector3.ZERO)
        ∧ ∀ (element : ChartDirectTracingElement) (direction : Vector3),
            (element.EndSample (IsTransparedForDirect be hitGeometry hit incomingLight).2
              direction).directLight_ = element.directLight_)
    ∧ (hitGeometry.alpha_ = 0 →
        IsTransparedForDirect be hitGeometry hit incomingLight = (true, incomingLight)) := by
  constructor
  · intro ha
    have h : IsTransparedForDirect be hitGeometry hit incomingLight = (true, Vector3.ZERO) := by
      simp [IsTransparedForDirect, hsolid, htex, ha, Clamp, Vector3.mul, Vector3.lscale,
        Vector3.ZERO]
    refine ⟨h, ?_⟩
    intro element direction
    rw [h]
    simp [ChartDirectTracingElement.EndSample, Vector3.add, Vector3.scale, Vector3.ZERO]
  · intro ha
    have hclamp : Clamp (1 - 0 : ℚ) 0 1 = 1 := by
      unfold Clamp
      norm_num
    simp only [IsTransparedForDirect, hsolid, htex, ha, hclamp, Vector3.mul, Vector3.lscale, Lerp,
      Vector3.add, Vector3.scale, Vector3.ONE, Bool.false_eq_true, if_false, Prod.mk.injEq,
      true_and]
    ext <;> simp

/-- Witness of C9: a red glass of alpha 0 lets the light through unchanged. -/
theorem IsTransparedForDirect_endpoints_witness :
    IsTransparedForDirect (sceneBackend [])
        { glassGeometry 0 0 0 0 with diffuseColor_ := ⟨1, 0, 0⟩ } (hitOf 0) ⟨3, 2, 1⟩
      = (true, ⟨3, 2, 1⟩) :=
  (IsTransparedForDirect_endpoints (sceneBackend [])
    { glassGeometry 0 0 0 0 with diffuseColor_ := ⟨1, 0, 0⟩ } (hitOf 0) ⟨3, 2, 1⟩ rfl rfl).2 rfl

/-- C10, the code at the failing input: a half transparent LOD 1 of the current
geometry (for probes: any half transparent LOD 1) is rejected by the direct filters,
and the rejected hit halves the incoming light all the same. -/
theorem TracingFilterDirect_unwantedLod_attenuates (be : Backend) :
    IsUnwantedLod (opaqueGeometry 0 0 0) (glassGeometry 0 0 1 (1 / 2)) = true
    ∧ (TracingFilterForChartsDirect be
        ⟨opaqueGeometry 0 0 0, [glassGeometry 0 0 1 (1 / 2)], Vector3.ONE⟩ (hitOf 0) (-1)).2 = 0
    ∧ (TracingFilterForChartsDirect be
        ⟨opaqueGeometry 0 0 0, [glassGeometry 0 0 1 (1 / 2)], Vector3.ONE⟩ (hitOf 0) (-1)).1.incomingLight_
        = ⟨1 / 2, 1 / 2, 1 / 2⟩
    ∧ (TracingFilterForLightProbesDirect be
        ⟨[glassGeometry 0 0 1 (1 / 2)], Vector3.ONE⟩ (hitOf 0) (-1)).2 = 0
    ∧ (TracingFilterForLightProbesDirect be
        ⟨[glassGeometry 0 0 1 (1 / 2)], Vector3.ONE⟩ (hitOf 0) (-1)).1.incomingLight_
        = ⟨1 / 2, 1 / 2, 1 / 2⟩ := by
  have hclamp : Clamp (1 - 1 / 2 : ℚ) 0 1 = 1 / 2 := by
    unfold Clamp
    norm_num
  refine ⟨by decide, ?_, ?_, ?_, ?_⟩
  · simp [TracingFilterForChartsDirect, IsTransparedForDirect, glassGeometry, opaqueGeometry, hitOf]
  · simp only [TracingFilterForChartsDirect, IsTransparedForDirect, glassGeometry, opaqueGeometry,
      hitOf, List.getD_cons_zero, hclamp, Vector3.mul, Vector3.lscale, Lerp, Vector3.add,
      Vector3.scale, Vector3.ONE]
    norm_num
  · simp [TracingFilterForLightProbesDirect, IsTransparedForDirect, glassGeometry, opaqueGeometry,
      hitOf]
  · simp only [TracingFilterForLightProbesDirect, IsTransparedForDirect, glassGeometry,
      opaqueGeometry, hitOf, List.getD_cons_zero, hclamp, Vector3.mul, Vector3.lscale, Lerp,
      Vector3.add, Vector3.scale, Vector3.ONE]
    norm_num

/-! ## Arrays and loops: lemmas -/

theorem addAt_getElem? {α : Type} [Inhabited α] (add : α → α → α) (xs : List α) (i j : Nat) (v : α) :
    (addAt add xs i v)[j]? = if i = j then (xs[j]?).map (fun x => add x v) else xs[j]? := by
  unfold addAt
  rw [List.getElem?_set]
  by_cases hij : i = j
  · subst hij
    by_cases hlt : i < xs.length
    · simp [hlt, List.getD_eq_getElem?_getD, List.getElem?_eq_getElem hlt]
    · simp [hlt, List.getElem?_eq_none (not_lt.mp hlt)]
  · simp [hij]

theorem getD_of_getElem? {α : Type} (xs : List α) (i : Nat) (d v : α) (h : xs[i]? = some v) :
    xs.getD i d = v := by
  simp [List.getD_eq_getElem?_getD, h]

theorem getElem?_of_lt_length {α : Type} [Inhabited α] (xs : List α) (i : Nat) (h : i < xs.length) :
    xs[i]? = some (xs.getD i default) := by
  simp [List.getD_eq_getElem?_getD, List.getElem?_eq_getElem h]

theorem addAt_length {α : Type} [Inhabited α] (add : α → α → α) (xs : List α) (i : Nat) (v : α) :
    (addAt add xs i v).length = xs.length := by
  simp [addAt]

/-- A loop over `0 ≤ i < n` whose body changes an observation only at `i = j`. -/
theorem foldl_range_point {σ β : Type} (f : σ → Nat → σ) (obs : σ → β) (g : β → β) (j : Nat)
    (hne : ∀ s i, i ≠ j → obs (f s i) = obs s) (heq : ∀ s, obs (f s j) = g (obs s)) (n : Nat) (s : σ) :
    obs ((List.range n).foldl f s) = if j < n then g (obs s) else obs s := by
  induction n with
  | zero => simp
  | succ n ih =>
    rw [List.range_succ, List.foldl_append, List.foldl_cons, List.foldl_nil]
    by_cases hjn : j = n
    · subst hjn
      rw [heq, ih]
      simp
    · rw [hne _ _ (Ne.symm hjn), ih]
      by_cases hlt : j < n
      · simp [hlt, Nat.lt_succ_of_lt hlt]
      · have : ¬ j < n + 1 := by omega
        simp [hlt, this]

/-- A loop preserves what each of its steps preserves. -/
theorem foldl_preserves {σ α : Type} (f : σ → α → σ) (P : σ → Prop)
    (h : ∀ s a, P s → P (f s a)) (l : List α) (s : σ) (hs : P s) : P (l.foldl f s) := by
  induction l generalizing s with
  | nil => exact hs
  | cons a l ih => exact ih _ (h s a hs)

/-- The tasks of `ParallelFor` preserve what each task preserves. -/
theorem ParallelFor_preserves {σ : Type} (count numTasks : Nat) (callback : σ → Nat → Nat → σ)
    (P : σ → Prop) (h : ∀ s a b, P s → P (callback s a b)) (s : σ) (hs : P s) :
    P (ParallelFor count numTasks callback s) := by
  unfold ParallelFor
  exact foldl_preserves _ P (fun s i hs => h s _ _ hs) _ s hs

/-- With at least one task, the chunks of `ParallelFor` run a loop over the elements
in the same way as one loop over the whole range. -/
theorem ParallelFor_eq_foldl {σ : Type} (count numTasks : Nat) (step : σ → Nat → σ) (s : σ)
    (hTasks : 0 < numTasks) :
    ParallelFor count numTasks
        (fun s fromIndex toIndex => (List.range' fromIndex (toIndex - fromIndex)).foldl step s) s
      = (List.range count).foldl step s := by
  unfold ParallelFor
  generalize hcs : (count + numTasks - 1) / numTasks = chunkSize
  have hcover : count ≤ numTasks * chunkSize := by
    rw [← hcs]
    have h1 := Nat.div_add_mod (count + numTasks - 1) numTasks
    have h2 := Nat.mod_lt (count + numTasks - 1) hTasks
    generalize numTasks * ((count + numTasks - 1) / numTasks) = m at h1 ⊢
    omega
  have key : ∀ k, (List.range k).foldl
      (fun s i => (List.range' (i * chunkSize) (min (i * chunkSize + chunkSize) count
        - i * chunkSize)).foldl step s) s
      = (List.range (min (k * chunkSize) count)).foldl step s := by
    intro k
    induction k with
    | zero => simp
    | succ k ih =>
      rw [List.range_succ, List.foldl_append, List.foldl_cons, List.foldl_nil, ih,
        ← List.foldl_append]
      congr 1
      rw [List.range_eq_range', List.range_eq_range']
      by_cases hk : k * chunkSize ≤ count
      · rw [Nat.min_eq_left hk]
        have := List.range'_append 0 (k * chunkSize)
          (min (k * chunkSize + chunkSize) count - k * chunkSize) 1
        simp only [Nat.zero_add, Nat.one_mul] at this
        rw [this]
        congr 1
        rw [Nat.succ_mul]
        omega
      · have hk' : count ≤ k * chunkSize := by omega
        have h0 : min (k * chunkSize + chunkSize) count - k * chunkSize = 0 := by omega
        rw [h0, Nat.min_eq_right hk', Nat.succ_mul]
        have : min (k * chunkSize + chunkSize) count = count := by omega
        rw [this]
        simp
  rw [key numTasks, Nat.min_eq_right hcover]

/-! ## Direct light: lemmas -/

theorem TracingFilterForChartsDirect_ctx (be : Backend) (ctx : DirectTracingContextForCharts)
    (hit : RTCHit) :
    (TracingFilterForChartsDirect be ctx hit (-1)).1
      = { ctx with incomingLight_ :=
          (IsTransparedForDirect be (ctx.geometryIndex_.getD hit.geomID default) hit
            ctx.incomingLight_).2 } := by
  simp [TracingFilterForChartsDirect]

/-- The candidates of a query leave the context as it is, but for the incoming light,
and leave the ray as it is, but for `tfar`. -/
theorem chartCandidates_frame (be : Backend) (cs : List RTCCandidate)
    (ctx : DirectTracingContextForCharts) (rh : RTCRayHit) :
    (cs.foldl (offerCandidate (TracingFilterForChartsDirect be)) (ctx, rh)).1
        = { ctx with incomingLight_ := filteredLight be ctx.geometryIndex_ cs ctx.incomingLight_ }
      ∧ (RayInv be rh →
          RayInv be (cs.foldl (offerCandidate (TracingFilterForChartsDirect be)) (ctx, rh)).2) := by
  induction cs generalizing ctx rh with
  | nil => simp [filteredLight]
  | cons c cs ih =>
    rw [List.foldl_cons]
    have hstep : (offerCandidate (TracingFilterForChartsDirect be) (ctx, rh) c).1
        = { ctx with incomingLight_ :=
            (IsTransparedForDirect be (ctx.geometryIndex_.getD c.hit.geomID default) c.hit
              ctx.incomingLight_).2 } := by
      unfold offerCandidate
      simp only
      split_ifs <;> exact TracingFilterForChartsDirect_ctx be ctx c.hit
    have hray : RayInv be rh →
        RayInv be (offerCandidate (TracingFilterForChartsDirect be) (ctx, rh) c).2 := by
      intro h
      unfold offerCandidate
      simp only
      split_ifs
      · exact h
      · exact h
    obtain ⟨h1, h2⟩ := ih (offerCandidate (TracingFilterForChartsDirect be) (ctx, rh) c).1
      (offerCandidate (TracingFilterForChartsDirect be) (ctx, rh) c).2
    refine ⟨?_, fun h => h2 (hray h)⟩
    rw [Prod.mk.eta] at h1
    rw [h1, hstep]
    simp [filteredLight]

/-- The hit a query reports does not depend on the hit record the query starts with,
but for its geometry index. -/
theorem chartCandidates_geomID (be : Backend) (cs : List RTCCandidate)
    (ctx : DirectTracingContextForCharts) (rh rh' : RTCRayHit)
    (h : rh.hit.geomID = rh'.hit.geomID) :
    (cs.foldl (offerCandidate (TracingFilterForChartsDirect be)) (ctx, rh)).2.hit.geomID
      = (cs.foldl (offerCandidate (TracingFilterForChartsDirect be)) (ctx, rh')).2.hit.geomID := by
  induction cs generalizing ctx rh rh' with
  | nil => simpa using h
  | cons c cs ih =>
    rw [List.foldl_cons, List.foldl_cons]
    have e1 : offerCandidate (TracingFilterForChartsDirect be) (ctx, rh) c
        = ((offerCandidate (TracingFilterForChartsDirect be) (ctx, rh) c).1,
            (offerCandidate (TracingFilterForChartsDirect be) (ctx, rh) c).2) := rfl
    have e2 : offerCandidate (TracingFilterForChartsDirect be) (ctx, rh') c
        = ((offerCandidate (TracingFilterForChartsDirect be) (ctx, rh) c).1,
            (offerCandidate (TracingFilterForChartsDirect be) (ctx, rh') c).2) := by
      unfold offerCandidate
      simp only
      split_ifs <;> rfl
    rw [e1, e2]
    apply ih
    unfold offerCandidate
    simp only
    split_ifs
    · exact h
    · rfl

/-- One sample of texel `i` adds `sampleContribution` to the element and keeps what
the next sample relies on. -/
theorem TraceDirectLightSample_step (be : Backend) (kernel : ChartDirectTracingKernel)
    (generator : DirectionalRayGenerator) (maxDistance : ℚ) (i : Nat)
    (s : ChartDirectTracingElement × DirectTracingContextForCharts × RTCRayHit) (sampleIndex : Nat)
    (hpos : s.1.position_ = texelPosition kernel i)
    (hn : s.1.smoothNormal_ = kernel.geometryBuffer_.smoothNormals_.getD i default)
    (hcur : s.2.1.currentGeometry_ = texelGeometry kernel i)
    (hgeo : s.2.1.geometryIndex_ = kernel.raytracerGeometries_) (hray : RayInv be s.2.2) :
    (TraceDirectLightSample be generator maxDistance s sampleIndex).1
        = { s.1 with
            directLight_ := s.1.directLight_.add (sampleContribution be kernel generator maxDistance i) }
      ∧ (TraceDirectLightSample be generator maxDistance s sampleIndex).2.1.currentGeometry_
          = texelGeometry kernel i
      ∧ (TraceDirectLightSample be generator maxDistance s sampleIndex).2.1.geometryIndex_
          = kernel.raytracerGeometries_
      ∧ RayInv be (TraceDirectLightSample be generator maxDistance s sampleIndex).2.2 := by
  obtain ⟨element, ctx, rh⟩ := s
  obtain ⟨cur, geo, light⟩ := ctx
  simp only at hpos hn hcur hgeo hray
  subst hcur hgeo
  obtain ⟨h1, h2, h3, h4, h5⟩ := hray
  have hstart : TraceDirectLightSample be generator maxDistance
      (element, ⟨texelGeometry kernel i, kernel.raytracerGeometries_, light⟩, rh) sampleIndex
      = (if (rtcIntersect1 be (TracingFilterForChartsDirect be) (sampleContext kernel generator i)
            (sampleRayHit be kernel generator maxDistance i rh.hit)).2.hit.geomID
            ≠ RTC_INVALID_GEOMETRY_ID then
          (element, rtcIntersect1 be (TracingFilterForChartsDirect be)
            (sampleContext kernel generator i) (sampleRayHit be kernel generator maxDistance i rh.hit))
        else
          (element.EndSample (rtcIntersect1 be (TracingFilterForChartsDirect be)
              (sampleContext kernel generator i)
              (sampleRayHit be kernel generator maxDistance i rh.hit)).1.incomingLight_
            generator.lightDirection_.neg,
            rtcIntersect1 be (TracingFilterForChartsDirect be)
              (sampleContext kernel generator i)
              (sampleRayHit be kernel generator maxDistance i rh.hit))) := by
    simp only [TraceDirectLightSample, ChartDirectTracingElement.BeginSample,
      DirectionalRayGenerator.GetRayDirection, DirectionalRayGenerator.GetLightIntensity,
      castDirectRay, sampleRayHit, sampleRay, sampleContext, hpos, h1, h2, h3, h4, h5]
  have hq := chartCandidates_frame be (be.candidates (sampleRay be kernel generator maxDistance i))
    (sampleContext kernel generator i) (sampleRayHit be kernel generator maxDistance i rh.hit)
  have hg := chartCandidates_geomID be (be.candidates (sampleRay be kernel generator maxDistance i))
    (sampleContext kernel generator i) (sampleRayHit be kernel generator maxDistance i rh.hit)
    (sampleRayHit be kernel generator maxDistance i (hitOf 0)) rfl
  have hinv : RayInv be (sampleRayHit be kernel generator maxDistance i rh.hit) :=
    ⟨rfl, rfl, rfl, rfl, rfl⟩
  obtain ⟨hq1, hq2⟩ := hq
  have hq2 := hq2 hinv
  have hfold : ∀ hit, rtcIntersect1 be (TracingFilterForChartsDirect be)
      (sampleContext kernel generator i) (sampleRayHit be kernel generator maxDistance i hit)
      = List.foldl (offerCandidate (TracingFilterForChartsDirect be))
          (sampleContext kernel generator i, sampleRayHit be kernel generator maxDistance i hit)
          (be.candidates (sampleRay be kernel generator maxDistance i)) := fun _ => rfl
  rw [hstart]
  have hocc_iff : sampleOccluded be kernel generator maxDistance i = true ↔
      (rtcIntersect1 be (TracingFilterForChartsDirect be) (sampleContext kernel generator i)
        (sampleRayHit be kernel generator maxDistance i rh.hit)).2.hit.geomID
        ≠ RTC_INVALID_GEOMETRY_ID := by
    rw [hfold, hg]
    simp [sampleOccluded, hfold]
  by_cases hocc : sampleOccluded be kernel generator maxDistance i = true
  · rw [if_pos (hocc_iff.mp hocc)]
    refine ⟨?_, ?_, ?_, ?_⟩
    · simp only [sampleContribution, hocc, if_true]
      cases element
      simp [Vector3.add, Vector3.ZERO]
    · simp only [hfold, hq1]; rfl
    · simp only [hfold, hq1]; rfl
    · simp only [hfold]; exact hq2
  · rw [if_neg (fun h => hocc (hocc_iff.mpr h))]
    refine ⟨?_, ?_, ?_, ?_⟩
    · simp only [sampleContribution, hocc, hfold, hq1, ChartDirectTracingElement.EndSample, hn]
      rfl
    · simp only [hfold, hq1]; rfl
    · simp only [hfold, hq1]; rfl
    · simp only [hfold]; exact hq2

/-- The sample loop of texel `i` adds `sampleContribution` once for each sample. -/
theorem TraceDirectLightSamples (be : Backend) (kernel : ChartDirectTracingKernel)
    (generator : DirectionalRayGenerator) (maxDistance : ℚ) (i : Nat) (l : List Nat)
    (s : ChartDirectTracingElement × DirectTracingContextForCharts × RTCRayHit)
    (hpos : s.1.position_ = texelPosition kernel i)
    (hn : s.1.smoothNormal_ = kernel.geometryBuffer_.smoothNormals_.getD i default)
    (hcur : s.2.1.currentGeometry_ = texelGeometry kernel i)
    (hgeo : s.2.1.geometryIndex_ = kernel.raytracerGeometries_) (hray : RayInv be s.2.2) :
    (l.foldl (TraceDirectLightSample be generator maxDistance) s).1
        = { s.1 with
            directLight_ := s.1.directLight_.add
              ((sampleContribution be kernel generator maxDistance i).scale (l.length : ℚ)) }
      ∧ (l.foldl (TraceDirectLightSample be generator maxDistance) s).2.1.geometryIndex_
          = kernel.raytracerGeometries_
      ∧ RayInv be (l.foldl (TraceDirectLightSample be generator maxDistance) s).2.2 := by
  induction l generalizing s with
  | nil =>
    refine ⟨?_, hgeo, hray⟩
    obtain ⟨element, ctx, rh⟩ := s
    cases element
    simp [Vector3.add, Vector3.scale]
  | cons a l ih =>
    rw [List.foldl_cons]
    obtain ⟨h1, h2, h3, h4⟩ :=
      TraceDirectLightSample_step be kernel generator maxDistance i s a hpos hn hcur hgeo hray
    obtain ⟨g1, g2, g3⟩ := ih (TraceDirectLightSample be generator maxDistance s a)
      (by rw [h1]; exact hpos) (by rw [h1]; exact hn) h2 h3 h4
    refine ⟨?_, g2, g3⟩
    rw [g1, h1]
    simp only [List.length_cons, Nat.cast_add, Nat.cast_one, Vector3.add, Vector3.scale]
    congr 1
    ext <;> simp <;> ring

/-- The element loop of `TraceDirectLight` does `directElementEffect` to the chart. -/
theorem TraceDirectLightElement_effect (be : Backend) (kernel : ChartDirectTracingKernel)
    (generator : DirectionalRayGenerator) (maxDistance : ℚ) (s : DirectTaskState) (i : Nat)
    (hgeo : s.rayContext.geometryIndex_ = kernel.raytracerGeometries_) (hray : RayInv be s.rayHit) :
    (TraceDirectLightElement be kernel generator maxDistance s i).bakedDirect
        = directElementEffect be kernel generator maxDistance s.bakedDirect i
      ∧ (TraceDirectLightElement be kernel generator maxDistance s i).rayContext.geometryIndex_
          = kernel.raytracerGeometries_
      ∧ RayInv be (TraceDirectLightElement be kernel generator maxDistance s i).rayHit := by
  unfold TraceDirectLightElement directElementEffect
  by_cases hid : kernel.geometryBuffer_.geometryIds_.getD i 0 = 0
  · have hb : kernel.BeginElement i s.rayContext
        = (⟨Vector3.ZERO, Vector3.ZERO, 0, Vector3.ZERO⟩, s.rayContext) := by
      unfold ChartDirectTracingKernel.BeginElement
      simp only [hid, if_true]
    simp only [hb, ChartDirectTracingElement.valid, hid, if_true, bne_self_eq_false, Bool.not_false]
    exact ⟨trivial, hgeo, hray⟩
  · have hb : kernel.BeginElement i s.rayContext
        = (⟨texelPosition kernel i, kernel.geometryBuffer_.smoothNormals_.getD i default,
            kernel.geometryBuffer_.geometryIds_.getD i 0, Vector3.ZERO⟩,
          { s.rayContext with currentGeometry_ := texelGeometry kernel i }) := by
      unfold ChartDirectTracingKernel.BeginElement
      simp only [hid, if_false]
      rfl
    obtain ⟨h1, h2, h3⟩ := TraceDirectLightSamples be kernel generator maxDistance i
      (List.range kernel.GetNumSamples)
      (⟨texelPosition kernel i, kernel.geometryBuffer_.smoothNormals_.getD i default,
            kernel.geometryBuffer_.geometryIds_.getD i 0, Vector3.ZERO⟩,
          { s.rayContext with currentGeometry_ := texelGeometry kernel i }, s.rayHit)
      rfl rfl rfl hgeo hray
    have hv : (!(⟨texelPosition kernel i, kernel.geometryBuffer_.smoothNormals_.getD i default,
            kernel.geometryBuffer_.geometryIds_.getD i 0, Vector3.ZERO⟩
          : ChartDirectTracingElement).valid) = false := by
      simp only [ChartDirectTracingElement.valid, Bool.not_eq_false', bne_iff_ne, ne_eq]
      exact hid
    simp only [hb, hv, hid, if_false, Bool.false_eq_true, h1, List.length_range]
    refine ⟨?_, h2, h3⟩
    congr 2
    ext <;> simp [Vector3.add, Vector3.scale, Vector3.ZERO]

/-- A task of `TraceDirectLight` is the loop of `directElementEffect` over its elements. -/
theorem TraceDirectLightTask_eq (be : Backend) (kernel : ChartDirectTracingKernel)
    (generator : DirectionalRayGenerator) (raytracerScene : RaytracerScene)
    (bakedDirect : LightmapChartBakedDirect) (fromIndex toIndex : Nat) :
    TraceDirectLightTask be kernel generator raytracerScene bakedDirect fromIndex toIndex
      = (List.range' fromIndex (toIndex - fromIndex)).foldl
          (directElementEffect be kernel generator raytracerScene.maxDistance) bakedDirect := by
  have key : ∀ (l : List Nat) (s : DirectTaskState),
      s.rayContext.geometryIndex_ = kernel.raytracerGeometries_ → RayInv be s.rayHit →
      (l.foldl (TraceDirectLightElement be kernel generator raytracerScene.maxDistance) s).bakedDirect
        = l.foldl (directElementEffect be kernel generator raytracerScene.maxDistance)
            s.bakedDirect := by
    intro l
    induction l with
    | nil => intro s _ _; rfl
    | cons a l ih =>
      intro s hgeo hray
      obtain ⟨h1, h2, h3⟩ :=
        TraceDirectLightElement_effect be kernel generator raytracerScene.maxDistance s a hgeo hray
      rw [List.foldl_cons, List.foldl_cons, ih _ h2 h3, h1]
  unfold TraceDirectLightTask
  exact key _ _ rfl ⟨rfl, rfl, rfl, rfl, rfl⟩

/-- With at least one task, `TraceDirectLight` is the loop of `directElementEffect` over
all elements of the chart. -/
theorem TraceDirectLight_eq_foldl (be : Backend) (kernel : ChartDirectTracingKernel)
    (generator : DirectionalRayGenerator) (raytracerScene : RaytracerScene)
    (settings : LightmapTracingSettings) (bakedDirect : LightmapChartBakedDirect)
    (hTasks : 0 < settings.numTasks_) :
    TraceDirectLight be kernel generator raytracerScene settings bakedDirect
      = (List.range bakedDirect.directLight_.length).foldl
          (directElementEffect be kernel generator raytracerScene.maxDistance) bakedDirect := by
  unfold TraceDirectLight
  simp only [TraceDirectLightTask_eq, ChartDirectTracingKernel.GetNumElements]
  exact ParallelFor_eq_foldl _ _ _ _ hTasks

/-- What `EndElement` leaves at the index `j` of the three arrays of the chart. -/
theorem ChartDirectTracingKernel_EndElement_getElem? (k : ChartDirectTracingKernel)
    (bakedDirect : LightmapChartBakedDirect) (i j : Nat) (element : ChartDirectTracingElement) :
    (k.EndElement bakedDirect i element).directLight_[j]?
        = (if i = j ∧ k.bakeDirect_ = true then
            (bakedDirect.directLight_[j]?).map fun x =>
              x.add (Vector4.ofVector3 (element.directLight_.scale (1 / (k.GetNumSamples : ℚ))) 0)
          else bakedDirect.directLight_[j]?)
      ∧ (k.EndElement bakedDirect i element).surfaceLight_[j]?
        = (if i = j ∧ k.bakeIndirect_ = true then
            (bakedDirect.surfaceLight_[j]?).map fun x =>
              x.add ((k.geometryBuffer_.albedo_.getD i default).mul
                (element.directLight_.scale (1 / (k.GetNumSamples : ℚ))))
          else bakedDirect.surfaceLight_[j]?)
      ∧ (k.EndElement bakedDirect i element).albedo_ = bakedDirect.albedo_ := by
  unfold ChartDirectTracingKernel.EndElement
  cases hd : k.bakeDirect_ <;> cases hi : k.bakeIndirect_ <;>
    simp [addAt_getElem?]

/-- What `directElementEffect` leaves at the index `j` of the three arrays of the chart. -/
theorem directElementEffect_getElem? (be : Backend) (kernel : ChartDirectTracingKernel)
    (generator : DirectionalRayGenerator) (maxDistance : ℚ) (bakedDirect : LightmapChartBakedDirect)
    (i j : Nat) :
    (directElementEffect be kernel generator maxDistance bakedDirect i).directLight_[j]?
        = (if i = j ∧ kernel.geometryBuffer_.geometryIds_.getD i 0 ≠ 0 ∧ kernel.bakeDirect_ = true then
            (bakedDirect.directLight_[j]?).map fun x =>
              x.add (Vector4.ofVector3
                (((sampleContribution be kernel generator maxDistance i).scale
                  (kernel.GetNumSamples : ℚ)).scale (1 / (kernel.GetNumSamples : ℚ))) 0)
          else bakedDirect.directLight_[j]?)
      ∧ (directElementEffect be kernel generator maxDistance bakedDirect i).surfaceLight_[j]?
        = (if i = j ∧ kernel.geometryBuffer_.geometryIds_.getD i 0 ≠ 0 ∧ kernel.bakeIndirect_ = true then
            (bakedDirect.surfaceLight_[j]?).map fun x =>
              x.add ((kernel.geometryBuffer_.albedo_.getD i default).mul
                (((sampleContribution be kernel generator maxDistance i).scale
                  (kernel.GetNumSamples : ℚ)).scale (1 / (kernel.GetNumSamples : ℚ))))
          else bakedDirect.surfaceLight_[j]?)
      ∧ (directElementEffect be kernel generator maxDistance bakedDirect i).albedo_
        = bakedDirect.albedo_ := by
  unfold directElementEffect
  by_cases hid : kernel.geometryBuffer_.geometryIds_.getD i 0 = 0
  · rw [if_pos hid, if_neg (fun h => h.2.1 hid), if_neg (fun h => h.2.1 hid)]
    exact ⟨rfl, rfl, rfl⟩
  · obtain ⟨h1, h2, h3⟩ := ChartDirectTracingKernel_EndElement_getElem? kernel bakedDirect i j
      ⟨texelPosition kernel i, kernel.geometryBuffer_.smoothNormals_.getD i default,
        kernel.geometryBuffer_.geometryIds_.getD i 0,
        (sampleContribution be kernel generator maxDistance i).scale (kernel.GetNumSamples : ℚ)⟩
    rw [if_neg hid, h1, h2, h3]
    have e1 : ∀ b : Bool, (i = j ∧ kernel.geometryBuffer_.geometryIds_.getD i 0 ≠ 0 ∧ b = true)
        ↔ (i = j ∧ b = true) := fun b => ⟨fun h => ⟨h.1, h.2.2⟩, fun h => ⟨h.1, hid, h.2⟩⟩
    simp only [e1]
    exact ⟨trivial, trivial, trivial⟩

/-! ## Direct light: theorems -/

/-- C5: `EndElement` with `N ≥ 1` samples and element sum `D` adds `(D / N, 0)` to
`directLight[i]` when `bakeDirect` is set and `albedo[i] × D / N` to `surfaceLight[i]` when
`bakeIndirect` is set; an entry whose flag is clear and every other index stay as they are. -/
theorem ChartDirectTracingKernel_EndElement_spec (k : ChartDirectTracingKernel)
    (bakedDirect : LightmapChartBakedDirect) (i : Nat) (element : ChartDirectTracingElement)
    (_hN : 1 ≤ k.GetNumSamples) (hd : i < bakedDirect.directLight_.length)
    (hs : i < bakedDirect.surfaceLight_.length) :
    (k.EndElement bakedDirect i element).directLight_.getD i default
        = (if k.bakeDirect_ then
            (bakedDirect.directLight_.getD i default).add
              ⟨element.directLight_.x_ / k.GetNumSamples, element.directLight_.y_ / k.GetNumSamples,
                element.directLight_.z_ / k.GetNumSamples, 0⟩
          else bakedDirect.directLight_.getD i default)
      ∧ (k.EndElement bakedDirect i element).surfaceLight_.getD i default
        = (if k.bakeIndirect_ then
            (bakedDirect.surfaceLight_.getD i default).add
              ⟨(k.geometryBuffer_.albedo_.getD i default).x_ * (element.directLight_.x_ / k.GetNumSamples),
                (k.geometryBuffer_.albedo_.getD i default).y_ * (element.directLight_.y_ / k.GetNumSamples),
                (k.geometryBuffer_.albedo_.getD i default).z_ * (element.directLight_.z_ / k.GetNumSamples)⟩
          else bakedDirect.surfaceLight_.getD i default)
      ∧ (∀ j, j ≠ i →
          (k.EndElement bakedDirect i element).directLight_[j]? = bakedDirect.directLight_[j]?
          ∧ (k.EndElement bakedDirect i element).surfaceLight_[j]? = bakedDirect.surfaceLight_[j]?)
      ∧ (k.EndElement bakedDirect i element).directLight_.length = bakedDirect.directLight_.length
      ∧ (k.EndElement bakedDirect i element).surfaceLight_.length
          = bakedDirect.surfaceLight_.length := by
  obtain ⟨h1, h2, -⟩ := ChartDirectTracingKernel_EndElement_getElem? k bakedDirect i i element
  have hold_d := getElem?_of_lt_length bakedDirect.directLight_ i hd
  have hold_s := getElem?_of_lt_length bakedDirect.surfaceLight_ i hs
  refine ⟨?_, ?_, ?_, ?_, ?_⟩
  · apply getD_of_getElem?
    rw [h1, hold_d]
    cases hb : k.bakeDirect_
    · simp
    · simp only [true_and, if_true, Option.map_some', Vector4.add, Vector4.ofVector3, Vector3.scale,
        Option.some.injEq, Vector4.mk.injEq]
      exact ⟨by ring, by ring, by ring, trivial⟩
  · apply getD_of_getElem?
    rw [h2, hold_s]
    cases hb : k.bakeIndirect_
    · simp
    · simp only [true_and, if_true, Option.map_some', Vector3.add, Vector3.mul, Vector3.scale,
        Option.some.injEq, Vector3.mk.injEq]
      refine ⟨?_, ?_, ?_⟩ <;> ring
  · intro j hj
    obtain ⟨g1, g2, -⟩ := ChartDirectTracingKernel_EndElement_getElem? k bakedDirect i j element
    rw [g1, g2, if_neg (fun h => hj h.1.symm), if_neg (fun h => hj h.1.symm)]
    exact ⟨rfl, rfl⟩
  · unfold ChartDirectTracingKernel.EndElement
    cases k.bakeDirect_ <;> cases k.bakeIndirect_ <;> simp [addAt_length]
  · unfold ChartDirectTracingKernel.EndElement
    cases k.bakeDirect_ <;> cases k.bakeIndirect_ <;> simp [addAt_length]

/-- Witness of C5: two samples that sum to `(2, 4, 6)` give `(1, 2, 3, 0)` at texel 1 of a
zero-initialised chart. -/
theorem ChartDirectTracingKernel_EndElement_spec_witness :
    ((quadKernel 2).EndElement emptyChart 1 ⟨Vector3.ZERO, Vector3.UP, 1, ⟨2, 4, 6⟩⟩).directLight_.getD 1
        default
      = (if (quadKernel 2).bakeDirect_ then
          (emptyChart.directLight_.getD 1 default).add
            ⟨(2 : ℚ) / (quadKernel 2).GetNumSamples, (4 : ℚ) / (quadKernel 2).GetNumSamples,
              (6 : ℚ) / (quadKernel 2).GetNumSamples, 0⟩
        else emptyChart.directLight_.getD 1 default) :=
  (ChartDirectTracingKernel_EndElement_spec (quadKernel 2) emptyChart 1
    ⟨Vector3.ZERO, Vector3.UP, 1, ⟨2, 4, 6⟩⟩ (by decide) (by decide) (by decide)).1

/-- Opaque candidates leave the light as it is. -/
theorem filteredLight_opaque (be : Backend) (geometryIndex : List RaytracerGeometry)
    (candidates : List RTCCandidate) (light : Vector3)
    (h : ∀ c ∈ candidates, (geometryIndex.getD c.hit.geomID default).opaque_ = true) :
    filteredLight be geometryIndex candidates light = light := by
  unfold filteredLight
  induction candidates generalizing light with
  | nil => rfl
  | cons c cs ih =>
    rw [List.foldl_cons]
    have hc := h c (List.mem_cons_self c cs)
    have : (IsTransparedForDirect be (geometryIndex.getD c.hit.geomID default) c.hit light).2
        = light := by
      unfold IsTransparedForDirect
      rw [if_pos hc]
    rw [this]
    exact ih light (fun c' hc' => h c' (List.mem_cons_of_mem c hc'))

/-- C4, amended: a sample that is not occluded, on a ray whose candidates that are not
opaque are all of a wanted LOD, adds to the direct light of the element the incoming light
the filter left, times `max(0, dot(smoothNormal, -lightDirection))`; the incoming light is
the light colour of the generator after every candidate that is not opaque has taken its
share, and the light colour itself when all candidates are opaque. -/
theorem TraceDirectLightSample_unoccluded (be : Backend) (generator : DirectionalRayGenerator)
    (maxDistance : ℚ) (s : ChartDirectTracingElement × DirectTracingContextForCharts × RTCRayHit)
    (sampleIndex : Nat)
    (_hwanted : ∀ c ∈ be.candidates
        (castDirectRay s.2.2 s.1.position_ generator.lightDirection_ maxDistance).ray,
      (s.2.1.geometryIndex_.getD c.hit.geomID default).opaque_ = false →
        IsUnwantedLod s.2.1.currentGeometry_ (s.2.1.geometryIndex_.getD c.hit.geomID default) = false)
    (hfree : (TraceDirectLightSample be generator maxDistance s sampleIndex).2.2.hit.geomID
      = RTC_INVALID_GEOMETRY_ID) :
    (TraceDirectLightSample be generator maxDistance s sampleIndex).1.directLight_
        = s.1.directLight_.add
          ((filteredLight be s.2.1.geometryIndex_
              (be.candidates (castDirectRay s.2.2 s.1.position_ generator.lightDirection_ maxDistance).ray)
              generator.lightColor_.ToVector3).scale
            (max 0 (s.1.smoothNormal_.DotProduct generator.lightDirection_.neg)))
      ∧ ((∀ c ∈ be.candidates
              (castDirectRay s.2.2 s.1.position_ generator.lightDirection_ maxDistance).ray,
            (s.2.1.geometryIndex_.getD c.hit.geomID default).opaque_ = true) →
          filteredLight be s.2.1.geometryIndex_
              (be.candidates (castDirectRay s.2.2 s.1.position_ generator.lightDirection_ maxDistance).ray)
              generator.lightColor_.ToVector3
            = generator.lightColor_.ToVector3) := by
  refine ⟨?_, filteredLight_opaque be _ _ _⟩
  obtain ⟨element, ctx, rh⟩ := s
  have hq := (chartCandidates_frame be
    (be.candidates (castDirectRay rh element.position_ generator.lightDirection_ maxDistance).ray)
    { ctx with incomingLight_ := generator.lightColor_.ToVector3 }
    (castDirectRay rh element.position_ generator.lightDirection_ maxDistance)).1
  by_cases hhit : (rtcIntersect1 be (TracingFilterForChartsDirect be)
      { ctx with incomingLight_ := generator.lightColor_.ToVector3 }
      (castDirectRay rh element.position_ generator.lightDirection_ maxDistance)).2.hit.geomID
      ≠ RTC_INVALID_GEOMETRY_ID
  · exfalso
    apply hhit
    simp only [TraceDirectLightSample, ChartDirectTracingElement.BeginSample,
      DirectionalRayGenerator.GetRayDirection, DirectionalRayGenerator.GetLightIntensity,
      if_pos hhit] at hfree
    exact hfree
  · simp only [TraceDirectLightSample, ChartDirectTracingElement.BeginSample,
      DirectionalRayGenerator.GetRayDirection, DirectionalRayGenerator.GetLightIntensity,
      if_neg hhit, ChartDirectTracingElement.EndSample]
    simp only [rtcIntersect1, hq]

/-- Witness of the amended C4: the texel that faces up under the light that shines down,
behind the half transparent pane. -/
theorem TraceDirectLightSample_unoccluded_witness :
    (TraceDirectLightSample (sceneBackend [⟨hitOf 1, 50⟩]) sun 100
        (sampleStart ⟨Vector3.ZERO, Vector3.UP, 1, Vector3.ZERO⟩) 0).1.directLight_
      = (sampleStart ⟨Vector3.ZERO, Vector3.UP, 1, Vector3.ZERO⟩).1.directLight_.add
        ((filteredLight (sceneBackend [⟨hitOf 1, 50⟩])
            (sampleStart ⟨Vector3.ZERO, Vector3.UP, 1, Vector3.ZERO⟩).2.1.geometryIndex_
            ((sceneBackend [⟨hitOf 1, 50⟩]).candidates
              (castDirectRay (sampleStart ⟨Vector3.ZERO, Vector3.UP, 1, Vector3.ZERO⟩).2.2
                (sampleStart ⟨Vector3.ZERO, Vector3.UP, 1, Vector3.ZERO⟩).1.position_
                sun.lightDirection_ 100).ray)
            sun.lightColor_.ToVector3).scale
          (max 0 ((sampleStart ⟨Vector3.ZERO, Vector3.UP, 1, Vector3.ZERO⟩).1.smoothNormal_.DotProduct
            sun.lightDirection_.neg))) :=
  (TraceDirectLightSample_unoccluded (sceneBackend [⟨hitOf 1, 50⟩]) sun 100
    (sampleStart ⟨Vector3.ZERO, Vector3.UP, 1, Vector3.ZERO⟩) 0
    (by
      intro c hc _
      simp only [sceneBackend, List.mem_singleton] at hc
      subst hc
      rfl)
    (by
      simp [TraceDirectLightSample, rtcIntersect1, sceneBackend, castDirectRay, sampleStart,
        offerCandidate, TracingFilterForChartsDirect, IsUnwantedLod, IsTransparedForDirect,
        ChartDirectTracingElement.BeginSample, testGeometries, opaqueGeometry, glassGeometry,
        hitOf])).1

/-- C4, as stated, fails.  First, the sign: a texel that faces up under a light that
shines straight down is not occluded and takes the whole light, while the cosine of the
claim, `dot(smoothNormal, lightDirection)`, is negative and would give nothing.  Second,
the radiance: behind a half transparent pane the sample is not occluded either and adds
half of the emitted radiance, not the emitted radiance times the cosine. -/
theorem TraceDirectLightSample_cosine_counterexample :
    ((TraceDirectLightSample (sceneBackend []) sun 100
          (sampleStart ⟨Vector3.ZERO, Vector3.UP, 1, Vector3.ZERO⟩) 0).2.2.hit.geomID
        = RTC_INVALID_GEOMETRY_ID
      ∧ (TraceDirectLightSample (sceneBackend []) sun 100
          (sampleStart ⟨Vector3.ZERO, Vector3.UP, 1, Vector3.ZERO⟩) 0).1.directLight_ = ⟨1, 1 / 2, 1 / 4⟩
      ∧ Vector3.ZERO.add ((sun.GetLightIntensity Vector3.ZERO).scale
          (max 0 (Vector3.UP.DotProduct (sun.GetRayDirection Vector3.ZERO)))) = ⟨0, 0, 0⟩
      ∧ (TraceDirectLightSample (sceneBackend []) sun 100
          (sampleStart ⟨Vector3.ZERO, Vector3.UP, 1, Vector3.ZERO⟩) 0).1.directLight_
        ≠ Vector3.ZERO.add ((sun.GetLightIntensity Vector3.ZERO).scale
          (max 0 (Vector3.UP.DotProduct (sun.GetRayDirection Vector3.ZERO)))))
    ∧ ((TraceDirectLightSample (sceneBackend [⟨hitOf 1, 50⟩]) sun 100
          (sampleStart ⟨Vector3.ZERO, Vector3.UP, 1, Vector3.ZERO⟩) 0).2.2.hit.geomID
        = RTC_INVALID_GEOMETRY_ID
      ∧ (TraceDirectLightSample (sceneBackend [⟨hitOf 1, 50⟩]) sun 100
          (sampleStart ⟨Vector3.ZERO, Vector3.UP, 1, Vector3.ZERO⟩) 0).1.directLight_
        = ⟨1 / 2, 1 / 4, 1 / 8⟩
      ∧ Vector3.ZERO.add ((sun.GetLightIntensity Vector3.ZERO).scale
          (max 0 (Vector3.UP.DotProduct (sun.GetRayDirection Vector3.ZERO).neg))) = ⟨1, 1 / 2, 1 / 4⟩) := by
  have key : (TraceDirectLightSample (sceneBackend []) sun 100
        (sampleStart ⟨Vector3.ZERO, Vector3.UP, 1, Vector3.ZERO⟩) 0).2.2.hit.geomID
      = RTC_INVALID_GEOMETRY_ID
    ∧ (TraceDirectLightSample (sceneBackend []) sun 100
        (sampleStart ⟨Vector3.ZERO, Vector3.UP, 1, Vector3.ZERO⟩) 0).1.directLight_ = ⟨1, 1 / 2, 1 / 4⟩
    ∧ Vector3.ZERO.add ((sun.GetLightIntensity Vector3.ZERO).scale
        (max 0 (Vector3.UP.DotProduct (sun.GetRayDirection Vector3.ZERO)))) = ⟨0, 0, 0⟩ := by
    refine ⟨?_, ?_, ?_⟩
    · simp [TraceDirectLightSample, rtcIntersect1, sceneBackend, castDirectRay, sampleStart]
    · simp [TraceDirectLightSample, rtcIntersect1, sceneBackend, castDirectRay, sampleStart,
        ChartDirectTracingElement.EndSample, ChartDirectTracingElement.BeginSample, sun,
        DirectionalRayGenerator.GetLightIntensity, DirectionalRayGenerator.GetRayDirection,
        Color.ToVector3, Vector3.add, Vector3.scale, Vector3.neg, Vector3.DotProduct, Vector3.UP,
        Vector3.DOWN, Vector3.ZERO, RTC_INVALID_GEOMETRY_ID]
    · simp [sun, DirectionalRayGenerator.GetLightIntensity, DirectionalRayGenerator.GetRayDirection,
        Color.ToVector3, Vector3.add, Vector3.scale, Vector3.DotProduct, Vector3.UP, Vector3.DOWN,
        Vector3.ZERO]
  have hclamp : Clamp (1 - 1 / 2 : ℚ) 0 1 = 1 / 2 := by
    unfold Clamp
    norm_num
  have hfree : (TraceDirectLightSample (sceneBackend [⟨hitOf 1, 50⟩]) sun 100
        (sampleStart ⟨Vector3.ZERO, Vector3.UP, 1, Vector3.ZERO⟩) 0).2.2.hit.geomID
      = RTC_INVALID_GEOMETRY_ID := by
    simp [TraceDirectLightSample, rtcIntersect1, sceneBackend, castDirectRay, sampleStart,
      offerCandidate, TracingFilterForChartsDirect, IsUnwantedLod, IsTransparedForDirect,
      ChartDirectTracingElement.BeginSample, testGeometries, opaqueGeometry, glassGeometry, hitOf]
  refine ⟨⟨key.1, key.2.1, key.2.2, ?_⟩, hfree, ?_, ?_⟩
  · rw [key.2.1, key.2.2]
    intro h
    have hx := congrArg Vector3.x_ h
    norm_num at hx
  · simp only [TraceDirectLightSample, rtcIntersect1, sceneBackend, castDirectRay, sampleStart,
      offerCandidate, TracingFilterForChartsDirect, IsUnwantedLod, IsTransparedForDirect,
      ChartDirectTracingElement.BeginSample, ChartDirectTracingElement.EndSample, testGeometries,
      opaqueGeometry, glassGeometry, hitOf, List.foldl_cons, List.foldl_nil, List.getD_cons_succ,
      List.getD_cons_zero, hclamp, sun, DirectionalRayGenerator.GetLightIntensity,
      DirectionalRayGenerator.GetRayDirection, Color.ToVector3, Vector3.mul, Vector3.lscale, Lerp,
      Vector3.add, Vector3.scale, Vector3.ONE, Vector3.DotProduct, Vector3.neg, Vector3.UP,
      Vector3.DOWN, Vector3.ZERO, RTC_INVALID_GEOMETRY_ID]
    norm_num
  · simp [sun, DirectionalRayGenerator.GetLightIntensity, DirectionalRayGenerator.GetRayDirection,
      Color.ToVector3, Vector3.add, Vector3.scale, Vector3.DotProduct, Vector3.UP, Vector3.DOWN,
      Vector3.ZERO, Vector3.neg]

/-- With at least one task, what `TraceDirectLight` leaves in `directLight[j]`. -/
theorem TraceDirectLight_getElem? (be : Backend) (kernel : ChartDirectTracingKernel)
    (generator : DirectionalRayGenerator) (raytracerScene : RaytracerScene)
    (settings : LightmapTracingSettings) (bakedDirect : LightmapChartBakedDirect) (j : Nat)
    (hTasks : 0 < settings.numTasks_) (hj : j < bakedDirect.directLight_.length) :
    (TraceDirectLight be kernel generator raytracerScene settings bakedDirect).directLight_[j]?
      = (if kernel.geometryBuffer_.geometryIds_.getD j 0 ≠ 0 ∧ kernel.bakeDirect_ = true then
          (bakedDirect.directLight_[j]?).map fun x =>
            x.add (Vector4.ofVector3
              (((sampleContribution be kernel generator raytracerScene.maxDistance j).scale
                (kernel.GetNumSamples : ℚ)).scale (1 / (kernel.GetNumSamples : ℚ))) 0)
        else bakedDirect.directLight_[j]?) := by
  rw [TraceDirectLight_eq_foldl be kernel generator raytracerScene settings bakedDirect hTasks]
  have h := foldl_range_point (directElementEffect be kernel generator raytracerScene.maxDistance)
    (fun b => b.directLight_[j]?)
    (fun o => if kernel.geometryBuffer_.geometryIds_.getD j 0 ≠ 0 ∧ kernel.bakeDirect_ = true then
        o.map fun x =>
          x.add (Vector4.ofVector3
            (((sampleContribution be kernel generator raytracerScene.maxDistance j).scale
              (kernel.GetNumSamples : ℚ)).scale (1 / (kernel.GetNumSamples : ℚ))) 0)
      else o) j
    (fun s i hij => by
      dsimp only
      rw [(directElementEffect_getElem? be kernel generator raytracerScene.maxDistance s i j).1,
        if_neg (fun h => hij h.1)])
    (fun s => by
      dsimp only
      rw [(directElementEffect_getElem? be kernel generator raytracerScene.maxDistance s j j).1]
      simp only [true_and])
    bakedDirect.directLight_.length bakedDirect
  simp only [hj, if_true] at h
  exact h

/-- C3: a sample whose intersection query reports a hit leaves the element as it is;
hence the chart pass adds nothing to `directLight[i]` and `surfaceLight[i]` of an occupied
texel whose samples are all occluded, and `directLight[i]` stays zero when it was zero. -/
theorem TraceDirectLight_occluded (be : Backend) (kernel : ChartDirectTracingKernel)
    (generator : DirectionalRayGenerator) (raytracerScene : RaytracerScene)
    (settings : LightmapTracingSettings) (bakedDirect : LightmapChartBakedDirect) (i : Nat)
    (_hoccupied : kernel.geometryBuffer_.geometryIds_.getD i 0 ≠ 0) (_hN : 1 ≤ kernel.GetNumSamples)
    (hshadow : sampleOccluded be kernel generator raytracerScene.maxDistance i = true) :
    (∀ (s : ChartDirectTracingElement × DirectTracingContextForCharts × RTCRayHit) (sampleIndex : Nat),
        (TraceDirectLightSample be generator raytracerScene.maxDistance s sampleIndex).2.2.hit.geomID
            ≠ RTC_INVALID_GEOMETRY_ID →
          (TraceDirectLightSample be generator raytracerScene.maxDistance s sampleIndex).1 = s.1)
      ∧ (TraceDirectLight be kernel generator raytracerScene settings bakedDirect).directLight_[i]?
          = bakedDirect.directLight_[i]?
      ∧ (TraceDirectLight be kernel generator raytracerScene settings bakedDirect).surfaceLight_[i]?
          = bakedDirect.surfaceLight_[i]?
      ∧ (bakedDirect.directLight_[i]? = some Vector4.ZERO →
          (TraceDirectLight be kernel generator raytracerScene settings bakedDirect).directLight_.getD i
            default = Vector4.ZERO) := by
  have hc : sampleContribution be kernel generator raytracerScene.maxDistance i = Vector3.ZERO := by
    simp only [sampleContribution, hshadow, if_true]
  have hmap4 : ∀ o : Option Vector4, o.map (fun x =>
      x.add (Vector4.ofVector3 (((Vector3.ZERO).scale (kernel.GetNumSamples : ℚ)).scale
        (1 / (kernel.GetNumSamples : ℚ))) 0)) = o := by
    intro o
    cases o with
    | none => rfl
    | some x => simp [Vector4.add, Vector4.ofVector3, Vector3.scale, Vector3.ZERO]
  have hmap3 : ∀ o : Option Vector3, o.map (fun x =>
      x.add ((kernel.geometryBuffer_.albedo_.getD i default).mul
        (((Vector3.ZERO).scale (kernel.GetNumSamples : ℚ)).scale
          (1 / (kernel.GetNumSamples : ℚ))))) = o := by
    intro o
    cases o with
    | none => rfl
    | some x => simp [Vector3.add, Vector3.mul, Vector3.scale, Vector3.ZERO]
  have hstep : ∀ (b : LightmapChartBakedDirect) (i' : Nat),
      (directElementEffect be kernel generator raytracerScene.maxDistance b i').directLight_[i]?
          = b.directLight_[i]?
        ∧ (directElementEffect be kernel generator raytracerScene.maxDistance b i').surfaceLight_[i]?
          = b.surfaceLight_[i]? := by
    intro b i'
    obtain ⟨h1, h2, -⟩ :=
      directElementEffect_getElem? be kernel generator raytracerScene.maxDistance b i' i
    rw [h1, h2]
    by_cases hii : i' = i
    · subst hii
      rw [hc, hmap4, hmap3]
      simp
    · rw [if_neg (fun h => hii h.1), if_neg (fun h => hii h.1)]
      exact ⟨rfl, rfl⟩
  have hpass : (TraceDirectLight be kernel generator raytracerScene settings bakedDirect).directLight_[i]?
        = bakedDirect.directLight_[i]?
      ∧ (TraceDirectLight be kernel generator raytracerScene settings bakedDirect).surfaceLight_[i]?
        = bakedDirect.surfaceLight_[i]? := by
    unfold TraceDirectLight
    refine ParallelFor_preserves _ _ _
      (fun b => b.directLight_[i]? = bakedDirect.directLight_[i]?
        ∧ b.surfaceLight_[i]? = bakedDirect.surfaceLight_[i]?) ?_ bakedDirect ⟨rfl, rfl⟩
    intro b fromIndex toIndex hb
    rw [TraceDirectLightTask_eq]
    refine foldl_preserves _
      (fun b => b.directLight_[i]? = bakedDirect.directLight_[i]?
        ∧ b.surfaceLight_[i]? = bakedDirect.surfaceLight_[i]?) ?_ _ b hb
    intro b' i' hb'
    obtain ⟨g1, g2⟩ := hstep b' i'
    exact ⟨g1.trans hb'.1, g2.trans hb'.2⟩
  refine ⟨?_, hpass.1, hpass.2, ?_⟩
  · intro s sampleIndex hhit
    unfold TraceDirectLightSample at hhit ⊢
    simp only at hhit ⊢
    split_ifs at hhit ⊢ with hq
    · rfl
    · exact absurd hhit hq
  · intro hz
    exact getD_of_getElem? _ _ _ _ (hpass.1.trans hz)

/-- Witness of C3: a wall between the light and the quad leaves texel 0 dark. -/
theorem TraceDirectLight_occluded_witness :
    (TraceDirectLight (sceneBackend [⟨hitOf 2, 50⟩]) (quadKernel 1) sun testScene (testSettings 1 1)
      emptyChart).directLight_.getD 0 default = Vector4.ZERO :=
  (TraceDirectLight_occluded (sceneBackend [⟨hitOf 2, 50⟩]) (quadKernel 1) sun testScene
    (testSettings 1 1) emptyChart 0 (by decide) (by decide)
    (by
      simp [sampleOccluded, rtcIntersect1, sceneBackend, offerCandidate, TracingFilterForChartsDirect,
        IsUnwantedLod, IsTransparedForDirect, sampleContext, texelGeometry, quadKernel, quadBuffer,
        testGeometries, opaqueGeometry, hitOf, sampleRayHit, RTC_INVALID_GEOMETRY_ID])).2.2.2 rfl

/-- C1, as stated, fails: behind a half transparent pane the query of texel 0 reports no
hit, the cosine is 1, and one sample leaves half of the light colour in `directLight[0]`. -/
theorem TraceDirectLight_glass_counterexample :
    sampleOccluded (sceneBackend [⟨hitOf 1, 50⟩]) (quadKernel 1) sun testScene.maxDistance 0 = false
    ∧ ((quadKernel 1).geometryBuffer_.smoothNormals_.getD 0 default).DotProduct sun.lightDirection_.neg = 1
    ∧ (TraceDirectLight (sceneBackend [⟨hitOf 1, 50⟩]) (quadKernel 1) sun testScene (testSettings 1 1)
        emptyChart).directLight_[0]? = some ⟨1 / 2, 1 / 4, 1 / 8, 0⟩
    ∧ (TraceDirectLight (sceneBackend [⟨hitOf 1, 50⟩]) (quadKernel 1) sun testScene (testSettings 1 1)
        emptyChart).directLight_[0]?
      ≠ some ⟨sun.lightColor_.r_, sun.lightColor_.g_, sun.lightColor_.b_, 0⟩ := by
  have hocc : sampleOccluded (sceneBackend [⟨hitOf 1, 50⟩]) (quadKernel 1) sun testScene.maxDistance 0
      = false := by
    simp [sampleOccluded, rtcIntersect1, sceneBackend, offerCandidate, TracingFilterForChartsDirect,
      IsUnwantedLod, IsTransparedForDirect, sampleContext, texelGeometry, quadKernel, quadBuffer,
      testGeometries, opaqueGeometry, glassGeometry, hitOf, sampleRayHit, RTC_INVALID_GEOMETRY_ID]
  have hclamp : Clamp (1 - 1 / 2 : ℚ) 0 1 = 1 / 2 := by
    unfold Clamp
    norm_num
  have hc : sampleContribution (sceneBackend [⟨hitOf 1, 50⟩]) (quadKernel 1) sun testScene.maxDistance 0
      = ⟨1 / 2, 1 / 4, 1 / 8⟩ := by
    simp only [sampleContribution, hocc, Bool.false_eq_true, if_false]
    simp only [filteredLight, sceneBackend, List.foldl_cons, List.foldl_nil, IsTransparedForDirect,
      quadKernel, quadBuffer, testGeometries, glassGeometry, opaqueGeometry, hitOf,
      List.getD_cons_succ, List.getD_cons_zero, hclamp, sun, Color.ToVector3, Vector3.mul,
      Vector3.lscale, Lerp, Vector3.add, Vector3.scale, Vector3.ONE, Vector3.DotProduct, Vector3.neg,
      Vector3.UP, Vector3.DOWN, Bool.false_eq_true, if_false]
    norm_num
  have hval := TraceDirectLight_getElem? (sceneBackend [⟨hitOf 1, 50⟩]) (quadKernel 1) sun testScene
    (testSettings 1 1) emptyChart 0 (by decide) (by decide)
  rw [hc] at hval
  have hres : (TraceDirectLight (sceneBackend [⟨hitOf 1, 50⟩]) (quadKernel 1) sun testScene
      (testSettings 1 1) emptyChart).directLight_[0]? = some ⟨1 / 2, 1 / 4, 1 / 8, 0⟩ := by
    rw [hval]
    simp [quadKernel, quadBuffer, emptyChart, testSettings, ChartDirectTracingKernel.GetNumSamples,
      Vector4.add, Vector4.ofVector3, Vector3.scale, Vector4.ZERO]
  refine ⟨hocc, ?_, hres, ?_⟩
  · simp [quadKernel, quadBuffer, sun, Vector3.DotProduct, Vector3.neg, Vector3.UP, Vector3.DOWN]
  · rw [hres]
    intro h
    have hx := congrArg (fun o => (o.getD Vector4.ZERO).x_) h
    simp [sun] at hx

/-- C1, amended: for an occupied texel whose query reports no hit and offers the filter
opaque candidates only, with `dot(smoothNormal, -lightDirection) = 1`, at least one sample
and `bakeDirect`, `TraceDirectLight` on a texel that starts at zero leaves exactly the
light colour in `directLight`, with 0 in the fourth channel. -/
theorem TraceDirectLight_unoccluded_exact (be : Backend) (kernel : ChartDirectTracingKernel)
    (generator : DirectionalRayGenerator) (raytracerScene : RaytracerScene)
    (settings : LightmapTracingSettings) (bakedDirect : LightmapChartBakedDirect) (i : Nat)
    (hTasks : 0 < settings.numTasks_) (hzero : bakedDirect.directLight_[i]? = some Vector4.ZERO)
    (hoccupied : kernel.geometryBuffer_.geometryIds_.getD i 0 ≠ 0) (hN : 1 ≤ kernel.GetNumSamples)
    (hbake : kernel.bakeDirect_ = true)
    (hfree : sampleOccluded be kernel generator raytracerScene.maxDistance i = false)
    (hsolid : ∀ c ∈ be.candidates (sampleRay be kernel generator raytracerScene.maxDistance i),
      (kernel.raytracerGeometries_.getD c.hit.geomID default).opaque_ = true)
    (hcos : (kernel.geometryBuffer_.smoothNormals_.getD i default).DotProduct
      generator.lightDirection_.neg = 1) :
    (TraceDirectLight be kernel generator raytracerScene settings bakedDirect).directLight_[i]?
      = some ⟨generator.lightColor_.r_, generator.lightColor_.g_, generator.lightColor_.b_, 0⟩ := by
  have hi : i < bakedDirect.directLight_.length := by
    by_contra hge
    rw [List.getElem?_eq_none (not_lt.mp hge)] at hzero
    exact Option.noConfusion hzero
  have hNq : (kernel.GetNumSamples : ℚ) ≠ 0 := by
    have : (1 : ℚ) ≤ (kernel.GetNumSamples : ℚ) := by exact_mod_cast hN
    linarith
  rw [TraceDirectLight_getElem? be kernel generator raytracerScene settings bakedDirect i hTasks hi,
    if_pos ⟨hoccupied, hbake⟩, hzero]
  simp only [sampleContribution, hfree, Bool.false_eq_true, if_false,
    filteredLight_opaque be _ _ _ hsolid, hcos, Option.map_some', Option.some.injEq, Vector4.add,
    Vector4.ofVector3, Vector3.scale, Color.ToVector3, Vector4.ZERO, Vector4.mk.injEq]
  refine ⟨?_, ?_, ?_, ?_⟩
  · field_simp
  · field_simp
  · field_simp
  · norm_num

/-- Witness of the amended C1: the flat quad under the light that shines straight down,
one sample, and the LOD 1 of the floor as the only candidate on the ray. -/
theorem TraceDirectLight_unoccluded_exact_witness :
    (TraceDirectLight (sceneBackend [⟨hitOf 3, 50⟩]) (quadKernel 1) sun testScene (testSettings 1 1)
        emptyChart).directLight_[0]? = some ⟨1, 1 / 2, 1 / 4, 0⟩
    ∧ (TraceDirectLight (sceneBackend [⟨hitOf 3, 50⟩]) (quadKernel 1) sun testScene (testSettings 1 1)
        emptyChart).directLight_[1]? = some ⟨1, 1 / 2, 1 / 4, 0⟩ :=
  ⟨TraceDirectLight_unoccluded_exact (sceneBackend [⟨hitOf 3, 50⟩]) (quadKernel 1) sun testScene
      (testSettings 1 1) emptyChart 0 (by decide) rfl (by decide) (by decide) rfl
      (by
        simp [sampleOccluded, rtcIntersect1, sceneBackend, offerCandidate, TracingFilterForChartsDirect,
          IsUnwantedLod, IsTransparedForDirect, sampleContext, texelGeometry, quadKernel, quadBuffer,
          testGeometries, opaqueGeometry, hitOf, sampleRayHit, RTC_INVALID_GEOMETRY_ID])
      (by
        intro c hc
        simp only [sceneBackend, List.mem_singleton] at hc
        subst hc
        rfl)
      (by simp [quadKernel, quadBuffer, sun, Vector3.DotProduct, Vector3.neg, Vector3.UP, Vector3.DOWN]),
    TraceDirectLight_unoccluded_exact (sceneBackend [⟨hitOf 3, 50⟩]) (quadKernel 1) sun testScene
      (testSettings 1 1) emptyChart 1 (by decide) rfl (by decide) (by decide) rfl
      (by
        simp [sampleOccluded, rtcIntersect1, sceneBackend, offerCandidate, TracingFilterForChartsDirect,
          IsUnwantedLod, IsTransparedForDirect, sampleContext, texelGeometry, quadKernel, quadBuffer,
          testGeometries, opaqueGeometry, hitOf, sampleRayHit, RTC_INVALID_GEOMETRY_ID])
      (by
        intro c hc
        simp only [sceneBackend, List.mem_singleton] at hc
        subst hc
        rfl)
      (by simp [quadKernel, quadBuffer, sun, Vector3.DotProduct, Vector3.neg, Vector3.UP, Vector3.DOWN])⟩

/-! ## Empty texels -/

/-- A loop in `Option` preserves what each of its steps preserves. -/
theorem foldlM_preserves {σ α : Type} (f : σ → α → Option σ) (P : σ → Prop)
    (h : ∀ s a s', P s → f s a = some s' → P s') (l : List α) (s s' : σ) (hs : P s)
    (hr : l.foldlM f s = some s') : P s' := by
  induction l generalizing s with
  | nil =>
    simp only [List.foldlM_nil] at hr
    cases hr
    exact hs
  | cons a l ih =>
    rw [List.foldlM_cons] at hr
    cases hfa : f s a with
    | none => rw [hfa] at hr; exact Option.noConfusion hr
    | some s1 =>
      rw [hfa] at hr
      exact ih s1 (h s a s1 hs hfa) hr

/-- The emission baker writes nothing at an empty texel. -/
theorem BakeEmissionLightTask_empty (geometryBuffer : LightmapChartGeometryBuffer)
    (bakedDirect : LightmapChartBakedDirect) (fromIndex toIndex i : Nat)
    (hempty : geometryBuffer.geometryIds_.getD i 0 = 0) :
    (BakeEmissionLightTask geometryBuffer bakedDirect fromIndex toIndex).directLight_[i]?
        = bakedDirect.directLight_[i]?
      ∧ (BakeEmissionLightTask geometryBuffer bakedDirect fromIndex toIndex).surfaceLight_[i]?
        = bakedDirect.surfaceLight_[i]?
      ∧ (BakeEmissionLightTask geometryBuffer bakedDirect fromIndex toIndex).albedo_[i]?
        = bakedDirect.albedo_[i]? := by
  unfold BakeEmissionLightTask
  refine foldl_preserves _
    (fun b => b.directLight_[i]? = bakedDirect.directLight_[i]?
      ∧ b.surfaceLight_[i]? = bakedDirect.surfaceLight_[i]?
      ∧ b.albedo_[i]? = bakedDirect.albedo_[i]?) ?_ _ bakedDirect ⟨rfl, rfl, rfl⟩
  intro b e hb
  by_cases he : geometryBuffer.geometryIds_.getD e 0 = 0
  · simp only [he, if_true]
    exact hb
  · have hne : e ≠ i := fun h => he (h ▸ hempty)
    simp only [he, if_false, addAt_getElem?, if_neg hne, List.getElem?_set_ne hne]
    exact hb

/-- A sample of the indirect pass leaves the kernel and the baked chart as they are. -/
theorem TraceIndirectLightSample_frame (be : Backend) (fuel : Nat)
    (bakedDirect : List LightmapChartBakedDirect) (raytracerScene : RaytracerScene)
    (settings : LightmapTracingSettings) (s s' : ChartIndirectTracingElement × IndirectTaskState)
    (sampleIndex : Nat)
    (h : TraceIndirectLightSample be fuel bakedDirect raytracerScene settings s sampleIndex = some s') :
    s'.2.bakedIndirect = s.2.bakedIndirect ∧ s'.2.kernel = s.2.kernel
      ∧ s'.1.geometryId_ = s.1.geometryId_ := by
  simp only [TraceIndirectLightSample, Option.bind_eq_some, Option.map_eq_some'] at h
  obtain ⟨b, -, r, -, hs'⟩ := h
  subst hs'
  exact ⟨rfl, rfl, rfl⟩

/-- An element of the indirect pass writes nothing at an empty texel. -/
theorem TraceIndirectLightElement_empty (be : Backend) (fuel : Nat)
    (bakedDirect : List LightmapChartBakedDirect) (raytracerScene : RaytracerScene)
    (settings : LightmapTracingSettings) (s s' : IndirectTaskState) (elementIndex i : Nat)
    (hempty : s.kernel.geometryBuffer_.geometryIds_.getD i 0 = 0)
    (h : TraceIndirectLightElement be fuel bakedDirect raytracerScene settings s elementIndex = some s') :
    s'.bakedIndirect.light_[i]? = s.bakedIndirect.light_[i]?
      ∧ s'.kernel.geometryBuffer_ = s.kernel.geometryBuffer_ := by
  have hb : (s.kernel.BeginElement be s.bakedIndirect elementIndex).2.2.light_[i]?
        = s.bakedIndirect.light_[i]?
      ∧ (s.kernel.BeginElement be s.bakedIndirect elementIndex).2.1.geometryBuffer_
        = s.kernel.geometryBuffer_
      ∧ ((s.kernel.BeginElement be s.bakedIndirect elementIndex).1.geometryId_ ≠ 0 →
          elementIndex ≠ i) := by
    unfold ChartIndirectTracingKernel.BeginElement
    by_cases he : s.kernel.geometryBuffer_.geometryIds_.getD elementIndex 0 = 0
    · simp only [he, if_true]
      exact ⟨trivial, trivial, fun h => absurd rfl h⟩
    · have hne : elementIndex ≠ i := fun h => he (h ▸ hempty)
      simp only [he, if_false]
      split_ifs
      · exact ⟨by simp only [addAt_getElem?, if_neg hne], rfl, fun _ => hne⟩
      · exact ⟨rfl, rfl, fun _ => hne⟩
  obtain ⟨hb1, hb2, hb3⟩ := hb
  unfold TraceIndirectLightElement at h
  simp only at h
  split_ifs at h with hv
  · cases h
    exact ⟨hb1, hb2⟩
  · simp only [Option.map_eq_some'] at h
    obtain ⟨r, hr, hs'⟩ := h
    subst hs'
    have hvalid : (s.kernel.BeginElement be s.bakedIndirect elementIndex).1.geometryId_ ≠ 0 := by
      simpa [ChartIndirectTracingElement.valid] using hv
    have hne := hb3 hvalid
    have hframe := foldlM_preserves
      (TraceIndirectLightSample be fuel bakedDirect raytracerScene settings)
      (fun x => x.2.bakedIndirect = (s.kernel.BeginElement be s.bakedIndirect elementIndex).2.2
        ∧ x.2.kernel = (s.kernel.BeginElement be s.bakedIndirect elementIndex).2.1)
      (fun x a x' hx hxa => by
        obtain ⟨g1, g2, -⟩ :=
          TraceIndirectLightSample_frame be fuel bakedDirect raytracerScene settings x x' a hxa
        exact ⟨g1.trans hx.1, g2.trans hx.2⟩)
      _ _ r ⟨rfl, rfl⟩ hr
    simp only [ChartIndirectTracingKernel.EndElement, addAt_getElem?, if_neg hne]
    rw [hframe.1, hframe.2]
    exact ⟨hb1, hb2⟩

/-- A task of the indirect pass writes nothing at an empty texel. -/
theorem TraceIndirectLightTask_empty (be : Backend) (fuel : Nat)
    (sharedKernel : ChartIndirectTracingKernel) (bakedDirect : List LightmapChartBakedDirect)
    (raytracerScene : RaytracerScene) (settings : LightmapTracingSettings)
    (s r : LightmapChartBakedIndirect × Nat) (fromIndex toIndex i : Nat)
    (hempty : sharedKernel.geometryBuffer_.geometryIds_.getD i 0 = 0)
    (h : TraceIndirectLightTask be fuel sharedKernel bakedDirect raytracerScene settings s fromIndex
      toIndex = some r) :
    r.1.light_[i]? = s.1.light_[i]? := by
  unfold TraceIndirectLightTask at h
  simp only [Option.map_eq_some'] at h
  obtain ⟨t, ht, hr⟩ := h
  subst hr
  have := foldlM_preserves (TraceIndirectLightElement be fuel bakedDirect raytracerScene settings)
    (fun x => x.bakedIndirect.light_[i]? = s.1.light_[i]?
      ∧ x.kernel.geometryBuffer_ = sharedKernel.geometryBuffer_)
    (fun x a x' hx hxa => by
      obtain ⟨g1, g2⟩ := TraceIndirectLightElement_empty be fuel bakedDirect raytracerScene settings
        x x' a i (by rw [hx.2]; exact hempty) hxa
      exact ⟨g1.trans hx.1, g2.trans hx.2⟩)
    _ _ t ⟨rfl, rfl⟩ ht
  exact this.1

/-- A loop in `Option` returns when each of its steps returns. -/
theorem foldlM_isSome {σ α : Type} (f : σ → α → Option σ) (h : ∀ s a, (f s a).isSome = true)
    (l : List α) (s : σ) : (l.foldlM f s).isSome = true := by
  induction l generalizing s with
  | nil => rfl
  | cons a l ih =>
    rw [List.foldlM_cons]
    cases hfa : f s a with
    | none =>
      have := h s a
      rw [hfa] at this
      exact absurd this Bool.false_ne_true
    | some s1 => exact ih s1

/-- The bounce loop returns when every random direction is found within the fuel. -/
theorem TraceIndirectLightBounces_isSome (be : Backend) (fuel : Nat)
    (bakedDirect : List LightmapChartBakedDirect) (raytracerScene : RaytracerScene)
    (settings : LightmapTracingSettings) (hfuel : ∀ rng, (RandomDirection be fuel rng).isSome = true)
    (n bounceIndex : Nat) (s : IndirectSampleState) :
    (TraceIndirectLightBounces be fuel bakedDirect raytracerScene settings n bounceIndex s).isSome
      = true := by
  induction n generalizing bounceIndex s with
  | zero => rfl
  | succ n ih =>
    unfold TraceIndirectLightBounces
    simp only
    split_ifs
    · rfl
    · rfl
    · rename_i h1 h2 h3
      simp only [RandomHemisphereDirection]
      cases hd : RandomDirection be fuel
          (rtcIntersect1 be (TracingFilterIndirect be) ({ geometryIndex_ := raytracerScene.geometries }, s.rng)
            { ray := { s.rayHit.ray with
                org := s.currentPosition, dir := s.currentRayDirection,
                tfar := raytracerScene.maxDistance }
              hit := { s.rayHit.hit with geomID := RTC_INVALID_GEOMETRY_ID } }).1.2 with
      | none =>
        have := hfuel (rtcIntersect1 be (TracingFilterIndirect be)
            ({ geometryIndex_ := raytracerScene.geometries }, s.rng)
            { ray := { s.rayHit.ray with
                org := s.currentPosition, dir := s.currentRayDirection,
                tfar := raytracerScene.maxDistance }
              hit := { s.rayHit.hit with geomID := RTC_INVALID_GEOMETRY_ID } }).1.2
        rw [hd] at this
        exact absurd this Bool.false_ne_true
      | some d =>
        simp only [Option.map_some', Option.some_bind]
        exact ih _ _
    · exact ih _ _

/-- The indirect chart pass returns when every random direction is found within the fuel. -/
theorem BakeIndirectLightForCharts_isSome (be : Backend) (fuel : Nat)
    (bakedIndirect : LightmapChartBakedIndirect) (bakedDirects : List LightmapChartBakedDirect)
    (geometryBuffer : LightmapChartGeometryBuffer) (raytracerScene : RaytracerScene)
    (geometryBufferToRaytracer : List Nat) (settings : LightmapTracingSettings) (rng : Nat)
    (hfuel : ∀ rng, (RandomDirection be fuel rng).isSome = true) :
    (BakeIndirectLightForCharts be fuel bakedIndirect bakedDirects geometryBuffer raytracerScene
      geometryBufferToRaytracer settings rng).isSome = true := by
  have hsample : ∀ (s : ChartIndirectTracingElement × IndirectTaskState) (k : Nat),
      (TraceIndirectLightSample be fuel bakedDirects raytracerScene settings s k).isSome = true := by
    intro s k
    unfold TraceIndirectLightSample ChartIndirectTracingElement.BeginSample RandomHemisphereDirection
    cases hd : RandomDirection be fuel s.2.rng with
    | none =>
      have := hfuel s.2.rng
      rw [hd] at this
      exact absurd this Bool.false_ne_true
    | some d =>
      simp only [Option.map_some', Option.some_bind, Option.isSome_map']
      exact TraceIndirectLightBounces_isSome be fuel bakedDirects raytracerScene settings hfuel _ _ _
  have helement : ∀ (s : IndirectTaskState) (e : Nat),
      (TraceIndirectLightElement be fuel bakedDirects raytracerScene settings s e).isSome = true := by
    intro s e
    unfold TraceIndirectLightElement
    simp only
    split_ifs
    · rfl
    · simp only [Option.isSome_map']
      exact foldlM_isSome _ hsample _ _
  have htask : ∀ (k : ChartIndirectTracingKernel) (s : LightmapChartBakedIndirect × Nat) (a b : Nat),
      (TraceIndirectLightTask be fuel k bakedDirects raytracerScene settings s a b).isSome = true := by
    intro k s a b
    unfold TraceIndirectLightTask
    simp only [Option.isSome_map']
    exact foldlM_isSome _ helement _ _
  unfold BakeIndirectLightForCharts TraceIndirectLight
  refine ParallelFor_preserves _ _ _
    (fun o : Option (LightmapChartBakedIndirect × Nat) => o.isSome = true) ?_ _ rfl
  intro o a b ho
  cases o with
  | none => exact absurd ho Bool.false_ne_true
  | some x => exact htask _ x a b

/-- C2: a texel with `geometryIds[i] = 0` is written by none of the passes: the emission
baker and the chart direct pass leave `directLight[i]`, `surfaceLight[i]` and `albedo[i]`
as they were, and the chart indirect pass leaves the indirect `light[i]` as it was, for
every backend, every sample count and every number of tasks; the indirect pass returns
whenever its random directions are found within the fuel. -/
theorem empty_texel_untouched (be : Backend) (fuel : Nat)
    (geometryBuffer : LightmapChartGeometryBuffer) (raytracerScene : RaytracerScene)
    (geometryBufferToRaytracer : List Nat) (settings : LightmapTracingSettings)
    (bakedDirect : LightmapChartBakedDirect) (lightColor : Color) (lightDirection : Vector3)
    (bakeDirect bakeIndirect : Bool) (bakedIndirect : LightmapChartBakedIndirect)
    (bakedDirects : List LightmapChartBakedDirect) (rng : Nat) (i : Nat)
    (hempty : geometryBuffer.geometryIds_.getD i 0 = 0) :
    ((BakeEmissionLight bakedDirect geometryBuffer settings).directLight_[i]?
          = bakedDirect.directLight_[i]?
        ∧ (BakeEmissionLight bakedDirect geometryBuffer settings).surfaceLight_[i]?
          = bakedDirect.surfaceLight_[i]?
        ∧ (BakeEmissionLight bakedDirect geometryBuffer settings).albedo_[i]?
          = bakedDirect.albedo_[i]?)
      ∧ ((BakeDirectionalLightForCharts be bakedDirect geometryBuffer raytracerScene
            geometryBufferToRaytracer lightColor lightDirection bakeDirect bakeIndirect
            settings).directLight_[i]? = bakedDirect.directLight_[i]?
        ∧ (BakeDirectionalLightForCharts be bakedDirect geometryBuffer raytracerScene
            geometryBufferToRaytracer lightColor lightDirection bakeDirect bakeIndirect
            settings).surfaceLight_[i]? = bakedDirect.surfaceLight_[i]?
        ∧ (BakeDirectionalLightForCharts be bakedDirect geometryBuffer raytracerScene
            geometryBufferToRaytracer lightColor lightDirection bakeDirect bakeIndirect
            settings).albedo_[i]? = bakedDirect.albedo_[i]?)
      ∧ (∀ r, BakeIndirectLightForCharts be fuel bakedIndirect bakedDirects geometryBuffer
            raytracerScene geometryBufferToRaytracer settings rng = some r →
          r.1.light_[i]? = bakedIndirect.light_[i]?)
      ∧ ((∀ rng', (RandomDirection be fuel rng').isSome = true) →
          (BakeIndirectLightForCharts be fuel bakedIndirect bakedDirects geometryBuffer
            raytracerScene geometryBufferToRaytracer settings rng).isSome = true) := by
  refine ⟨?_, ?_, ?_, BakeIndirectLightForCharts_isSome be fuel bakedIndirect bakedDirects
    geometryBuffer raytracerScene geometryBufferToRaytracer settings rng⟩
  · unfold BakeEmissionLight
    refine ParallelFor_preserves _ _ _
      (fun b => b.directLight_[i]? = bakedDirect.directLight_[i]?
        ∧ b.surfaceLight_[i]? = bakedDirect.surfaceLight_[i]?
        ∧ b.albedo_[i]? = bakedDirect.albedo_[i]?) ?_ bakedDirect ⟨rfl, rfl, rfl⟩
    intro b fromIndex toIndex hb
    obtain ⟨g1, g2, g3⟩ := BakeEmissionLightTask_empty geometryBuffer b fromIndex toIndex i hempty
    exact ⟨g1.trans hb.1, g2.trans hb.2.1, g3.trans hb.2.2⟩
  · unfold BakeDirectionalLightForCharts TraceDirectLight
    refine ParallelFor_preserves _ _ _
      (fun b => b.directLight_[i]? = bakedDirect.directLight_[i]?
        ∧ b.surfaceLight_[i]? = bakedDirect.surfaceLight_[i]?
        ∧ b.albedo_[i]? = bakedDirect.albedo_[i]?) ?_ bakedDirect ⟨rfl, rfl, rfl⟩
    intro b fromIndex toIndex hb
    rw [TraceDirectLightTask_eq]
    refine foldl_preserves _
      (fun b => b.directLight_[i]? = bakedDirect.directLight_[i]?
        ∧ b.surfaceLight_[i]? = bakedDirect.surfaceLight_[i]?
        ∧ b.albedo_[i]? = bakedDirect.albedo_[i]?) ?_ _ b hb
    intro b' e hb'
    obtain ⟨g1, g2, g3⟩ := directElementEffect_getElem? be
      ⟨geometryBuffer, geometryBufferToRaytracer, raytracerScene.geometries, settings, bakeDirect,
        bakeIndirect⟩ ⟨lightColor, lightDirection⟩ raytracerScene.maxDistance b' e i
    have hno : ∀ flag : Bool, ¬ (e = i ∧ geometryBuffer.geometryIds_.getD e 0 ≠ 0 ∧ flag = true) :=
      fun _ h => h.2.1 (h.1 ▸ hempty)
    rw [if_neg (hno _)] at g1 g2
    exact ⟨g1.trans hb'.1, g2.trans hb'.2.1, by rw [g3]; exact hb'.2.2⟩
  · intro r hr
    unfold BakeIndirectLightForCharts TraceIndirectLight at hr
    have := ParallelFor_preserves
      ((⟨geometryBuffer, geometryBufferToRaytracer, raytracerScene.geometries, settings, 0⟩
        : ChartIndirectTracingKernel).GetNumElements bakedIndirect) settings.numTasks_
      (fun (s : Option (LightmapChartBakedIndirect × Nat)) fromIndex toIndex =>
        s.bind fun s =>
          TraceIndirectLightTask be fuel
            ⟨geometryBuffer, geometryBufferToRaytracer, raytracerScene.geometries, settings, 0⟩
            bakedDirects raytracerScene settings s fromIndex toIndex)
      (fun o : Option (LightmapChartBakedIndirect × Nat) =>
        ∀ r, o = some r → r.1.light_[i]? = bakedIndirect.light_[i]?)
      (fun o fromIndex toIndex ho r hr => by
        simp only [Option.bind_eq_some] at hr
        obtain ⟨x, hx, htask⟩ := hr
        exact (TraceIndirectLightTask_empty be fuel _ bakedDirects raytracerScene settings x r
          fromIndex toIndex i hempty htask).trans (ho x hx))
      (some (bakedIndirect, rng)) (fun r hr => by cases hr; rfl)
    exact this r hr

/-- Witness of C2: texel 0 of a chart whose first texel is empty, two tasks, one sample. -/
theorem empty_texel_untouched_witness :
    (BakeEmissionLight emptyChart holeBuffer (testSettings 2 1)).directLight_[0]?
        = emptyChart.directLight_[0]?
      ∧ (BakeDirectionalLightForCharts (sceneBackend []) emptyChart holeBuffer testScene [0, 0]
          ⟨1, 1, 1, 1⟩ Vector3.DOWN true true (testSettings 2 1)).directLight_[0]?
        = emptyChart.directLight_[0]?
      ∧ (BakeIndirectLightForCharts (sceneBackend []) 1 emptyIndirectChart [emptyChart] holeBuffer
          testScene [0, 0] (testSettings 2 1) 0).isSome = true
      ∧ (∀ r, BakeIndirectLightForCharts (sceneBackend []) 1 emptyIndirectChart [emptyChart]
            holeBuffer testScene [0, 0] (testSettings 2 1) 0 = some r →
          r.1.light_[0]? = emptyIndirectChart.light_[0]?) :=
  ⟨(empty_texel_untouched (sceneBackend []) 1 holeBuffer testScene [0, 0] (testSettings 2 1)
      emptyChart ⟨1, 1, 1, 1⟩ Vector3.DOWN true true emptyIndirectChart [emptyChart] 0 0 rfl).1.1,
    (empty_texel_untouched (sceneBackend []) 1 holeBuffer testScene [0, 0] (testSettings 2 1)
      emptyChart ⟨1, 1, 1, 1⟩ Vector3.DOWN true true emptyIndirectChart [emptyChart] 0 0 rfl).2.1.1,
    (empty_texel_untouched (sceneBackend []) 1 holeBuffer testScene [0, 0] (testSettings 2 1)
      emptyChart ⟨1, 1, 1, 1⟩ Vector3.DOWN true true emptyIndirectChart [emptyChart] 0 0 rfl).2.2.2
      (by
        intro rng
        simp only [RandomDirection, Random, sceneBackend, Vector3.Length, Vector3.LengthSquared]
        norm_num),
    (empty_texel_untouched (sceneBackend []) 1 holeBuffer testScene [0, 0] (testSettings 2 1)
      emptyChart ⟨1, 1, 1, 1⟩ Vector3.DOWN true true emptyIndirectChart [emptyChart] 0 0 rfl).2.2.1⟩

/-! ## Filters of the probe and indirect passes: theorems -/

/-- C11: `TracingFilterForLightProbesDirect` leaves the flag at 1 exactly when the flag was
1 on entry, the hit geometry has LOD index 0 and the hit geometry is opaque (the same for
every non zero flag: it is kept exactly then and cleared otherwise); with the flag 0 on
entry the filter changes neither the flag nor the context, which holds the incoming light. -/
theorem TracingFilterForLightProbesDirect_accepts (be : Backend)
    (ctx : DirectTracingContextForLightProbes) (hit : RTCHit) (valid : Int) :
    ((TracingFilterForLightProbesDirect be ctx hit valid).2 = 1 ↔
        valid = 1 ∧ (ctx.geometryIndex_.getD hit.geomID default).lodIndex_ = 0
          ∧ (ctx.geometryIndex_.getD hit.geomID default).opaque_ = true)
      ∧ ((TracingFilterForLightProbesDirect be ctx hit valid).2 ≠ 0 ↔
        valid ≠ 0 ∧ (ctx.geometryIndex_.getD hit.geomID default).lodIndex_ = 0
          ∧ (ctx.geometryIndex_.getD hit.geomID default).opaque_ = true)
      ∧ ((TracingFilterForLightProbesDirect be ctx hit valid).2 = valid
        ∨ (TracingFilterForLightProbesDirect be ctx hit valid).2 = 0)
      ∧ TracingFilterForLightProbesDirect be ctx hit 0 = (ctx, 0) := by
  have hflag : (TracingFilterForLightProbesDirect be ctx hit valid).2
      = if valid ≠ 0 ∧ (ctx.geometryIndex_.getD hit.geomID default).lodIndex_ = 0
          ∧ (ctx.geometryIndex_.getD hit.geomID default).opaque_ = true then valid else 0 := by
    have htr : ∀ (g : RaytracerGeometry) (l : Vector3),
        (IsTransparedForDirect be g hit l).1 = !g.opaque_ := by
      intro g l
      unfold IsTransparedForDirect
      cases g.opaque_ <;> simp
    unfold TracingFilterForLightProbesDirect
    dsimp only
    rw [htr]
    generalize ctx.geometryIndex_.getD hit.geomID default = g
    by_cases hv : valid = 0
    · simp [hv]
    · by_cases hl : g.lodIndex_ = 0
      · cases ho : g.opaque_ <;> simp [hv, hl]
      · cases ho : g.opaque_ <;> simp [hv, hl]
  refine ⟨?_, ?_, ?_, ?_⟩
  · rw [hflag]
    constructor
    · intro h
      split_ifs at h with hc
      · exact ⟨h, hc.2⟩
      · exact absurd h (by decide)
    · rintro ⟨h1, h2⟩
      have hv : valid ≠ 0 := by rw [h1]; decide
      rw [if_pos ⟨hv, h2⟩, h1]
  · rw [hflag]
    constructor
    · intro h
      split_ifs at h with hc
      · exact hc
      · exact absurd rfl h
    · intro hc
      rw [if_pos hc]
      exact hc.1
  · rw [hflag]
    split_ifs
    · exact Or.inl rfl
    · exact Or.inr rfl
  · simp [TracingFilterForLightProbesDirect]

/-- The back-to-front loop over the bounces `n - 1` down to `0`, started from any value. -/
theorem accumulate_fold (sl al : Nat → Vector3) (f : Nat → ℚ) (n : Nat) (init : Vector3) :
    (List.range n).reverse.foldl
        (fun (light : Vector3) i => ((light.add (sl i)).scale (f i)).mul (al i)) init
      = ⟨init.x_ * ∏ j in Finset.range n, (f j * (al j).x_)
            + transportUnroll (fun i => (sl i).x_) f (fun i => (al i).x_) n,
          init.y_ * ∏ j in Finset.range n, (f j * (al j).y_)
            + transportUnroll (fun i => (sl i).y_) f (fun i => (al i).y_) n,
          init.z_ * ∏ j in Finset.range n, (f j * (al j).z_)
            + transportUnroll (fun i => (sl i).z_) f (fun i => (al i).z_) n⟩ := by
  induction n generalizing init with
  | zero =>
    simp [transportUnroll]
  | succ n ih =>
    rw [List.range_succ, List.reverse_append, List.reverse_singleton, List.singleton_append,
      List.foldl_cons, ih]
    simp only [transportUnroll, Finset.sum_range_succ, Finset.prod_range_succ, Vector3.add,
      Vector3.scale, Vector3.mul, Vector3.mk.injEq]
    refine ⟨?_, ?_, ?_⟩ <;> ring

/-- C13: the estimate of a sample, accumulated back to front, is the light transport
unroll of the recorded bounces: the sum over `i < n` of `surfaceLight i` times the product
over `j ≤ i` of `factor j × albedo j`, channel by channel; it is zero for `n = 0`, and it is
what `TraceIndirectLight` hands to `EndSample`. -/
theorem AccumulateBounces_eq_unroll (be : Backend) (fuel : Nat)
    (bakedDirect : List LightmapChartBakedDirect) (raytracerScene : RaytracerScene)
    (settings : LightmapTracingSettings) (r : IndirectSampleState)
    (s : ChartIndirectTracingElement × IndirectTaskState) (sampleIndex : Nat) :
    AccumulateBounces r = unrollOf r
      ∧ AccumulateBounces { r with numBounces := 0 } = Vector3.ZERO
      ∧ TraceIndirectLightSample be fuel bakedDirect raytracerScene settings s sampleIndex
        = (s.1.BeginSample be fuel sampleIndex s.2.rng).bind fun b =>
          (TraceIndirectLightBounces be fuel bakedDirect raytracerScene settings settings.numBounces_ 0
            { currentPosition := b.1.position
              currentFaceNormal := b.1.faceNormal
              currentSmoothNormal := b.1.smoothNormal
              currentRayDirection := b.1.rayDirection
              numBounces := 0
              albedo := s.2.albedo.set 0 b.1.albedo
              incomingSamples := s.2.incomingSamples
              incomingFactors := s.2.incomingFactors
              rayHit := s.2.rayHit
              rng := b.2 }).map fun r =>
            (s.1.EndSample (unrollOf r),
              { s.2 with
                albedo := r.albedo, incomingSamples := r.incomingSamples
                incomingFactors := r.incomingFactors, rayHit := r.rayHit, rng := r.rng }) := by
  have hacc : ∀ r : IndirectSampleState, AccumulateBounces r = unrollOf r := by
    intro r
    unfold AccumulateBounces unrollOf
    rw [accumulate_fold (fun i => r.incomingSamples.getD i default)
      (fun i => r.albedo.getD i default) (fun i => r.incomingFactors.getD i 0) r.numBounces
      Vector3.ZERO]
    simp [Vector3.ZERO]
  refine ⟨hacc r, ?_, ?_⟩
  · simp [AccumulateBounces]
  · unfold TraceIndirectLightSample
    simp only [hacc]

/-- An iteration of the bounce loop whose query reports no hit, or a hit with
`dot(rayDir, Ng) > 0`, leaves the loop. -/
theorem TraceIndirectLightBounces_break (be : Backend) (fuel : Nat)
    (bakedDirect : List LightmapChartBakedDirect) (raytracerScene : RaytracerScene)
    (settings : LightmapTracingSettings) (n bounceIndex : Nat) (s : IndirectSampleState)
    (h : (bounceQuery be raytracerScene s).2.hit.geomID = RTC_INVALID_GEOMETRY_ID
      ∨ s.currentRayDirection.DotProduct (bounceQuery be raytracerScene s).2.hit.Ng > 0) :
    TraceIndirectLightBounces be fuel bakedDirect raytracerScene settings (n + 1) bounceIndex s
      = some (breakBounces be raytracerScene s) := by
  unfold TraceIndirectLightBounces
  change (if (bounceQuery be raytracerScene s).2.hit.geomID = RTC_INVALID_GEOMETRY_ID then _
    else if s.currentRayDirection.DotProduct (bounceQuery be raytracerScene s).2.hit.Ng > 0 then _
    else _) = _
  by_cases h1 : (bounceQuery be raytracerScene s).2.hit.geomID = RTC_INVALID_GEOMETRY_ID
  · rw [if_pos h1]
    rfl
  · have h2 := h.resolve_left h1
    rw [if_neg h1, if_pos h2]
    rfl

/-- An iteration of the bounce loop whose query reports a hit with `dot(rayDir, Ng) ≤ 0`
records the hit; when the bounce was the last one the settings allow, the loop goes on from
the recorded state. -/
theorem TraceIndirectLightBounces_record (be : Backend) (fuel : Nat)
    (bakedDirect : List LightmapChartBakedDirect) (raytracerScene : RaytracerScene)
    (settings : LightmapTracingSettings) (n bounceIndex : Nat) (s : IndirectSampleState)
    (hhit : (bounceQuery be raytracerScene s).2.hit.geomID ≠ RTC_INVALID_GEOMETRY_ID)
    (hdot : s.currentRayDirection.DotProduct (bounceQuery be raytracerScene s).2.hit.Ng ≤ 0) :
    (¬ (s.numBounces + 1 < settings.numBounces_) →
        TraceIndirectLightBounces be fuel bakedDirect raytracerScene settings (n + 1) bounceIndex s
          = TraceIndirectLightBounces be fuel bakedDirect raytracerScene settings n (bounceIndex + 1)
              (recordBounce be bakedDirect raytracerScene s bounceIndex))
      ∧ (s.numBounces + 1 < settings.numBounces_ →
        ∀ r, TraceIndirectLightBounces be fuel bakedDirect raytracerScene settings (n + 1) bounceIndex s
            = some r →
          ∃ s1, s1.numBounces = s.numBounces + 1
            ∧ s1.incomingSamples = (recordBounce be bakedDirect raytracerScene s bounceIndex).incomingSamples
            ∧ s1.incomingFactors = (recordBounce be bakedDirect raytracerScene s bounceIndex).incomingFactors
            ∧ TraceIndirectLightBounces be fuel bakedDirect raytracerScene settings n (bounceIndex + 1) s1
              = some r) := by
  have hdot' : ¬ s.currentRayDirection.DotProduct (bounceQuery be raytracerScene s).2.hit.Ng > 0 :=
    not_lt.mpr hdot
  constructor
  · intro hlast
    conv_lhs => unfold TraceIndirectLightBounces
    change (if (bounceQuery be raytracerScene s).2.hit.geomID = RTC_INVALID_GEOMETRY_ID then _
      else if s.currentRayDirection.DotProduct (bounceQuery be raytracerScene s).2.hit.Ng > 0 then _
      else if s.numBounces + 1 < settings.numBounces_ then _ else _) = _
    rw [if_neg hhit, if_neg hdot', if_neg hlast]
    rfl
  · intro hmore r hr
    unfold TraceIndirectLightBounces at hr
    change (if (bounceQuery be raytracerScene s).2.hit.geomID = RTC_INVALID_GEOMETRY_ID then _
      else if s.currentRayDirection.DotProduct (bounceQuery be raytracerScene s).2.hit.Ng > 0 then _
      else if s.numBounces + 1 < settings.numBounces_ then _ else _) = _ at hr
    rw [if_neg hhit, if_neg hdot', if_pos hmore] at hr
    simp only [Option.bind_eq_some] at hr
    obtain ⟨d, -, hd⟩ := hr
    refine ⟨_, ?_, ?_, ?_, hd⟩ <;> rfl

/-- The bounce loop never takes a recorded bounce back. -/
theorem TraceIndirectLightBounces_mono (be : Backend) (fuel : Nat)
    (bakedDirect : List LightmapChartBakedDirect) (raytracerScene : RaytracerScene)
    (settings : LightmapTracingSettings) (n bounceIndex : Nat) (s r : IndirectSampleState)
    (h : TraceIndirectLightBounces be fuel bakedDirect raytracerScene settings n bounceIndex s = some r) :
    s.numBounces ≤ r.numBounces := by
  induction n generalizing bounceIndex s with
  | zero =>
    simp only [TraceIndirectLightBounces, Option.some.injEq] at h
    rw [h]
  | succ n ih =>
    by_cases hb : (bounceQuery be raytracerScene s).2.hit.geomID = RTC_INVALID_GEOMETRY_ID
        ∨ s.currentRayDirection.DotProduct (bounceQuery be raytracerScene s).2.hit.Ng > 0
    · rw [TraceIndirectLightBounces_break be fuel bakedDirect raytracerScene settings n bounceIndex s
        hb] at h
      cases h
      exact le_refl _
    · rw [not_or] at hb
      obtain ⟨h1, h2⟩ :=
        TraceIndirectLightBounces_record be fuel bakedDirect raytracerScene settings n bounceIndex s
          hb.1 (not_lt.mp hb.2)
      by_cases hmore : s.numBounces + 1 < settings.numBounces_
      · obtain ⟨s1, hs1, -, -, hr⟩ := h2 hmore r h
        have := ih _ _ hr
        omega
      · rw [h1 hmore] at h
        have := ih _ _ h
        have hrec : (recordBounce be bakedDirect raytracerScene s bounceIndex).numBounces
            = s.numBounces + 1 := rfl
        omega

/-- An iteration of the bounce loop whose query reports a hit with `dot(rayDir, Ng) ≤ 0`,
when a further bounce is allowed: the loop asks for a direction of the hemisphere of the hit
and goes on from the state `continueBounce` with it. -/
theorem TraceIndirectLightBounces_continue (be : Backend) (fuel : Nat)
    (bakedDirect : List LightmapChartBakedDirect) (raytracerScene : RaytracerScene)
    (settings : LightmapTracingSettings) (n bounceIndex : Nat) (s : IndirectSampleState)
    (hhit : (bounceQuery be raytracerScene s).2.hit.geomID ≠ RTC_INVALID_GEOMETRY_ID)
    (hdot : s.currentRayDirection.DotProduct (bounceQuery be raytracerScene s).2.hit.Ng ≤ 0)
    (hmore : s.numBounces + 1 < settings.numBounces_) :
    TraceIndirectLightBounces be fuel bakedDirect raytracerScene settings (n + 1) bounceIndex s
      = (RandomHemisphereDirection be fuel (bounceQuery be raytracerScene s).1.2
          (be.Normalized (bounceQuery be raytracerScene s).2.hit.Ng)).bind fun d =>
        TraceIndirectLightBounces be fuel bakedDirect raytracerScene settings n (bounceIndex + 1)
          (continueBounce be bakedDirect raytracerScene settings s bounceIndex d) := by
  have hdot' : ¬ s.currentRayDirection.DotProduct (bounceQuery be raytracerScene s).2.hit.Ng > 0 :=
    not_lt.mpr hdot
  conv_lhs => unfold TraceIndirectLightBounces
  change (if (bounceQuery be raytracerScene s).2.hit.geomID = RTC_INVALID_GEOMETRY_ID then _
    else if s.currentRayDirection.DotProduct (bounceQuery be raytracerScene s).2.hit.Ng > 0 then _
    else if s.numBounces + 1 < settings.numBounces_ then _ else _) = _
  rw [if_neg hhit, if_neg hdot', if_pos hmore]
  rfl

/-- The loop of `RandomDirection` ends within the fuel when one of the first `fuel` vectors
it draws is not longer than 1. -/
theorem RandomDirection_returns (be : Backend) :
    ∀ (fuel rng : Nat), (∃ k, k < fuel ∧ (directionDraw be (rng + 3 * k)).Length be ≤ 1) →
      (RandomDirection be fuel rng).isSome = true := by
  intro fuel
  induction fuel with
  | zero =>
    intro rng h
    obtain ⟨k, hk, -⟩ := h
    omega
  | succ f ih =>
    intro rng h
    have hstep : RandomDirection be (f + 1) rng
        = if (directionDraw be rng).Length be > 1 then RandomDirection be f (rng + 3)
          else some ((directionDraw be rng).divScalar ((directionDraw be rng).Length be), rng + 3) :=
      rfl
    rw [hstep]
    by_cases hlen : (directionDraw be rng).Length be > 1
    · rw [if_pos hlen]
      obtain ⟨k, hk, hacc⟩ := h
      cases k with
      | zero =>
        simp only [Nat.mul_zero, Nat.add_zero] at hacc
        exact absurd hlen (not_lt.mpr hacc)
      | succ k =>
        refine ih (rng + 3) ⟨k, by omega, ?_⟩
        have e : rng + 3 + 3 * k = rng + 3 * (k + 1) := by omega
        rw [e]
        exact hacc
    · rw [if_neg hlen]
      rfl

/-- The query of the falling sample over the floor reports the floor, whose normal is up. -/
theorem fallingSample_query :
    (bounceQuery (sceneBackend [⟨hitOf 0, 1⟩]) testScene fallingSample).2.hit = hitOf 0 := by
  simp [bounceQuery, rtcIntersect1, offerCandidate, TracingFilterIndirect, IsTransparentForIndirect,
    sceneBackend, testScene, testGeometries, opaqueGeometry, hitOf, fallingSample]

/-- The query of the falling sample under a ceiling reports the ceiling, whose normal is down. -/
theorem fallingSample_query_ceiling :
    (bounceQuery (sceneBackend [⟨{ hitOf 0 with Ng := Vector3.DOWN }, 1⟩]) testScene
      fallingSample).2.hit = { hitOf 0 with Ng := Vector3.DOWN } := by
  simp [bounceQuery, rtcIntersect1, offerCandidate, TracingFilterIndirect, IsTransparentForIndirect,
    sceneBackend, testScene, testGeometries, opaqueGeometry, hitOf, fallingSample]

/-- C14, as stated, fails: the query of a ray that goes down onto the floor reports a hit
with `dot(rayDir, Ng) = -1`, and the loop records it as a bounce; under a ceiling the hit
has `dot(rayDir, Ng) = 1`, and the loop ends without recording it. -/
theorem TraceIndirectLightBounces_guard_counterexample :
    ((bounceQuery (sceneBackend [⟨hitOf 0, 1⟩]) testScene fallingSample).2.hit.geomID
        ≠ RTC_INVALID_GEOMETRY_ID
      ∧ fallingSample.currentRayDirection.DotProduct
          (bounceQuery (sceneBackend [⟨hitOf 0, 1⟩]) testScene fallingSample).2.hit.Ng = -1
      ∧ ∃ r, TraceIndirectLightBounces (sceneBackend [⟨hitOf 0, 1⟩]) 1 [emptyChart] testScene
            (testSettings 1 1) 1 0 fallingSample = some r
          ∧ r.numBounces = fallingSample.numBounces + 1)
    ∧ ((bounceQuery (sceneBackend [⟨{ hitOf 0 with Ng := Vector3.DOWN }, 1⟩]) testScene
          fallingSample).2.hit.geomID ≠ RTC_INVALID_GEOMETRY_ID
      ∧ fallingSample.currentRayDirection.DotProduct
          (bounceQuery (sceneBackend [⟨{ hitOf 0 with Ng := Vector3.DOWN }, 1⟩]) testScene
            fallingSample).2.hit.Ng = 1
      ∧ ∃ r, TraceIndirectLightBounces (sceneBackend [⟨{ hitOf 0 with Ng := Vector3.DOWN }, 1⟩]) 1
            [emptyChart] testScene (testSettings 1 1) 1 0 fallingSample = some r
          ∧ r.numBounces = fallingSample.numBounces) := by
  have hhit : (bounceQuery (sceneBackend [⟨hitOf 0, 1⟩]) testScene fallingSample).2.hit.geomID
      ≠ RTC_INVALID_GEOMETRY_ID := by
    rw [fallingSample_query]
    decide
  have hdot : fallingSample.currentRayDirection.DotProduct
      (bounceQuery (sceneBackend [⟨hitOf 0, 1⟩]) testScene fallingSample).2.hit.Ng = -1 := by
    rw [fallingSample_query]
    simp [fallingSample, hitOf, Vector3.DotProduct, Vector3.DOWN, Vector3.UP]
  have hhit' : (bounceQuery (sceneBackend [⟨{ hitOf 0 with Ng := Vector3.DOWN }, 1⟩]) testScene
      fallingSample).2.hit.geomID ≠ RTC_INVALID_GEOMETRY_ID := by
    rw [fallingSample_query_ceiling]
    decide
  have hdot' : fallingSample.currentRayDirection.DotProduct
      (bounceQuery (sceneBackend [⟨{ hitOf 0 with Ng := Vector3.DOWN }, 1⟩]) testScene
        fallingSample).2.hit.Ng = 1 := by
    rw [fallingSample_query_ceiling]
    simp [fallingSample, Vector3.DotProduct, Vector3.DOWN]
  refine ⟨⟨hhit, hdot,
      recordBounce (sceneBackend [⟨hitOf 0, 1⟩]) [emptyChart] testScene fallingSample 0, ?_, rfl⟩,
    hhit', hdot',
      breakBounces (sceneBackend [⟨{ hitOf 0 with Ng := Vector3.DOWN }, 1⟩]) testScene fallingSample,
      ?_, rfl⟩
  · rw [(TraceIndirectLightBounces_record (sceneBackend [⟨hitOf 0, 1⟩]) 1 [emptyChart] testScene
      (testSettings 1 1) 0 0 fallingSample hhit (by rw [hdot]; norm_num)).1 (by decide)]
    rfl
  · exact TraceIndirectLightBounces_break _ 1 [emptyChart] testScene (testSettings 1 1) 0 0
      fallingSample (Or.inr (by rw [hdot']; norm_num))

/-- C14, amended: a hit returned by the intersection query is recorded as a bounce only
if `dot(rayDir, Ng) ≤ 0`: for every hit with `dot(rayDir, Ng) > 0` the bounce loop ends
at once and leaves the bounce count and the bounce arrays as they are, and for every hit
with `dot(rayDir, Ng) ≤ 0` the loop stores surface light and factor at `bounceIndex`,
counts the bounce and goes on with the next iteration: after the last bounce the
settings allow from the recorded state as it is, before it from the state moved to the hit
with the direction `RandomHemisphereDirection` gives.  When the generator yields, from every
state, a vector not longer than 1 within the fuel of `RandomDirection`, the loop returns,
with the bounce counted. -/
theorem TraceIndirectLightBounces_guard (be : Backend) (fuel : Nat)
    (bakedDirect : List LightmapChartBakedDirect) (raytracerScene : RaytracerScene)
    (settings : LightmapTracingSettings) (n bounceIndex : Nat) (s : IndirectSampleState)
    (hhit : (bounceQuery be raytracerScene s).2.hit.geomID ≠ RTC_INVALID_GEOMETRY_ID) :
    (s.currentRayDirection.DotProduct (bounceQuery be raytracerScene s).2.hit.Ng > 0 →
        TraceIndirectLightBounces be fuel bakedDirect raytracerScene settings (n + 1) bounceIndex s
            = some (breakBounces be raytracerScene s)
          ∧ (breakBounces be raytracerScene s).numBounces = s.numBounces
          ∧ (breakBounces be raytracerScene s).incomingSamples = s.incomingSamples
          ∧ (breakBounces be raytracerScene s).incomingFactors = s.incomingFactors
          ∧ (breakBounces be raytracerScene s).albedo = s.albedo)
      ∧ (s.currentRayDirection.DotProduct (bounceQuery be raytracerScene s).2.hit.Ng ≤ 0 →
        ∀ r, TraceIndirectLightBounces be fuel bakedDirect raytracerScene settings (n + 1) bounceIndex s
            = some r →
          s.numBounces + 1 ≤ r.numBounces
            ∧ ∃ s1, s1.numBounces = s.numBounces + 1
              ∧ s1.incomingSamples
                = (recordBounce be bakedDirect raytracerScene s bounceIndex).incomingSamples
              ∧ s1.incomingFactors
                = (recordBounce be bakedDirect raytracerScene s bounceIndex).incomingFactors
              ∧ TraceIndirectLightBounces be fuel bakedDirect raytracerScene settings n
                  (bounceIndex + 1) s1 = some r)
      ∧ (s.currentRayDirection.DotProduct (bounceQuery be raytracerScene s).2.hit.Ng ≤ 0 →
        ¬ (s.numBounces + 1 < settings.numBounces_) →
        TraceIndirectLightBounces be fuel bakedDirect raytracerScene settings (n + 1) bounceIndex s
            = TraceIndirectLightBounces be fuel bakedDirect raytracerScene settings n
                (bounceIndex + 1) (recordBounce be bakedDirect raytracerScene s bounceIndex)
          ∧ (recordBounce be bakedDirect raytracerScene s bounceIndex).numBounces
            = s.numBounces + 1)
      ∧ (s.currentRayDirection.DotProduct (bounceQuery be raytracerScene s).2.hit.Ng ≤ 0 →
        s.numBounces + 1 < settings.numBounces_ →
        TraceIndirectLightBounces be fuel bakedDirect raytracerScene settings (n + 1) bounceIndex s
            = ((RandomHemisphereDirection be fuel (bounceQuery be raytracerScene s).1.2
                (be.Normalized (bounceQuery be raytracerScene s).2.hit.Ng)).bind fun d =>
              TraceIndirectLightBounces be fuel bakedDirect raytracerScene settings n
                (bounceIndex + 1)
                (continueBounce be bakedDirect raytracerScene settings s bounceIndex d))
          ∧ ∀ d, (continueBounce be bakedDirect raytracerScene settings s bounceIndex d).numBounces
                = s.numBounces + 1
              ∧ (continueBounce be bakedDirect raytracerScene settings s bounceIndex d).incomingSamples
                = (recordBounce be bakedDirect raytracerScene s bounceIndex).incomingSamples
              ∧ (continueBounce be bakedDirect raytracerScene settings s bounceIndex d).incomingFactors
                = (recordBounce be bakedDirect raytracerScene s bounceIndex).incomingFactors
              ∧ (continueBounce be bakedDirect raytracerScene settings s bounceIndex d).currentRayDirection
                = d.1)
      ∧ ((∀ rng, ∃ k, k < fuel ∧ (directionDraw be (rng + 3 * k)).Length be ≤ 1) →
        (∃ r, TraceIndirectLightBounces be fuel bakedDirect raytracerScene settings (n + 1)
            bounceIndex s = some r)
          ∧ (s.currentRayDirection.DotProduct (bounceQuery be raytracerScene s).2.hit.Ng ≤ 0 →
            ∃ r, TraceIndirectLightBounces be fuel bakedDirect raytracerScene settings (n + 1)
                bounceIndex s = some r
              ∧ s.numBounces + 1 ≤ r.numBounces
              ∧ ∃ s1, s1.numBounces = s.numBounces + 1
                ∧ s1.incomingSamples
                  = (recordBounce be bakedDirect raytracerScene s bounceIndex).incomingSamples
                ∧ s1.incomingFactors
                  = (recordBounce be bakedDirect raytracerScene s bounceIndex).incomingFactors
                ∧ TraceIndirectLightBounces be fuel bakedDirect raytracerScene settings n
                    (bounceIndex + 1) s1 = some r)) := by
  have hpart : s.currentRayDirection.DotProduct (bounceQuery be raytracerScene s).2.hit.Ng ≤ 0 →
      ∀ r, TraceIndirectLightBounces be fuel bakedDirect raytracerScene settings (n + 1) bounceIndex s
          = some r →
        s.numBounces + 1 ≤ r.numBounces
          ∧ ∃ s1, s1.numBounces = s.numBounces + 1
            ∧ s1.incomingSamples
              = (recordBounce be bakedDirect raytracerScene s bounceIndex).incomingSamples
            ∧ s1.incomingFactors
              = (recordBounce be bakedDirect raytracerScene s bounceIndex).incomingFactors
            ∧ TraceIndirectLightBounces be fuel bakedDirect raytracerScene settings n
                (bounceIndex + 1) s1 = some r := by
    intro hdot r hr
    obtain ⟨h1, h2⟩ :=
      TraceIndirectLightBounces_record be fuel bakedDirect raytracerScene settings n bounceIndex s
        hhit hdot
    have hex : ∃ s1, s1.numBounces = s.numBounces + 1
        ∧ s1.incomingSamples
          = (recordBounce be bakedDirect raytracerScene s bounceIndex).incomingSamples
        ∧ s1.incomingFactors
          = (recordBounce be bakedDirect raytracerScene s bounceIndex).incomingFactors
        ∧ TraceIndirectLightBounces be fuel bakedDirect raytracerScene settings n
            (bounceIndex + 1) s1 = some r := by
      by_cases hmore : s.numBounces + 1 < settings.numBounces_
      · exact h2 hmore r hr
      · rw [h1 hmore] at hr
        exact ⟨_, rfl, rfl, rfl, hr⟩
    refine ⟨?_, hex⟩
    obtain ⟨s1, hs1, -, -, hr1⟩ := hex
    have := TraceIndirectLightBounces_mono be fuel bakedDirect raytracerScene settings n
      (bounceIndex + 1) s1 r hr1
    omega
  refine ⟨?_, hpart, ?_, ?_, ?_⟩
  · intro hdot
    exact ⟨TraceIndirectLightBounces_break be fuel bakedDirect raytracerScene settings n bounceIndex s
      (Or.inr hdot), rfl, rfl, rfl, rfl⟩
  · intro hdot hlast
    exact ⟨(TraceIndirectLightBounces_record be fuel bakedDirect raytracerScene settings n
      bounceIndex s hhit hdot).1 hlast, rfl⟩
  · intro hdot hmore
    exact ⟨TraceIndirectLightBounces_continue be fuel bakedDirect raytracerScene settings n
      bounceIndex s hhit hdot hmore, fun d => ⟨rfl, rfl, rfl, rfl⟩⟩
  · intro hdraw
    have hsome := TraceIndirectLightBounces_isSome be fuel bakedDirect raytracerScene settings
      (fun rng => RandomDirection_returns be fuel rng (hdraw rng)) (n + 1) bounceIndex s
    obtain ⟨r, hr⟩ := Option.isSome_iff_exists.mp hsome
    refine ⟨⟨r, hr⟩, fun hdot => ⟨r, hr, ?_⟩⟩
    exact hpart hdot r hr

/-- Witness of the amended C14: the ray that goes down onto the floor, `dot(rayDir, Ng) = -1`,
when the settings allow two bounces: the first hit is recorded, a further bounce is allowed,
and the loop returns. -/
theorem TraceIndirectLightBounces_guard_witness :
    (fallingSample.numBounces + 1 < ({ testSettings 1 1 with numBounces_ := 2 }).numBounces_
      ∧ TraceIndirectLightBounces (sceneBackend [⟨hitOf 0, 1⟩]) 1 [emptyChart] testScene
          { testSettings 1 1 with numBounces_ := 2 } (1 + 1) 0 fallingSample
        = ((RandomHemisphereDirection (sceneBackend [⟨hitOf 0, 1⟩]) 1
            (bounceQuery (sceneBackend [⟨hitOf 0, 1⟩]) testScene fallingSample).1.2
            ((sceneBackend [⟨hitOf 0, 1⟩]).Normalized
              (bounceQuery (sceneBackend [⟨hitOf 0, 1⟩]) testScene fallingSample).2.hit.Ng)).bind
          fun d =>
            TraceIndirectLightBounces (sceneBackend [⟨hitOf 0, 1⟩]) 1 [emptyChart] testScene
              { testSettings 1 1 with numBounces_ := 2 } 1 (0 + 1)
              (continueBounce (sceneBackend [⟨hitOf 0, 1⟩]) [emptyChart] testScene
                { testSettings 1 1 with numBounces_ := 2 } fallingSample 0 d)))
      ∧ ∃ r, TraceIndirectLightBounces (sceneBackend [⟨hitOf 0, 1⟩]) 1 [emptyChart] testScene
            { testSettings 1 1 with numBounces_ := 2 } (1 + 1) 0 fallingSample = some r
          ∧ fallingSample.numBounces + 1 ≤ r.numBounces :=
  have hdot : fallingSample.currentRayDirection.DotProduct
      (bounceQuery (sceneBackend [⟨hitOf 0, 1⟩]) testScene fallingSample).2.hit.Ng ≤ 0 := by
    rw [fallingSample_query]
    simp [fallingSample, hitOf, Vector3.DotProduct, Vector3.DOWN, Vector3.UP]
  have h := TraceIndirectLightBounces_guard (sceneBackend [⟨hitOf 0, 1⟩]) 1 [emptyChart] testScene
    { testSettings 1 1 with numBounces_ := 2 } 1 0 fallingSample
    (by rw [fallingSample_query]; decide)
  have hdraw : ∀ rng, ∃ k, k < 1
      ∧ (directionDraw (sceneBackend [⟨hitOf 0, 1⟩]) (rng + 3 * k)).Length
          (sceneBackend [⟨hitOf 0, 1⟩]) ≤ 1 := by
    intro rng
    refine ⟨0, by decide, ?_⟩
    simp only [directionDraw, Random, sceneBackend, Vector3.Length, Vector3.LengthSquared]
    norm_num
  ⟨⟨by decide, (h.2.2.2.1 hdot (by decide)).1⟩,
    ((h.2.2.2.2 hdraw).2 hdot).imp fun _ hr => ⟨hr.1, hr.2.1⟩⟩

/-! ## Normalization of the indirect light: theorems -/

/-- What `NormalizeLight` does to one texel. -/
theorem normalize_texel (value : Vector4) :
    (if value.w_ > 0 then value.divScalar value.w_ else value)
      = if 0 < value.w_ then
          ⟨value.x_ / value.w_, value.y_ / value.w_, value.z_ / value.w_, 1⟩
        else value := by
  by_cases hw : 0 < value.w_
  · have hne : value.w_ ≠ 0 := ne_of_gt hw
    simp only [gt_iff_lt, hw, if_true, Vector4.divScalar, Vector4.mk.injEq]
    refine ⟨?_, ?_, ?_, ?_⟩ <;> field_simp
  · simp only [gt_iff_lt, hw, if_false]

/-- C15: `NormalizeLight` applied twice gives what `NormalizeLight` applied once gives;
one call divides the RGB of every texel of positive weight by the weight and sets the
weight to 1, and leaves every texel whose weight is not positive as it is. -/
theorem NormalizeLight_idempotent (b : LightmapChartBakedIndirect) :
    b.NormalizeLight.NormalizeLight = b.NormalizeLight
      ∧ b.NormalizeLight.light_
        = b.light_.map (fun value =>
            if 0 < value.w_ then
              ⟨value.x_ / value.w_, value.y_ / value.w_, value.z_ / value.w_, 1⟩
            else value)
      ∧ b.NormalizeLight.light_.length = b.light_.length
      ∧ b.NormalizeLight.lightSwap_ = b.lightSwap_ := by
  have hmap : b.NormalizeLight.light_
      = b.light_.map (fun value =>
          if 0 < value.w_ then
            ⟨value.x_ / value.w_, value.y_ / value.w_, value.z_ / value.w_, 1⟩
          else value) := by
    simp only [LightmapChartBakedIndirect.NormalizeLight, normalize_texel]
  refine ⟨?_, hmap, ?_, rfl⟩
  · have hlight : b.NormalizeLight.NormalizeLight.light_ = b.NormalizeLight.light_ := by
      conv_lhs => rw [LightmapChartBakedIndirect.NormalizeLight]
      simp only [normalize_texel]
      rw [hmap, List.map_map]
      apply List.map_congr_left
      intro value _
      by_cases hw : 0 < value.w_
      · simp [hw]
      · simp [hw]
    cases b
    simp only [LightmapChartBakedIndirect.NormalizeLight] at hlight ⊢
    simp only [LightmapChartBakedIndirect.mk.injEq, true_and, and_true]
    exact hlight
  · rw [hmap, List.length_map]

/-! ## Light probe mesh: theorems -/

/-- The loop calls `GetBarycentricCoords` at most once more than it has iterations and
assigns `hint` at most once in each iteration. -/
theorem SampleLightProbeMeshLoop_bounds (mesh : TetrahedralMesh) (position : Vector3)
    (n hint : Nat) :
    (SampleLightProbeMeshLoop mesh position n hint).steps ≤ n
      ∧ (SampleLightProbeMeshLoop mesh position n hint).evaluations ≤ n + 1 := by
  induction n generalizing hint with
  | zero => simp [SampleLightProbeMeshLoop]
  | succ n ih =>
    unfold SampleLightProbeMeshLoop
    simp only
    split_ifs
    · exact ⟨Nat.zero_le _, by show 1 ≤ n + 1 + 1; omega⟩
    · exact ⟨by show 1 ≤ n + 1; omega, by show 2 ≤ n + 1 + 1; omega⟩
    · have := ih ((mesh.tetrahedrons_.getD hint default).neighbors_
        (walkNeighbor (mesh.GetBarycentricCoords hint position)))
      exact ⟨by simp only; omega, by simp only; omega⟩

/-- The weights the loop returns are the weights of the tetrahedron `hint` designates on
return; on containment they are not negative; the loop never returns the way the empty
mesh does. -/
theorem SampleLightProbeMeshLoop_weights (mesh : TetrahedralMesh) (position : Vector3)
    (n hint : Nat) :
    (SampleLightProbeMeshLoop mesh position n hint).weights
        = mesh.GetBarycentricCoords (SampleLightProbeMeshLoop mesh position n hint).hint position
      ∧ ((SampleLightProbeMeshLoop mesh position n hint).exit = WalkExit.contained →
          allNonneg (SampleLightProbeMeshLoop mesh position n hint).weights)
      ∧ (SampleLightProbeMeshLoop mesh position n hint).exit ≠ WalkExit.empty
      ∧ ((SampleLightProbeMeshLoop mesh position n hint).exit = WalkExit.sentinel →
          (SampleLightProbeMeshLoop mesh position n hint).hint = M_MAX_UNSIGNED) := by
  induction n generalizing hint with
  | zero => simp [SampleLightProbeMeshLoop]
  | succ n ih =>
    unfold SampleLightProbeMeshLoop
    simp only
    split_ifs with h1 h2
    · exact ⟨rfl, fun _ => h1, by simp, by simp⟩
    · exact ⟨rfl, by simp, by simp, fun _ => h2⟩
    · exact ih _

/-- A walk on well formed neighbour data that starts on a tetrahedron ends on a
tetrahedron, unless it steps onto the sentinel. -/
theorem SampleLightProbeMeshLoop_hint (mesh : TetrahedralMesh) (position : Vector3)
    (hwf : neighborsWellFormed mesh) (n hint : Nat) (hhint : hint < mesh.tetrahedrons_.length)
    (hexit : (SampleLightProbeMeshLoop mesh position n hint).exit ≠ WalkExit.sentinel) :
    (SampleLightProbeMeshLoop mesh position n hint).hint < mesh.tetrahedrons_.length := by
  induction n generalizing hint with
  | zero => simpa [SampleLightProbeMeshLoop] using hhint
  | succ n ih =>
    unfold SampleLightProbeMeshLoop at hexit ⊢
    simp only at hexit ⊢
    split_ifs at hexit ⊢ with h1 h2
    · exact hhint
    · exact absurd rfl hexit
    · have hmem : mesh.tetrahedrons_.getD hint default ∈ mesh.tetrahedrons_ := by
        rw [List.getD_eq_getElem _ _ hhint]
        exact List.getElem_mem _
      rcases hwf _ hmem (walkNeighbor (mesh.GetBarycentricCoords hint position)) with hlt | hmax
      · exact ih _ hlt hexit
      · exact absurd hmax h2

/-- On a mesh that is not empty the walk is the loop, run for as many iterations as there are
tetrahedrons, from the hint or from 0 when the hint is out of range. -/
theorem SampleLightProbeMesh_eq_loop (gi : GlobalIllumination) (position : Vector3) (hint : Nat)
    (hne : gi.lightProbesMesh_.tetrahedrons_ ≠ []) :
    gi.SampleLightProbeMesh position hint
      = SampleLightProbeMeshLoop gi.lightProbesMesh_ position
          gi.lightProbesMesh_.tetrahedrons_.length
          (if hint ≥ gi.lightProbesMesh_.tetrahedrons_.length then 0 else hint) := by
  have hempty : gi.lightProbesMesh_.tetrahedrons_.isEmpty = false := by
    cases h : gi.lightProbesMesh_.tetrahedrons_ with
    | nil => exact absurd h hne
    | cons a l => rfl
  unfold GlobalIllumination.SampleLightProbeMesh
  rw [if_neg (by simp [hempty])]

/-- An iteration that finds the point inside of the current tetrahedron returns. -/
theorem SampleLightProbeMeshLoop_contained (mesh : TetrahedralMesh) (position : Vector3)
    (n hint : Nat) (hin : allNonneg (mesh.GetBarycentricCoords hint position)) :
    SampleLightProbeMeshLoop mesh position (n + 1) hint
      = ⟨mesh.GetBarycentricCoords hint position, hint, WalkExit.contained, 0, 1⟩ := by
  unfold SampleLightProbeMeshLoop
  exact if_pos hin

/-- An iteration that finds the point outside of the current tetrahedron moves to the
neighbour, and returns when the neighbour is the sentinel. -/
theorem SampleLightProbeMeshLoop_outside (mesh : TetrahedralMesh) (position : Vector3)
    (n hint : Nat) (hout : ¬ allNonneg (mesh.GetBarycentricCoords hint position)) :
    SampleLightProbeMeshLoop mesh position (n + 1) hint
      = if (mesh.tetrahedrons_.getD hint default).neighbors_
            (walkNeighbor (mesh.GetBarycentricCoords hint position)) = M_MAX_UNSIGNED then
          ⟨mesh.GetBarycentricCoords
              ((mesh.tetrahedrons_.getD hint default).neighbors_
                (walkNeighbor (mesh.GetBarycentricCoords hint position))) position,
            (mesh.tetrahedrons_.getD hint default).neighbors_
              (walkNeighbor (mesh.GetBarycentricCoords hint position)),
            WalkExit.sentinel, 1, 2⟩
        else
          { SampleLightProbeMeshLoop mesh position n
              ((mesh.tetrahedrons_.getD hint default).neighbors_
                (walkNeighbor (mesh.GetBarycentricCoords hint position))) with
            steps := (SampleLightProbeMeshLoop mesh position n
              ((mesh.tetrahedrons_.getD hint default).neighbors_
                (walkNeighbor (mesh.GetBarycentricCoords hint position)))).steps + 1
            evaluations := (SampleLightProbeMeshLoop mesh position n
              ((mesh.tetrahedrons_.getD hint default).neighbors_
                (walkNeighbor (mesh.GetBarycentricCoords hint position)))).evaluations + 1 } := by
  conv_lhs => unfold SampleLightProbeMeshLoop
  exact if_neg hout

/-- C16: on a mesh that is not empty, with `hint` in range and the weights of the hint
tetrahedron all non negative, `SampleLightProbeMesh` returns exactly those weights and
leaves `hint` as it is; whenever it returns from inside the loop, the returned weights
are all non negative and are the weights of the tetrahedron `hint` designates on return. -/
theorem SampleLightProbeMesh_contained (gi : GlobalIllumination) (position : Vector3) (hint : Nat) :
    (gi.lightProbesMesh_.tetrahedrons_ ≠ [] → hint < gi.lightProbesMesh_.tetrahedrons_.length →
        allNonneg (gi.lightProbesMesh_.GetBarycentricCoords hint position) →
        (gi.SampleLightProbeMesh position hint).weights
            = gi.lightProbesMesh_.GetBarycentricCoords hint position
          ∧ (gi.SampleLightProbeMesh position hint).hint = hint
          ∧ (gi.SampleLightProbeMesh position hint).exit = WalkExit.contained)
      ∧ ((gi.SampleLightProbeMesh position hint).exit = WalkExit.contained →
        allNonneg (gi.SampleLightProbeMesh position hint).weights
          ∧ (gi.SampleLightProbeMesh position hint).weights
            = gi.lightProbesMesh_.GetBarycentricCoords (gi.SampleLightProbeMesh position hint).hint
                position) := by
  constructor
  · intro hne hlt hin
    obtain ⟨n, hn⟩ : ∃ n, gi.lightProbesMesh_.tetrahedrons_.length = n + 1 :=
      ⟨gi.lightProbesMesh_.tetrahedrons_.length - 1, by
        have := List.length_pos.mpr hne
        omega⟩
    rw [SampleLightProbeMesh_eq_loop gi position hint hne, if_neg (not_le.mpr hlt), hn,
      SampleLightProbeMeshLoop_contained _ _ _ _ hin]
    exact ⟨rfl, rfl, rfl⟩
  · intro hexit
    by_cases hne : gi.lightProbesMesh_.tetrahedrons_ = []
    · have hempty : (gi.SampleLightProbeMesh position hint).exit = WalkExit.empty := by
        unfold GlobalIllumination.SampleLightProbeMesh
        rw [if_pos (by simp [hne])]
      rw [hempty] at hexit
      exact absurd hexit (by decide)
    · rw [SampleLightProbeMesh_eq_loop gi position hint hne] at hexit ⊢
      obtain ⟨h1, h2, -, -⟩ := SampleLightProbeMeshLoop_weights gi.lightProbesMesh_ position
        gi.lightProbesMesh_.tetrahedrons_.length
        (if hint ≥ gi.lightProbesMesh_.tetrahedrons_.length then 0 else hint)
      exact ⟨h2 hexit, h1⟩

/-- Witness of C16: the point is inside of tetrahedron 1, and the call with hint 1 returns
the weights of that tetrahedron. -/
theorem SampleLightProbeMesh_contained_witness :
    (walkIllumination.SampleLightProbeMesh Vector3.ZERO 1).weights
        = walkIllumination.lightProbesMesh_.GetBarycentricCoords 1 Vector3.ZERO
      ∧ (walkIllumination.SampleLightProbeMesh Vector3.ZERO 1).hint = 1
      ∧ (walkIllumination.SampleLightProbeMesh Vector3.ZERO 1).exit = WalkExit.contained :=
  (SampleLightProbeMesh_contained walkIllumination Vector3.ZERO 1).1
    (by simp [walkIllumination]) (by simp [walkIllumination])
    (by
      simp only [walkIllumination, allNonneg, insideWeights]
      norm_num)

/-- The neighbour the walk steps to has a minimal weight, and the highest index among the
minimal weights. -/
theorem walkNeighbor_spec (w : Vector4) :
    (∀ j : Fin 4, w.get (walkNeighbor w) ≤ w.get j)
      ∧ (∀ j : Fin 4, w.get j = w.get (walkNeighbor w) → j ≤ walkNeighbor w) := by
  unfold walkNeighbor
  constructor
  · intro j
    split_ifs with h1 h2 h3 <;> fin_cases j <;> simp only [Vector4.get] <;>
      simp only [not_and_or, not_lt] at * <;> first
        | exact le_refl _
        | (rcases h1 with h1 | h1 | h1 <;> first
            | linarith
            | (rcases h2 with h2 | h2 <;> linarith))
        | linarith
  · intro j hj
    split_ifs at hj ⊢ with h1 h2 h3 <;> fin_cases j <;> simp only [Vector4.get] at hj <;>
      first
        | exact le_refl _
        | exact Fin.zero_le _
        | exact Fin.le_last _
        | decide
        | (exfalso; linarith [h1.1, h1.2.1, h1.2.2])
        | (exfalso; linarith [h2.1, h2.2])
        | (exfalso; linarith)

/-- What `SampleAmbientSH` returns, by the tetrahedron `hint` designates after the walk. -/
theorem SampleAmbientSH_eq (gi : GlobalIllumination) (position : Vector3) (hint : Nat) :
    gi.SampleAmbientSH position hint
      = if (gi.SampleLightProbeMesh position hint).hint ≥ gi.lightProbesMesh_.tetrahedrons_.length then
          (SphericalHarmonicsDot9.ZERO, (gi.SampleLightProbeMesh position hint).hint)
        else
          (blendTetrahedron gi (gi.SampleLightProbeMesh position hint).hint
              (gi.SampleLightProbeMesh position hint).weights,
            (gi.SampleLightProbeMesh position hint).hint) := by
  unfold GlobalIllumination.SampleAmbientSH blendTetrahedron
  simp only
  split_ifs <;> rfl

/-- The neighbour the walk takes from a tetrahedron with the weights `outsideWeights`. -/
theorem walkNeighbor_outsideWeights : walkNeighbor outsideWeights = 0 := by
  simp only [walkNeighbor, outsideWeights]
  norm_num

/-- The walk of the component with one tetrahedron without neighbours. -/
theorem lonelyIllumination_walk :
    lonelyIllumination.SampleLightProbeMesh Vector3.ZERO 0
      = ⟨outsideWeights, M_MAX_UNSIGNED, WalkExit.sentinel, 1, 2⟩ := by
  have hx : ¬ (0 ≤ outsideWeights.x_) := by
    simp only [outsideWeights]
    norm_num
  simp [GlobalIllumination.SampleLightProbeMesh, SampleLightProbeMeshLoop, lonelyIllumination,
    walkNeighbor_outsideWeights, tetrahedronTo, hx, M_MAX_UNSIGNED]

/-- The walk of the component with two tetrahedra none of which contains the point. -/
theorem cyclicIllumination_walk :
    cyclicIllumination.SampleLightProbeMesh Vector3.ZERO 0
      = ⟨outsideWeights, 0, WalkExit.exhausted, 2, 3⟩ := by
  have hx : ¬ (0 ≤ outsideWeights.x_) := by
    simp only [outsideWeights]
    norm_num
  simp [GlobalIllumination.SampleLightProbeMesh, SampleLightProbeMeshLoop, cyclicIllumination,
    walkNeighbor_outsideWeights, tetrahedronTo, hx, M_MAX_UNSIGNED]

/-- The weight at the index the walk chooses is the minimum of the four weights. -/
theorem walkNeighbor_min (w : Vector4) :
    w.get (walkNeighbor w) = min (min w.x_ w.y_) (min w.z_ w.w_) := by
  obtain ⟨hmin, -⟩ := walkNeighbor_spec w
  have h0 := hmin 0
  have h1 := hmin 1
  have h2 := hmin 2
  have h3 := hmin 3
  simp only [Vector4.get] at h0 h1 h2 h3
  apply le_antisymm
  · exact le_min (le_min h0 h1) (le_min h2 h3)
  · unfold walkNeighbor
    split_ifs <;> simp only [Vector4.get, min_le_iff, le_refl, true_or, or_true]

/-- The chain of comparisons of the loop chooses the index the specification describes. -/
theorem walkNeighbor_eq_specMinIndex (w : Vector4) : walkNeighbor w = specMinIndex w := by
  obtain ⟨-, htie⟩ := walkNeighbor_spec w
  have hm := walkNeighbor_min w
  unfold specMinIndex
  simp only
  rw [← hm]
  have t3 := htie 3
  have t2 := htie 2
  have t1 := htie 1
  simp only [Vector4.get] at t1 t2 t3
  split_ifs with h3 h2 h1
  · exact le_antisymm (Fin.le_last _) (t3 h3)
  · have h := t2 h2
    generalize walkNeighbor w = k at *
    fin_cases k
    · exact absurd h (by decide)
    · exact absurd h (by decide)
    · rfl
    · exact absurd rfl h3
  · have h := t1 h1
    generalize walkNeighbor w = k at *
    fin_cases k
    · exact absurd h (by decide)
    · rfl
    · exact absurd rfl h2
    · exact absurd rfl h3
  · generalize walkNeighbor w = k at *
    fin_cases k
    · rfl
    · exact absurd rfl h1
    · exact absurd rfl h2
    · exact absurd rfl h3

/-- The walk of the specification starts at the hint, and each of its steps is a step of the
specification. -/
theorem specWalk_chain (mesh : TetrahedralMesh) (position : Vector3) (m : Nat) :
    ∀ start, (specWalk mesh position m start).head? = some start
      ∧ List.Chain' (specStep mesh position) (specWalk mesh position m start) := by
  induction m with
  | zero =>
    intro start
    exact ⟨rfl, List.chain'_singleton _⟩
  | succ n ih =>
    intro start
    unfold specWalk
    split_ifs with hin hmax
    · exact ⟨rfl, List.chain'_singleton _⟩
    · exact ⟨rfl, List.Chain'.cons ⟨hin, rfl⟩ (List.chain'_singleton _)⟩
    · obtain ⟨hhead, hchain⟩ := ih ((mesh.tetrahedrons_.getD start default).neighbors_
        (specMinIndex (mesh.GetBarycentricCoords start position)))
      refine ⟨rfl, ?_⟩
      cases hl : specWalk mesh position n ((mesh.tetrahedrons_.getD start default).neighbors_
          (specMinIndex (mesh.GetBarycentricCoords start position))) with
      | nil => exact List.chain'_singleton _
      | cons b l =>
        rw [hl] at hhead hchain
        simp only [List.head?_cons, Option.some.injEq] at hhead
        exact List.Chain'.cons ⟨hin, hhead⟩ hchain

/-- The walk of the specification stays where the point is inside. -/
theorem specWalk_contained (mesh : TetrahedralMesh) (position : Vector3) (n hint : Nat)
    (hin : allNonneg (mesh.GetBarycentricCoords hint position)) :
    specWalk mesh position (n + 1) hint = [hint] := by
  unfold specWalk
  exact if_pos hin

/-- The walk of the specification moves on where the point is outside. -/
theorem specWalk_outside (mesh : TetrahedralMesh) (position : Vector3) (n hint : Nat)
    (hout : ¬ allNonneg (mesh.GetBarycentricCoords hint position)) :
    specWalk mesh position (n + 1) hint
      = if (mesh.tetrahedrons_.getD hint default).neighbors_
            (specMinIndex (mesh.GetBarycentricCoords hint position)) = M_MAX_UNSIGNED then
          [hint, (mesh.tetrahedrons_.getD hint default).neighbors_
            (specMinIndex (mesh.GetBarycentricCoords hint position))]
        else
          hint :: specWalk mesh position n ((mesh.tetrahedrons_.getD hint default).neighbors_
            (specMinIndex (mesh.GetBarycentricCoords hint position))) := by
  conv_lhs => unfold specWalk
  exact if_neg hout

/-- The loop follows the walk of the specification: the tetrahedron `hint` designates on
return is the last one of that walk, and the loop has assigned `hint` once for each of its
steps. -/
theorem SampleLightProbeMeshLoop_refines (mesh : TetrahedralMesh) (position : Vector3) (m : Nat) :
    ∀ start, (specWalk mesh position m start).getLast?
          = some (SampleLightProbeMeshLoop mesh position m start).hint
      ∧ (specWalk mesh position m start).length
          = (SampleLightProbeMeshLoop mesh position m start).steps + 1
      ∧ (SampleLightProbeMeshLoop mesh position m start).evaluations
          = (SampleLightProbeMeshLoop mesh position m start).steps + 1 := by
  induction m with
  | zero =>
    intro start
    exact ⟨rfl, rfl, rfl⟩
  | succ n ih =>
    intro start
    by_cases hin : allNonneg (mesh.GetBarycentricCoords start position)
    · rw [SampleLightProbeMeshLoop_contained _ _ _ _ hin]
      rw [specWalk_contained _ _ _ _ hin]
      exact ⟨rfl, rfl, rfl⟩
    · rw [SampleLightProbeMeshLoop_outside _ _ _ _ hin, walkNeighbor_eq_specMinIndex]
      rw [specWalk_outside _ _ _ _ hin]
      by_cases hmax : (mesh.tetrahedrons_.getD start default).neighbors_
          (specMinIndex (mesh.GetBarycentricCoords start position)) = M_MAX_UNSIGNED
      · rw [if_pos hmax, if_pos hmax]
        exact ⟨rfl, rfl, rfl⟩
      · rw [if_neg hmax, if_neg hmax]
        obtain ⟨h1, h2, h3⟩ := ih ((mesh.tetrahedrons_.getD start default).neighbors_
          (specMinIndex (mesh.GetBarycentricCoords start position)))
        refine ⟨?_, ?_, ?_⟩
        · rw [List.getLast?_cons, h1]
          rfl
        · rw [List.length_cons, h2]
        · show _ + 1 = _ + 1 + 1
          rw [h3]

/-- C17: at a step of the walk of `SampleLightProbeMesh` where the current tetrahedron does
not contain the point, the walk moves to the neighbour `k` where the weight `k` is the
minimum of the four weights, which is negative, and `k` is the highest index with that
weight; the walk ends there when this neighbour is the sentinel and goes on from it
otherwise.  The index `k` is the one the specification describes, and the loop as a whole
follows the walk of the specification, whose every step is such a move: from every start and
for every number of iterations, `hint` designates on return the last tetrahedron of that
walk, the weights returned are the weights of that tetrahedron, and the loop has assigned
`hint` once and evaluated the weights once for each step of that walk. -/
theorem SampleLightProbeMeshLoop_direction (mesh : TetrahedralMesh) (position : Vector3)
    (n hint : Nat) (hout : ¬ allNonneg (mesh.GetBarycentricCoords hint position)) :
    (mesh.GetBarycentricCoords hint position).get
          (walkNeighbor (mesh.GetBarycentricCoords hint position))
        = min (min (mesh.GetBarycentricCoords hint position).x_
                (mesh.GetBarycentricCoords hint position).y_)
            (min (mesh.GetBarycentricCoords hint position).z_
                (mesh.GetBarycentricCoords hint position).w_)
      ∧ (mesh.GetBarycentricCoords hint position).get
          (walkNeighbor (mesh.GetBarycentricCoords hint position)) < 0
      ∧ (∀ j : Fin 4, (mesh.GetBarycentricCoords hint position).get j
            = (mesh.GetBarycentricCoords hint position).get
                (walkNeighbor (mesh.GetBarycentricCoords hint position)) →
          j ≤ walkNeighbor (mesh.GetBarycentricCoords hint position))
      ∧ ((mesh.tetrahedrons_.getD hint default).neighbors_
            (walkNeighbor (mesh.GetBarycentricCoords hint position)) ≠ M_MAX_UNSIGNED →
          SampleLightProbeMeshLoop mesh position (n + 1) hint
            = { SampleLightProbeMeshLoop mesh position n
                  ((mesh.tetrahedrons_.getD hint default).neighbors_
                    (walkNeighbor (mesh.GetBarycentricCoords hint position))) with
                steps := (SampleLightProbeMeshLoop mesh position n
                  ((mesh.tetrahedrons_.getD hint default).neighbors_
                    (walkNeighbor (mesh.GetBarycentricCoords hint position)))).steps + 1
                evaluations := (SampleLightProbeMeshLoop mesh position n
                  ((mesh.tetrahedrons_.getD hint default).neighbors_
                    (walkNeighbor (mesh.GetBarycentricCoords hint position)))).evaluations + 1 })
      ∧ ((mesh.tetrahedrons_.getD hint default).neighbors_
            (walkNeighbor (mesh.GetBarycentricCoords hint position)) = M_MAX_UNSIGNED →
          (SampleLightProbeMeshLoop mesh position (n + 1) hint).hint
              = (mesh.tetrahedrons_.getD hint default).neighbors_
                  (walkNeighbor (mesh.GetBarycentricCoords hint position))
            ∧ (SampleLightProbeMeshLoop mesh position (n + 1) hint).exit = WalkExit.sentinel)
      ∧ walkNeighbor (mesh.GetBarycentricCoords hint position)
          = specMinIndex (mesh.GetBarycentricCoords hint position)
      ∧ (specWalk mesh position (n + 1) hint)[1]?
          = some ((mesh.tetrahedrons_.getD hint default).neighbors_
              (specMinIndex (mesh.GetBarycentricCoords hint position)))
      ∧ 1 ≤ (SampleLightProbeMeshLoop mesh position (n + 1) hint).steps
      ∧ ∀ m start,
          (specWalk mesh position m start).head? = some start
            ∧ List.Chain' (specStep mesh position) (specWalk mesh position m start)
            ∧ (specWalk mesh position m start).getLast?
              = some (SampleLightProbeMeshLoop mesh position m start).hint
            ∧ (specWalk mesh position m start).length
              = (SampleLightProbeMeshLoop mesh position m start).steps + 1
            ∧ (SampleLightProbeMeshLoop mesh position m start).evaluations
              = (SampleLightProbeMeshLoop mesh position m start).steps + 1
            ∧ (SampleLightProbeMeshLoop mesh position m start).weights
              = mesh.GetBarycentricCoords (SampleLightProbeMeshLoop mesh position m start).hint
                  position := by
  obtain ⟨hmin, htie⟩ := walkNeighbor_spec (mesh.GetBarycentricCoords hint position)
  have h0 := hmin 0
  have h1 := hmin 1
  have h2 := hmin 2
  have h3 := hmin 3
  simp only [Vector4.get] at h0 h1 h2 h3
  refine ⟨walkNeighbor_min _, ?_, htie, ?_, ?_, walkNeighbor_eq_specMinIndex _, ?_, ?_, ?_⟩
  · by_contra hge
    apply hout
    simp only [not_lt] at hge
    exact ⟨le_trans hge h0, le_trans hge h1, le_trans hge h2, le_trans hge h3⟩
  · intro hnext
    rw [SampleLightProbeMeshLoop_outside _ _ _ _ hout, if_neg hnext]
  · intro hnext
    rw [SampleLightProbeMeshLoop_outside _ _ _ _ hout, if_pos hnext]
    exact ⟨rfl, rfl⟩
  · rw [specWalk_outside _ _ _ _ hout]
    by_cases hmax : (mesh.tetrahedrons_.getD hint default).neighbors_
        (specMinIndex (mesh.GetBarycentricCoords hint position)) = M_MAX_UNSIGNED
    · rw [if_pos hmax]
      rfl
    · rw [if_neg hmax]
      have hhead := (specWalk_chain mesh position n
        ((mesh.tetrahedrons_.getD hint default).neighbors_
          (specMinIndex (mesh.GetBarycentricCoords hint position)))).1
      rw [List.getElem?_cons_succ, ← List.head?_eq_getElem?]
      exact hhead
  · rw [SampleLightProbeMeshLoop_outside _ _ _ _ hout]
    split_ifs
    · exact le_refl _
    · exact Nat.le_add_left _ _
  · intro m start
    obtain ⟨c1, c2⟩ := specWalk_chain mesh position m start
    obtain ⟨r1, r2, r3⟩ := SampleLightProbeMeshLoop_refines mesh position m start
    exact ⟨c1, c2, r1, r2, r3, (SampleLightProbeMeshLoop_weights mesh position m start).1⟩

/-- Witness of C17: in the component with two tetrahedra the point is outside of
tetrahedron 0, whose weight 0 is the only minimal one, and the walk goes on from
neighbour 0 of that tetrahedron, which is tetrahedron 1, where it ends. -/
theorem SampleLightProbeMeshLoop_direction_witness :
    ¬ allNonneg (walkIllumination.lightProbesMesh_.GetBarycentricCoords 0 Vector3.ZERO)
      ∧ walkNeighbor (walkIllumination.lightProbesMesh_.GetBarycentricCoords 0 Vector3.ZERO) = 0
      ∧ (walkIllumination.lightProbesMesh_.GetBarycentricCoords 0 Vector3.ZERO).get 0 < 0
      ∧ SampleLightProbeMeshLoop walkIllumination.lightProbesMesh_ Vector3.ZERO (1 + 1) 0
        = { SampleLightProbeMeshLoop walkIllumination.lightProbesMesh_ Vector3.ZERO 1 1 with
            steps := (SampleLightProbeMeshLoop walkIllumination.lightProbesMesh_
              Vector3.ZERO 1 1).steps + 1
            evaluations := (SampleLightProbeMeshLoop walkIllumination.lightProbesMesh_
              Vector3.ZERO 1 1).evaluations + 1 }
      ∧ specWalk walkIllumination.lightProbesMesh_ Vector3.ZERO (1 + 1) 0 = [0, 1]
      ∧ (specWalk walkIllumination.lightProbesMesh_ Vector3.ZERO (1 + 1) 0).getLast?
        = some (SampleLightProbeMeshLoop walkIllumination.lightProbesMesh_ Vector3.ZERO (1 + 1) 0).hint
      ∧ (specWalk walkIllumination.lightProbesMesh_ Vector3.ZERO (1 + 1) 0).length
        = (SampleLightProbeMeshLoop walkIllumination.lightProbesMesh_ Vector3.ZERO (1 + 1) 0).steps + 1 := by
  have hout : ¬ allNonneg (walkIllumination.lightProbesMesh_.GetBarycentricCoords 0 Vector3.ZERO) := by
    simp only [walkIllumination, allNonneg, outsideWeights]
    norm_num
  have hk : walkNeighbor (walkIllumination.lightProbesMesh_.GetBarycentricCoords 0 Vector3.ZERO)
      = 0 := walkNeighbor_outsideWeights
  have h := SampleLightProbeMeshLoop_direction walkIllumination.lightProbesMesh_ Vector3.ZERO 1 0 hout
  have hwalk : specWalk walkIllumination.lightProbesMesh_ Vector3.ZERO (1 + 1) 0 = [0, 1] := by
    have hx : ¬ (0 ≤ outsideWeights.x_) := by
      simp only [outsideWeights]
      norm_num
    have hi : (0 : ℚ) ≤ 1 / 4 := by norm_num
    have hs : specMinIndex outsideWeights = 0 := by
      rw [← walkNeighbor_eq_specMinIndex]
      exact walkNeighbor_outsideWeights
    simp [specWalk, walkIllumination, hs, tetrahedronTo, hx, hi, insideWeights, M_MAX_UNSIGNED]
  have hall := h.2.2.2.2.2.2.2.2 (1 + 1) 0
  rw [hk] at h
  exact ⟨hout, hk, h.2.1, h.2.2.2.1 (by decide), hwalk, hall.2.2.1, hall.2.2.2.1⟩

/-- C18, counterexample to the claim as stated: in a component with one tetrahedron without
neighbours that does not contain the point, the walk steps onto the sentinel, `hint` is the
sentinel on return and designates no tetrahedron, and `SampleAmbientSH` returns the empty
result, though the probes of the tetrahedron are lit and their blend is not zero. -/
theorem SampleLightProbeMesh_sentinel_counterexample :
    (lonelyIllumination.SampleLightProbeMesh Vector3.ZERO 0).exit = WalkExit.sentinel
      ∧ (lonelyIllumination.SampleLightProbeMesh Vector3.ZERO 0).hint = M_MAX_UNSIGNED
      ∧ ¬ ((lonelyIllumination.SampleLightProbeMesh Vector3.ZERO 0).hint
            < lonelyIllumination.lightProbesMesh_.tetrahedrons_.length)
      ∧ lonelyIllumination.SampleAmbientSH Vector3.ZERO 0
          = (SphericalHarmonicsDot9.ZERO, M_MAX_UNSIGNED)
      ∧ blendTetrahedron lonelyIllumination 0
            (lonelyIllumination.lightProbesMesh_.GetBarycentricCoords 0 Vector3.ZERO)
          ≠ SphericalHarmonicsDot9.ZERO := by
  refine ⟨?_, ?_, ?_, ?_, ?_⟩
  · rw [lonelyIllumination_walk]
  · rw [lonelyIllumination_walk]
  · rw [lonelyIllumination_walk]
    decide
  · rw [SampleAmbientSH_eq, lonelyIllumination_walk]
    exact if_pos (by decide)
  · intro h
    have hc := congrArg (fun sh => sh.C_.x_) h
    have h2 : Fin.castSucc (2 : Fin 3) = (2 : Fin 4) := rfl
    simp [blendTetrahedron, lonelyIllumination, tetrahedronTo, litProbe, outsideWeights,
      SphericalHarmonicsDot9.add, SphericalHarmonicsDot9.scale, SphericalHarmonicsDot9.ZERO,
      Vector4.get, Vector4.add, Vector4.scale, Vector4.ZERO, List.finRange, h2] at hc

/-- C18, amended: when the walk of `SampleLightProbeMesh` steps onto the sentinel neighbour,
`hint` is the sentinel on return and `SampleAmbientSH` returns the empty result; when the
walk exhausts its iterations, the weights returned are those of the tetrahedron `hint`
designates on return, and with neighbour entries that are indices of tetrahedra or the
sentinel `hint` designates a tetrahedron and `SampleAmbientSH` blends the probes of that
tetrahedron. -/
theorem SampleLightProbeMesh_fallback (gi : GlobalIllumination) (position : Vector3) (hint : Nat)
    (hfit : gi.lightProbesMesh_.tetrahedrons_.length ≤ M_MAX_UNSIGNED) :
    ((gi.SampleLightProbeMesh position hint).exit = WalkExit.sentinel →
        (gi.SampleLightProbeMesh position hint).hint = M_MAX_UNSIGNED
          ∧ gi.SampleAmbientSH position hint = (SphericalHarmonicsDot9.ZERO, M_MAX_UNSIGNED))
      ∧ ((gi.SampleLightProbeMesh position hint).exit = WalkExit.exhausted →
        (gi.SampleLightProbeMesh position hint).weights
            = gi.lightProbesMesh_.GetBarycentricCoords (gi.SampleLightProbeMesh position hint).hint
                position
          ∧ (neighborsWellFormed gi.lightProbesMesh_ →
            (gi.SampleLightProbeMesh position hint).hint < gi.lightProbesMesh_.tetrahedrons_.length
              ∧ gi.SampleAmbientSH position hint
                = (blendTetrahedron gi (gi.SampleLightProbeMesh position hint).hint
                      (gi.SampleLightProbeMesh position hint).weights,
                    (gi.SampleLightProbeMesh position hint).hint))) := by
  by_cases hne : gi.lightProbesMesh_.tetrahedrons_ = []
  · have hempty : (gi.SampleLightProbeMesh position hint).exit = WalkExit.empty := by
      unfold GlobalIllumination.SampleLightProbeMesh
      rw [if_pos (by simp [hne])]
    constructor <;> intro hexit <;> rw [hempty] at hexit <;> exact absurd hexit (by decide)
  · have hloop := SampleLightProbeMesh_eq_loop gi position hint hne
    obtain ⟨h1, -, -, h4⟩ := SampleLightProbeMeshLoop_weights gi.lightProbesMesh_ position
      gi.lightProbesMesh_.tetrahedrons_.length
      (if hint ≥ gi.lightProbesMesh_.tetrahedrons_.length then 0 else hint)
    rw [← hloop] at h1 h4
    constructor
    · intro hexit
      have hh := h4 hexit
      refine ⟨hh, ?_⟩
      rw [SampleAmbientSH_eq, if_pos (by rw [hh]; exact hfit), hh]
    · intro hexit
      refine ⟨h1, fun hwf => ?_⟩
      have hstart : (if hint ≥ gi.lightProbesMesh_.tetrahedrons_.length then 0 else hint)
          < gi.lightProbesMesh_.tetrahedrons_.length := by
        have := List.length_pos.mpr hne
        split_ifs with h
        · exact this
        · exact not_le.mp h
      have hlt := SampleLightProbeMeshLoop_hint gi.lightProbesMesh_ position hwf
        gi.lightProbesMesh_.tetrahedrons_.length _ hstart
        (by rw [← hloop, hexit]; decide)
      rw [← hloop] at hlt
      refine ⟨hlt, ?_⟩
      rw [SampleAmbientSH_eq, if_neg (not_le.mpr hlt)]

/-- Witness of C18: the walk of the component with one tetrahedron steps onto the sentinel,
and the walk of the component with two tetrahedra that do not contain the point exhausts
its iterations. -/
theorem SampleLightProbeMesh_fallback_witness :
    ((lonelyIllumination.SampleLightProbeMesh Vector3.ZERO 0).hint = M_MAX_UNSIGNED
        ∧ lonelyIllumination.SampleAmbientSH Vector3.ZERO 0
          = (SphericalHarmonicsDot9.ZERO, M_MAX_UNSIGNED))
      ∧ ((cyclicIllumination.SampleLightProbeMesh Vector3.ZERO 0).hint
          < cyclicIllumination.lightProbesMesh_.tetrahedrons_.length
        ∧ cyclicIllumination.SampleAmbientSH Vector3.ZERO 0
          = (blendTetrahedron cyclicIllumination
                (cyclicIllumination.SampleLightProbeMesh Vector3.ZERO 0).hint
                (cyclicIllumination.SampleLightProbeMesh Vector3.ZERO 0).weights,
              (cyclicIllumination.SampleLightProbeMesh Vector3.ZERO 0).hint)) :=
  ⟨(SampleLightProbeMesh_fallback lonelyIllumination Vector3.ZERO 0 (by decide)).1
      (by rw [lonelyIllumination_walk]),
    ((SampleLightProbeMesh_fallback cyclicIllumination Vector3.ZERO 0 (by decide)).2
      (by rw [cyclicIllumination_walk])).2
      (by
        simp [neighborsWellFormed, cyclicIllumination, tetrahedronTo, Fin.forall_fin_succ,
          M_MAX_UNSIGNED])⟩

/-- C19: on a mesh of `T` tetrahedra, with any neighbour data, position and hint,
`SampleLightProbeMesh` returns after at most `T` steps of the walk and at most `T + 1`
evaluations of barycentric weights; a hint that is out of range counts as 0; on an empty
mesh it returns the zero vector with no evaluation and `hint` as it was. -/
theorem SampleLightProbeMesh_bounded (gi : GlobalIllumination) (position : Vector3) (hint : Nat) :
    (gi.SampleLightProbeMesh position hint).steps ≤ gi.lightProbesMesh_.tetrahedrons_.length
      ∧ (gi.SampleLightProbeMesh position hint).evaluations
          ≤ gi.lightProbesMesh_.tetrahedrons_.length + 1
      ∧ (gi.lightProbesMesh_.tetrahedrons_ ≠ [] →
          gi.lightProbesMesh_.tetrahedrons_.length ≤ hint →
          gi.SampleLightProbeMesh position hint = gi.SampleLightProbeMesh position 0)
      ∧ (gi.lightProbesMesh_.tetrahedrons_ = [] →
          gi.SampleLightProbeMesh position hint = ⟨Vector4.ZERO, hint, WalkExit.empty, 0, 0⟩) := by
  have hempty : gi.lightProbesMesh_.tetrahedrons_ = [] →
      gi.SampleLightProbeMesh position hint = ⟨Vector4.ZERO, hint, WalkExit.empty, 0, 0⟩ := by
    intro hnil
    unfold GlobalIllumination.SampleLightProbeMesh
    rw [if_pos (by simp [hnil])]
  by_cases hne : gi.lightProbesMesh_.tetrahedrons_ = []
  · refine ⟨?_, ?_, fun h => absurd hne h, hempty⟩
    · rw [hempty hne]
      exact Nat.zero_le _
    · rw [hempty hne]
      exact Nat.zero_le _
  · have hb := SampleLightProbeMeshLoop_bounds gi.lightProbesMesh_ position
      gi.lightProbesMesh_.tetrahedrons_.length
      (if hint ≥ gi.lightProbesMesh_.tetrahedrons_.length then 0 else hint)
    rw [← SampleLightProbeMesh_eq_loop gi position hint hne] at hb
    refine ⟨hb.1, hb.2, fun _ hge => ?_, hempty⟩
    rw [SampleLightProbeMesh_eq_loop gi position hint hne,
      SampleLightProbeMesh_eq_loop gi position 0 hne, if_pos hge]
    have hpos := List.length_pos.mpr hne
    rw [if_neg (by
      show ¬ (gi.lightProbesMesh_.tetrahedrons_.length ≤ 0)
      omega)]

/-- Witness of C19: on two tetrahedra that are neighbours of each other and do not contain
the point the walk goes round the cycle and returns after 2 steps and 3 evaluations; a hint
out of range counts as 0; the empty mesh gives the zero vector. -/
theorem SampleLightProbeMesh_bounded_witness :
    (cyclicIllumination.SampleLightProbeMesh Vector3.ZERO 0).steps = 2
      ∧ (cyclicIllumination.SampleLightProbeMesh Vector3.ZERO 0).evaluations = 3
      ∧ cyclicIllumination.SampleLightProbeMesh Vector3.ZERO 7
          = cyclicIllumination.SampleLightProbeMesh Vector3.ZERO 0
      ∧ emptyIllumination.SampleLightProbeMesh Vector3.ZERO 5
          = ⟨Vector4.ZERO, 5, WalkExit.empty, 0, 0⟩ :=
  ⟨by rw [cyclicIllumination_walk], by rw [cyclicIllumination_walk],
    (SampleLightProbeMesh_bounded cyclicIllumination Vector3.ZERO 7).2.2.1
      (by simp [cyclicIllumination]) (by simp [cyclicIllumination]),
    (SampleLightProbeMesh_bounded emptyIllumination Vector3.ZERO 5).2.2.2 rfl⟩

/-! ## Indirect light of light probes: theorems -/

/-- C20: `EndElement` of the probe kernel has no guard for a sample weight of zero. For
every probe element with weight 0 the division `M_PI / weight_` is a division by zero, and
what comes of it is not the collection left as it was; with `numIndirectProbeSamples_` = 0
every element ends so, as for the probe with baked light of the test collection. -/
theorem LightProbeIndirectTracingKernel_EndElement_zero_weight (be : Backend)
    (hb : HarmonicsBackend) (fuel : Nat) (bakedDirect : List LightmapChartBakedDirect)
    (raytracerScene : RaytracerScene) (settings : LightmapTracingSettings)
    (kernel : LightProbeIndirectTracingKernel) (collection : LightProbeCollection)
    (s : ProbeTaskState) (elementIndex : Nat) (element : LightProbeIndirectTracingElement) :
    kernel.EndElement be hb collection elementIndex { element with weight_ := 0 }
        = Except.error TraceFault.nonFinite
      ∧ kernel.EndElement be hb collection elementIndex { element with weight_ := 0 }
        ≠ Except.ok collection
      ∧ TraceIndirectLightProbeElement be hb fuel bakedDirect raytracerScene settings
          ⟨{ kernel.settings_ with numIndirectProbeSamples_ := 0 }⟩ s elementIndex
        = Except.error TraceFault.nonFinite
      ∧ TraceIndirectLightProbeElement (sceneBackend []) testHarmonics 4 [emptyChart] testScene
          (testSettings 1 1) ⟨{ testSettings 1 1 with numIndirectProbeSamples_ := 0 }⟩
          (probeTaskStart probeCollection) 0
        = Except.error TraceFault.nonFinite := by
  have hend : ∀ (k : LightProbeIndirectTracingKernel) (c : LightProbeCollection) (i : Nat)
      (e : LightProbeIndirectTracingElement), e.weight_ = 0 →
      k.EndElement be hb c i e = Except.error TraceFault.nonFinite := by
    intro k c i e he
    unfold LightProbeIndirectTracingKernel.EndElement divideFloat
    rw [if_pos he]
    rfl
  refine ⟨hend _ _ _ _ rfl, ?_, ?_, ?_⟩
  · rw [hend _ _ _ _ rfl]
    exact fun h => Except.noConfusion h
  · rfl
  · rfl


/-! ## Nearest texel of a chart: theorems -/

/-- With at least one task, `BakeEmissionLight` is the loop of `emissionStep` over all
texels of the chart. -/
theorem BakeEmissionLight_eq_foldl (bakedDirect : LightmapChartBakedDirect)
    (geometryBuffer : LightmapChartGeometryBuffer) (settings : LightmapTracingSettings)
    (hTasks : 0 < settings.numTasks_) :
    BakeEmissionLight bakedDirect geometryBuffer settings
      = (List.range bakedDirect.directLight_.length).foldl (emissionStep geometryBuffer)
          bakedDirect :=
  ParallelFor_eq_foldl bakedDirect.directLight_.length settings.numTasks_
    (emissionStep geometryBuffer) bakedDirect hTasks

/-- What `emissionStep` for texel `i` leaves at the index `j` of the three arrays. -/
theorem emissionStep_getElem? (geometryBuffer : LightmapChartGeometryBuffer)
    (bakedDirect : LightmapChartBakedDirect) (i j : Nat) :
    (emissionStep geometryBuffer bakedDirect i).directLight_[j]?
        = (if i = j ∧ geometryBuffer.geometryIds_.getD i 0 ≠ 0 then
            (bakedDirect.directLight_[j]?).map fun x =>
              x.add (Vector4.ofVector3 (geometryBuffer.emission_.getD i default) 0)
          else bakedDirect.directLight_[j]?)
      ∧ (emissionStep geometryBuffer bakedDirect i).surfaceLight_[j]?
        = (if i = j ∧ geometryBuffer.geometryIds_.getD i 0 ≠ 0 then
            (bakedDirect.surfaceLight_[j]?).map fun x =>
              x.add (geometryBuffer.emission_.getD i default)
          else bakedDirect.surfaceLight_[j]?)
      ∧ (emissionStep geometryBuffer bakedDirect i).albedo_[j]?
        = (if i = j ∧ geometryBuffer.geometryIds_.getD i 0 ≠ 0 then
            (bakedDirect.albedo_[j]?).map fun _ => geometryBuffer.albedo_.getD i default
          else bakedDirect.albedo_[j]?) := by
  unfold emissionStep
  by_cases hid : geometryBuffer.geometryIds_.getD i 0 = 0
  · simp only [hid, if_true, ne_eq, not_true_eq_false, and_false, if_false]
    exact ⟨trivial, trivial, trivial⟩
  · simp only [hid, if_false, addAt_getElem?, ne_eq, not_false_eq_true, and_true]
    refine ⟨trivial, trivial, ?_⟩
    by_cases hij : i = j
    · subst hij
      by_cases hlt : i < bakedDirect.albedo_.length
      · simp [List.getElem?_set, hlt, List.getElem?_eq_getElem hlt]
      · simp [List.getElem?_set, hlt, List.getElem?_eq_none (not_lt.mp hlt)]
    · simp [hij, List.getElem?_set_ne hij]

/-- C23: for an occupied texel `i` of the chart, after `BakeEmissionLight`, run with at
least one task, `directLight[i]` is its value before plus `(emission[i], 0)`,
`surfaceLight[i]` is its value before plus `emission[i]`, and `albedo[i]` is `albedo[i]` of
the geometry buffer; on buffers that start at zero the direct light is `(emission[i], 0)`,
with the fourth channel 0, and the surface light is `emission[i]`. -/
theorem BakeEmissionLight_occupied (bakedDirect : LightmapChartBakedDirect)
    (geometryBuffer : LightmapChartGeometryBuffer) (settings : LightmapTracingSettings) (i : Nat)
    (hTasks : 0 < settings.numTasks_) (hi : i < bakedDirect.directLight_.length)
    (hs : i < bakedDirect.surfaceLight_.length) (ha : i < bakedDirect.albedo_.length)
    (hocc : geometryBuffer.geometryIds_.getD i 0 ≠ 0) :
    (BakeEmissionLight bakedDirect geometryBuffer settings).directLight_[i]?
        = some ((bakedDirect.directLight_.getD i default).add
            (Vector4.ofVector3 (geometryBuffer.emission_.getD i default) 0))
      ∧ (BakeEmissionLight bakedDirect geometryBuffer settings).surfaceLight_[i]?
        = some ((bakedDirect.surfaceLight_.getD i default).add
            (geometryBuffer.emission_.getD i default))
      ∧ (BakeEmissionLight bakedDirect geometryBuffer settings).albedo_[i]?
        = some (geometryBuffer.albedo_.getD i default)
      ∧ (bakedDirect.directLight_.getD i default = Vector4.ZERO →
          bakedDirect.surfaceLight_.getD i default = Vector3.ZERO →
          (BakeEmissionLight bakedDirect geometryBuffer settings).directLight_[i]?
              = some (Vector4.ofVector3 (geometryBuffer.emission_.getD i default) 0)
            ∧ (BakeEmissionLight bakedDirect geometryBuffer settings).surfaceLight_[i]?
              = some (geometryBuffer.emission_.getD i default)) := by
  rw [BakeEmissionLight_eq_foldl bakedDirect geometryBuffer settings hTasks]
  have hd := foldl_range_point (emissionStep geometryBuffer) (fun b => b.directLight_[i]?)
    (fun o => o.map fun x =>
      x.add (Vector4.ofVector3 (geometryBuffer.emission_.getD i default) 0)) i
    (fun s e hei => by
      dsimp only
      rw [(emissionStep_getElem? geometryBuffer s e i).1, if_neg (fun h => hei h.1)])
    (fun s => by
      dsimp only
      rw [(emissionStep_getElem? geometryBuffer s i i).1, if_pos ⟨rfl, hocc⟩])
    bakedDirect.directLight_.length bakedDirect
  have hsl := foldl_range_point (emissionStep geometryBuffer) (fun b => b.surfaceLight_[i]?)
    (fun o => o.map fun x => x.add (geometryBuffer.emission_.getD i default)) i
    (fun s e hei => by
      dsimp only
      rw [(emissionStep_getElem? geometryBuffer s e i).2.1, if_neg (fun h => hei h.1)])
    (fun s => by
      dsimp only
      rw [(emissionStep_getElem? geometryBuffer s i i).2.1, if_pos ⟨rfl, hocc⟩])
    bakedDirect.directLight_.length bakedDirect
  have hal := foldl_range_point (emissionStep geometryBuffer) (fun b => b.albedo_[i]?)
    (fun o => o.map fun _ => geometryBuffer.albedo_.getD i default) i
    (fun s e hei => by
      dsimp only
      rw [(emissionStep_getElem? geometryBuffer s e i).2.2, if_neg (fun h => hei h.1)])
    (fun s => by
      dsimp only
      rw [(emissionStep_getElem? geometryBuffer s i i).2.2, if_pos ⟨rfl, hocc⟩])
    bakedDirect.directLight_.length bakedDirect
  simp only [hi, if_true] at hd hsl hal
  rw [hd, hsl, hal, getElem?_of_lt_length _ i hi, getElem?_of_lt_length _ i hs,
    getElem?_of_lt_length _ i ha]
  refine ⟨rfl, rfl, rfl, fun h0 h1 => ?_⟩
  rw [h0, h1]
  constructor
  · simp [Vector4.add, Vector4.ofVector3, Vector4.ZERO]
  · simp [Vector3.add, Vector3.ZERO]

/-- Witness of C23: the second texel of the quad, whose emission is `(1, 2, 3)`, on a chart
that starts at zero. -/
theorem BakeEmissionLight_occupied_witness :
    (BakeEmissionLight emptyChart quadBuffer (testSettings 1 1)).directLight_[1]?
        = some ((emptyChart.directLight_.getD 1 default).add
            (Vector4.ofVector3 (quadBuffer.emission_.getD 1 default) 0))
      ∧ (BakeEmissionLight emptyChart quadBuffer (testSettings 1 1)).surfaceLight_[1]?
        = some ((emptyChart.surfaceLight_.getD 1 default).add (quadBuffer.emission_.getD 1 default))
      ∧ (BakeEmissionLight emptyChart quadBuffer (testSettings 1 1)).albedo_[1]?
        = some (quadBuffer.albedo_.getD 1 default)
      ∧ (BakeEmissionLight emptyChart quadBuffer (testSettings 1 1)).directLight_[1]?
        = some (Vector4.ofVector3 (quadBuffer.emission_.getD 1 default) 0)
      ∧ (BakeEmissionLight emptyChart quadBuffer (testSettings 1 1)).surfaceLight_[1]?
        = some (quadBuffer.emission_.getD 1 default) :=
  have h := BakeEmissionLight_occupied emptyChart quadBuffer (testSettings 1 1) 1 (by decide)
    (by decide) (by decide) (by decide) (by decide)
  ⟨h.1, h.2.1, h.2.2.1, (h.2.2.2 rfl rfl).1, (h.2.2.2 rfl rfl).2⟩

/-! ## Partition of the direct chart pass: theorems -/

/-- A loop over `a ≤ i < a + n` whose body changes an observation only at `i = j`. -/
theorem foldl_range'_point {σ β : Type} (f : σ → Nat → σ) (obs : σ → β) (g : β → β) (j : Nat)
    (hne : ∀ s i, i ≠ j → obs (f s i) = obs s) (heq : ∀ s, obs (f s j) = g (obs s))
    (a n : Nat) (s : σ) :
    obs ((List.range' a n).foldl f s) = if a ≤ j ∧ j < a + n then g (obs s) else obs s := by
  induction n generalizing a s with
  | zero =>
    rw [if_neg (by omega)]
    rfl
  | succ n ih =>
    rw [List.range'_succ, List.foldl_cons, ih]
    by_cases hja : a = j
    · subst hja
      have h1 : ¬ (a + 1 ≤ a ∧ a < a + 1 + n) := by omega
      have h2 : a ≤ a ∧ a < a + (n + 1) := by omega
      rw [if_neg h1, if_pos h2, heq]
    · rw [hne s a hja]
      by_cases hr : a + 1 ≤ j ∧ j < a + 1 + n
      · have h2 : a ≤ j ∧ j < a + (n + 1) := by omega
        rw [if_pos hr, if_pos h2]
      · have h2 : ¬ (a ≤ j ∧ j < a + (n + 1)) := by omega
        rw [if_neg hr, if_neg h2]

/-- What a task of `TraceDirectLight` for the elements `a ≤ i < b` leaves at the index `j`
of the arrays of the chart. -/
theorem TraceDirectLightTask_getElem? (be : Backend) (kernel : ChartDirectTracingKernel)
    (generator : DirectionalRayGenerator) (raytracerScene : RaytracerScene)
    (bakedDirect : LightmapChartBakedDirect) (a b j : Nat) (hab : a ≤ b) :
    (TraceDirectLightTask be kernel generator raytracerScene bakedDirect a b).directLight_[j]?
        = (if (a ≤ j ∧ j < b) ∧ kernel.geometryBuffer_.geometryIds_.getD j 0 ≠ 0
              ∧ kernel.bakeDirect_ = true then
            (bakedDirect.directLight_[j]?).map fun x =>
              x.add (Vector4.ofVector3
                (((sampleContribution be kernel generator raytracerScene.maxDistance j).scale
                  (kernel.GetNumSamples : ℚ)).scale (1 / (kernel.GetNumSamples : ℚ))) 0)
          else bakedDirect.directLight_[j]?)
      ∧ (TraceDirectLightTask be kernel generator raytracerScene bakedDirect a b).surfaceLight_[j]?
        = (if (a ≤ j ∧ j < b) ∧ kernel.geometryBuffer_.geometryIds_.getD j 0 ≠ 0
              ∧ kernel.bakeIndirect_ = true then
            (bakedDirect.surfaceLight_[j]?).map fun x =>
              x.add ((kernel.geometryBuffer_.albedo_.getD j default).mul
                (((sampleContribution be kernel generator raytracerScene.maxDistance j).scale
                  (kernel.GetNumSamples : ℚ)).scale (1 / (kernel.GetNumSamples : ℚ))))
          else bakedDirect.surfaceLight_[j]?)
      ∧ (TraceDirectLightTask be kernel generator raytracerScene bakedDirect a b).albedo_
        = bakedDirect.albedo_ := by
  rw [TraceDirectLightTask_eq]
  have hrange : a + (b - a) = b := by omega
  have hd := foldl_range'_point (directElementEffect be kernel generator raytracerScene.maxDistance)
    (fun c => c.directLight_[j]?)
    (fun o => if kernel.geometryBuffer_.geometryIds_.getD j 0 ≠ 0 ∧ kernel.bakeDirect_ = true then
        o.map fun x =>
          x.add (Vector4.ofVector3
            (((sampleContribution be kernel generator raytracerScene.maxDistance j).scale
              (kernel.GetNumSamples : ℚ)).scale (1 / (kernel.GetNumSamples : ℚ))) 0)
      else o) j
    (fun s i hij => by
      dsimp only
      rw [(directElementEffect_getElem? be kernel generator raytracerScene.maxDistance s i j).1,
        if_neg (fun h => hij h.1)])
    (fun s => by
      dsimp only
      rw [(directElementEffect_getElem? be kernel generator raytracerScene.maxDistance s j j).1]
      simp only [true_and])
    a (b - a) bakedDirect
  have hs := foldl_range'_point (directElementEffect be kernel generator raytracerScene.maxDistance)
    (fun c => c.surfaceLight_[j]?)
    (fun o => if kernel.geometryBuffer_.geometryIds_.getD j 0 ≠ 0 ∧ kernel.bakeIndirect_ = true then
        o.map fun x =>
          x.add ((kernel.geometryBuffer_.albedo_.getD j default).mul
            (((sampleContribution be kernel generator raytracerScene.maxDistance j).scale
              (kernel.GetNumSamples : ℚ)).scale (1 / (kernel.GetNumSamples : ℚ))))
      else o) j
    (fun s i hij => by
      dsimp only
      rw [(directElementEffect_getElem? be kernel generator raytracerScene.maxDistance s i j).2.1,
        if_neg (fun h => hij h.1)])
    (fun s => by
      dsimp only
      rw [(directElementEffect_getElem? be kernel generator raytracerScene.maxDistance s j j).2.1]
      simp only [true_and])
    a (b - a) bakedDirect
  have ha : ((List.range' a (b - a)).foldl
      (directElementEffect be kernel generator raytracerScene.maxDistance) bakedDirect).albedo_
      = bakedDirect.albedo_ :=
    foldl_preserves _ (fun c => c.albedo_ = bakedDirect.albedo_)
      (fun s i hsi => by
        show (directElementEffect be kernel generator raytracerScene.maxDistance s i).albedo_ = _
        rw [(directElementEffect_getElem? be kernel generator raytracerScene.maxDistance s i 0).2.2]
        exact hsi) _ bakedDirect rfl
  rw [hrange] at hd hs
  rw [hd, hs, ha]
  refine ⟨?_, ?_, rfl⟩
  · by_cases hr : a ≤ j ∧ j < b
    · simp only [hr, and_self, true_and, if_true]
    · simp only [hr, false_and, if_false]
  · by_cases hr : a ≤ j ∧ j < b
    · simp only [hr, and_self, true_and, if_true]
    · simp only [hr, false_and, if_false]

/-- A task of `TraceDirectLight` leaves the lengths of the arrays of the chart as they are. -/
theorem TraceDirectLightTask_length (be : Backend) (kernel : ChartDirectTracingKernel)
    (generator : DirectionalRayGenerator) (raytracerScene : RaytracerScene)
    (bakedDirect : LightmapChartBakedDirect) (a b : Nat) :
    (TraceDirectLightTask be kernel generator raytracerScene bakedDirect a b).directLight_.length
        = bakedDirect.directLight_.length
      ∧ (TraceDirectLightTask be kernel generator raytracerScene bakedDirect a b).surfaceLight_.length
        = bakedDirect.surfaceLight_.length := by
  rw [TraceDirectLightTask_eq]
  refine foldl_preserves _
    (fun c => c.directLight_.length = bakedDirect.directLight_.length
      ∧ c.surfaceLight_.length = bakedDirect.surfaceLight_.length) ?_ _ bakedDirect ⟨rfl, rfl⟩
  intro s i hsi
  dsimp only at hsi ⊢
  unfold directElementEffect ChartDirectTracingKernel.EndElement
  split_ifs <;> first | exact hsi | (simp only [addAt_length]; exact hsi)

/-- An update at the index `j` by the chunk `a ≤ i < b` after the chunk `b ≤ i < c` is the
update by the chunk `a ≤ i < c`. -/
theorem chunk_point_split {β : Type} (g : β → β) (o : β) (occ : Prop) [Decidable occ]
    (a b c j : Nat) (hab : a ≤ b) (hbc : b ≤ c) :
    (if (a ≤ j ∧ j < b) ∧ occ then g (if (b ≤ j ∧ j < c) ∧ occ then g o else o)
      else if (b ≤ j ∧ j < c) ∧ occ then g o else o)
      = if (a ≤ j ∧ j < c) ∧ occ then g o else o := by
  by_cases hocc : occ
  · by_cases h1 : a ≤ j ∧ j < b
    · have h2 : ¬ (b ≤ j ∧ j < c) := by omega
      have h3 : a ≤ j ∧ j < c := by omega
      rw [if_pos ⟨h1, hocc⟩, if_neg (fun h => h2 h.1), if_pos ⟨h3, hocc⟩]
    · by_cases h2 : b ≤ j ∧ j < c
      · have h3 : a ≤ j ∧ j < c := by omega
        rw [if_neg (fun h => h1 h.1), if_pos ⟨h2, hocc⟩, if_pos ⟨h3, hocc⟩]
      · have h3 : ¬ (a ≤ j ∧ j < c) := by omega
        rw [if_neg (fun h => h1 h.1), if_neg (fun h => h2 h.1), if_neg (fun h => h3 h.1)]
  · rw [if_neg (fun h => hocc h.2), if_neg (fun h => hocc h.2), if_neg (fun h => hocc h.2)]

/-- C24: for `a ≤ b ≤ c` the task of `TraceDirectLight` on the elements `a ≤ i < c` gives
the chart that the task on `a ≤ i < b` followed by the task on `b ≤ i < c` gives, and the
two tasks in the other order give the same `directLight`, `surfaceLight` and `albedo`
arrays; the task on `a ≤ i < b` leaves every entry of `directLight` and `surfaceLight` whose
index is outside of `a ≤ j < b` as it was. -/
theorem TraceDirectLightTask_partition (be : Backend) (kernel : ChartDirectTracingKernel)
    (generator : DirectionalRayGenerator) (raytracerScene : RaytracerScene)
    (bakedDirect : LightmapChartBakedDirect) (a b c : Nat) (hab : a ≤ b) (hbc : b ≤ c) :
    TraceDirectLightTask be kernel generator raytracerScene bakedDirect a c
        = TraceDirectLightTask be kernel generator raytracerScene
            (TraceDirectLightTask be kernel generator raytracerScene bakedDirect a b) b c
      ∧ (TraceDirectLightTask be kernel generator raytracerScene
            (TraceDirectLightTask be kernel generator raytracerScene bakedDirect b c) a b).directLight_
        = (TraceDirectLightTask be kernel generator raytracerScene bakedDirect a c).directLight_
      ∧ (TraceDirectLightTask be kernel generator raytracerScene
            (TraceDirectLightTask be kernel generator raytracerScene bakedDirect b c) a b).surfaceLight_
        = (TraceDirectLightTask be kernel generator raytracerScene bakedDirect a c).surfaceLight_
      ∧ (TraceDirectLightTask be kernel generator raytracerScene
            (TraceDirectLightTask be kernel generator raytracerScene bakedDirect b c) a b).albedo_
        = (TraceDirectLightTask be kernel generator raytracerScene bakedDirect a c).albedo_
      ∧ ∀ j, ¬ (a ≤ j ∧ j < b) →
          (TraceDirectLightTask be kernel generator raytracerScene bakedDirect a b).directLight_[j]?
              = bakedDirect.directLight_[j]?
            ∧ (TraceDirectLightTask be kernel generator raytracerScene bakedDirect a b).surfaceLight_[j]?
              = bakedDirect.surfaceLight_[j]? := by
  have hac : a ≤ c := le_trans hab hbc
  refine ⟨?_, ?_, ?_, ?_, ?_⟩
  · rw [TraceDirectLightTask_eq, TraceDirectLightTask_eq, TraceDirectLightTask_eq,
      ← List.foldl_append]
    congr 1
    have h := List.range'_append a (b - a) (c - b) 1
    rw [Nat.one_mul, show a + (b - a) = b by omega, show c - b + (b - a) = c - a by omega] at h
    exact h.symm
  · apply List.ext_getElem?
    intro j
    rw [(TraceDirectLightTask_getElem? be kernel generator raytracerScene _ a b j hab).1,
      (TraceDirectLightTask_getElem? be kernel generator raytracerScene _ b c j hbc).1,
      (TraceDirectLightTask_getElem? be kernel generator raytracerScene _ a c j hac).1]
    exact chunk_point_split _ _ _ a b c j hab hbc
  · apply List.ext_getElem?
    intro j
    rw [(TraceDirectLightTask_getElem? be kernel generator raytracerScene _ a b j hab).2.1,
      (TraceDirectLightTask_getElem? be kernel generator raytracerScene _ b c j hbc).2.1,
      (TraceDirectLightTask_getElem? be kernel generator raytracerScene _ a c j hac).2.1]
    exact chunk_point_split _ _ _ a b c j hab hbc
  · rw [(TraceDirectLightTask_getElem? be kernel generator raytracerScene _ a b 0 hab).2.2,
      (TraceDirectLightTask_getElem? be kernel generator raytracerScene _ b c 0 hbc).2.2,
      (TraceDirectLightTask_getElem? be kernel generator raytracerScene _ a c 0 hac).2.2]
  · intro j hj
    rw [(TraceDirectLightTask_getElem? be kernel generator raytracerScene _ a b j hab).1,
      (TraceDirectLightTask_getElem? be kernel generator raytracerScene _ a b j hab).2.1]
    simp only [hj, false_and, if_false, and_self]

/-- Witness of C24: the two texels of the quad under the sun, as one task of two elements
and as two tasks of one element each. -/
theorem TraceDirectLightTask_partition_witness :
    TraceDirectLightTask (sceneBackend []) (quadKernel 1) sun testScene emptyChart 0 2
        = TraceDirectLightTask (sceneBackend []) (quadKernel 1) sun testScene
            (TraceDirectLightTask (sceneBackend []) (quadKernel 1) sun testScene emptyChart 0 1) 1 2
      ∧ (TraceDirectLightTask (sceneBackend []) (quadKernel 1) sun testScene
            (TraceDirectLightTask (sceneBackend []) (quadKernel 1) sun testScene emptyChart 1 2)
            0 1).directLight_
        = (TraceDirectLightTask (sceneBackend []) (quadKernel 1) sun testScene emptyChart
            0 2).directLight_ :=
  have h := TraceDirectLightTask_partition (sceneBackend []) (quadKernel 1) sun testScene emptyChart
    0 1 2 (by decide) (by decide)
  ⟨h.1, h.2.1⟩

/-! ## Random directions: theorems -/

/-- One round of the loop of `RandomDirection`: a vector longer than 1 is drawn again,
any other vector is divided by its length and returned. -/
theorem RandomDirection_step (be : Backend) (fuel rng : Nat) :
    RandomDirection be (fuel + 1) rng
      = if (directionDraw be rng).Length be > 1 then RandomDirection be fuel (rng + 3)
        else some ((directionDraw be rng).divScalar ((directionDraw be rng).Length be), rng + 3) := by
  rfl

/-- The first vector that is not longer than 1, found within the fuel, is what
`RandomDirection` returns. -/
theorem RandomDirection_first (be : Backend) (k : Nat) :
    ∀ (fuel rng : Nat), k < fuel →
      (∀ j, j < k → (directionDraw be (rng + 3 * j)).Length be > 1) →
      ¬ ((directionDraw be (rng + 3 * k)).Length be > 1) →
      RandomDirection be fuel rng
        = some ((directionDraw be (rng + 3 * k)).divScalar
            ((directionDraw be (rng + 3 * k)).Length be), rng + 3 * (k + 1)) := by
  induction k with
  | zero =>
    intro fuel rng hk _ hacc
    obtain ⟨f, rfl⟩ : ∃ f, fuel = f + 1 := ⟨fuel - 1, by omega⟩
    simp only [Nat.mul_zero, Nat.add_zero, Nat.zero_add, Nat.mul_one] at hacc ⊢
    rw [RandomDirection_step, if_neg hacc]
  | succ k ih =>
    intro fuel rng hk hrej hacc
    obtain ⟨f, rfl⟩ : ∃ f, fuel = f + 1 := ⟨fuel - 1, by omega⟩
    have h0 := hrej 0 (by omega)
    simp only [Nat.mul_zero, Nat.add_zero] at h0
    rw [RandomDirection_step, if_pos h0]
    have e : ∀ j, rng + 3 + 3 * j = rng + 3 * (j + 1) := fun j => by omega
    rw [ih f (rng + 3) (by omega)
      (fun j hj => by
        rw [e]
        exact hrej (j + 1) (by omega))
      (by
        rw [e]
        exact hacc), e, e]

/-- Whatever `RandomDirection` returns is the first vector that is not longer than 1,
divided by its length. -/
theorem RandomDirection_some (be : Backend) (fuel : Nat) :
    ∀ (rng : Nat) (d : Vector3) (rng' : Nat), RandomDirection be fuel rng = some (d, rng') →
      ∃ k, k < fuel ∧ (∀ j, j < k → (directionDraw be (rng + 3 * j)).Length be > 1)
        ∧ ¬ ((directionDraw be (rng + 3 * k)).Length be > 1)
        ∧ d = (directionDraw be (rng + 3 * k)).divScalar
            ((directionDraw be (rng + 3 * k)).Length be)
        ∧ rng' = rng + 3 * (k + 1) := by
  induction fuel with
  | zero =>
    intro rng d rng' h
    exact absurd h (by simp [RandomDirection])
  | succ f ih =>
    intro rng d rng' h
    rw [RandomDirection_step] at h
    by_cases hlen : (directionDraw be rng).Length be > 1
    · rw [if_pos hlen] at h
      obtain ⟨k, hk, hrej, hacc, hd, hr⟩ := ih (rng + 3) d rng' h
      have e : ∀ j, rng + 3 + 3 * j = rng + 3 * (j + 1) := fun j => by omega
      rw [e] at hacc hd hr
      refine ⟨k + 1, by omega, fun j hj => ?_, hacc, hd, hr⟩
      cases j with
      | zero => exact hlen
      | succ j =>
        rw [← e]
        exact hrej j (by omega)
    · rw [if_neg hlen] at h
      simp only [Option.some.injEq, Prod.mk.injEq] at h
      exact ⟨0, by omega, fun j hj => absurd hj (by omega), hlen, h.1.symm, h.2.symm⟩

/-- A vector divided by its length, when the length is not zero and is the square root of
the squared length, has the squared length 1. -/
theorem divScalar_unit (v : Vector3) (len : ℚ) (hne : len ≠ 0)
    (hsq : len * len = v.LengthSquared) : (v.divScalar len).LengthSquared = 1 := by
  unfold Vector3.LengthSquared at hsq ⊢
  unfold Vector3.divScalar
  simp only
  field_simp
  linarith

/-- The first vector of the backend of the test scenes is the zero vector, of length 0. -/
theorem sceneBackend_draw (candidates : List RTCCandidate) (rng : Nat) :
    directionDraw (sceneBackend candidates) rng = Vector3.ZERO
      ∧ (directionDraw (sceneBackend candidates) rng).Length (sceneBackend candidates) = 0 := by
  have h : directionDraw (sceneBackend candidates) rng = Vector3.ZERO := by
    simp only [directionDraw, Random, sceneBackend, Vector3.ZERO]
    norm_num
  refine ⟨h, ?_⟩
  rw [h]
  simp [Vector3.Length, Vector3.LengthSquared, sceneBackend, Vector3.ZERO]

/-- The vectors of the backend `drawBackend`: `(1, 1, 1)` of length 3 under its square root,
then `(3 / 10, 2 / 5, 0)` of length `1 / 2`. -/
theorem drawBackend_draw :
    (directionDraw drawBackend 0).Length drawBackend = 3
      ∧ directionDraw drawBackend 3 = ⟨3 / 10, 2 / 5, 0⟩
      ∧ (directionDraw drawBackend 3).Length drawBackend = 1 / 2 := by
  have h0 : directionDraw drawBackend 0 = ⟨1, 1, 1⟩ := by
    simp only [directionDraw, Random, drawBackend, sceneBackend]
    norm_num
  have h3 : directionDraw drawBackend 3 = ⟨3 / 10, 2 / 5, 0⟩ := by
    simp only [directionDraw, Random, drawBackend, sceneBackend]
    norm_num
  refine ⟨?_, h3, ?_⟩
  · rw [h0]
    simp only [Vector3.Length, Vector3.LengthSquared, drawBackend, sceneBackend]
    norm_num
  · rw [h3]
    simp only [Vector3.Length, Vector3.LengthSquared, drawBackend, sceneBackend]
    norm_num

/-- One round of the loop of `RandomDirectionOver`. -/
theorem RandomDirectionOver_step {K : Type} [LinearOrderedField K] (sqrt : K → K)
    (randomUnit : Nat → K) (fuel rng : Nat) :
    RandomDirectionOver sqrt randomUnit (fuel + 1) rng
      = if sqrt (directionDrawOver randomUnit rng).LengthSquared > 1 then
          RandomDirectionOver sqrt randomUnit fuel (rng + 3)
        else some ((directionDrawOver randomUnit rng).divScalar
          (sqrt (directionDrawOver randomUnit rng).LengthSquared), rng + 3) := by
  rfl

/-- The first vector that is not longer than 1, found within the fuel, is what
`RandomDirectionOver` returns. -/
theorem RandomDirectionOver_first {K : Type} [LinearOrderedField K] (sqrt : K → K)
    (randomUnit : Nat → K) (k : Nat) :
    ∀ (fuel rng : Nat), k < fuel →
      (∀ j, j < k → sqrt (directionDrawOver randomUnit (rng + 3 * j)).LengthSquared > 1) →
      ¬ (sqrt (directionDrawOver randomUnit (rng + 3 * k)).LengthSquared > 1) →
      RandomDirectionOver sqrt randomUnit fuel rng
        = some ((directionDrawOver randomUnit (rng + 3 * k)).divScalar
            (sqrt (directionDrawOver randomUnit (rng + 3 * k)).LengthSquared),
              rng + 3 * (k + 1)) := by
  induction k with
  | zero =>
    intro fuel rng hk _ hacc
    obtain ⟨f, rfl⟩ : ∃ f, fuel = f + 1 := ⟨fuel - 1, by omega⟩
    simp only [Nat.mul_zero, Nat.add_zero, Nat.zero_add, Nat.mul_one] at hacc ⊢
    rw [RandomDirectionOver_step, if_neg hacc]
  | succ k ih =>
    intro fuel rng hk hrej hacc
    obtain ⟨f, rfl⟩ : ∃ f, fuel = f + 1 := ⟨fuel - 1, by omega⟩
    have h0 := hrej 0 (by omega)
    simp only [Nat.mul_zero, Nat.add_zero] at h0
    rw [RandomDirectionOver_step, if_pos h0]
    have e : ∀ j, rng + 3 + 3 * j = rng + 3 * (j + 1) := fun j => by omega
    rw [ih f (rng + 3) (by omega)
      (fun j hj => by
        rw [e]
        exact hrej (j + 1) (by omega))
      (by
        rw [e]
        exact hacc), e, e]

/-- Over the scalars `ℚ`, with the square root and the generator of the backend,
`RandomDirectionOver` is `RandomDirection`. -/
theorem RandomDirectionOver_rat (be : Backend) (fuel : Nat) :
    ∀ rng, RandomDirectionOver be.sqrt be.randomUnit fuel rng
      = (RandomDirection be fuel rng).map fun r => (r.1.toVector3Of, r.2) := by
  induction fuel with
  | zero =>
    intro rng
    rfl
  | succ f ih =>
    intro rng
    rw [RandomDirectionOver_step, RandomDirection_step]
    by_cases h : (directionDraw be rng).Length be > 1
    · rw [if_pos h, if_pos (show be.sqrt (directionDrawOver be.randomUnit rng).LengthSquared > 1
        from h), ih]
    · rw [if_neg h, if_neg (show ¬ be.sqrt (directionDrawOver be.randomUnit rng).LengthSquared > 1
        from h)]
      rfl

/-- A vector over `K` divided by a scalar that is not zero and whose square is the squared
length of the vector has the squared length 1. -/
theorem divScalarOver_unit {K : Type} [LinearOrderedField K] (v : Vector3Of K) (len : K)
    (hne : len ≠ 0) (hsq : len * len = v.LengthSquared) : (v.divScalar len).LengthSquared = 1 := by
  unfold Vector3Of.LengthSquared at hsq ⊢
  unfold Vector3Of.divScalar
  simp only
  field_simp
  linarith

/-- The squared length of a vector divided by a scalar that is not zero, without any
assumption on the scalar. -/
theorem divScalar_lengthSquared (v : Vector3) (len : ℚ) (hne : len ≠ 0) :
    (v.divScalar len).LengthSquared * (len * len) = v.LengthSquared := by
  unfold Vector3.LengthSquared Vector3.divScalar
  simp only
  field_simp

/-- C21, counterexample to the claim as stated: a generator whose numbers in `[-1, 1]` are
all 0 gives the vector `(0, 0, 0)` of length 0; `RandomDirection`, with fuel for a second
round, returns in the first round, after three numbers, what the division of this vector
by the length 0 gives, and what it returns has not the length 1. -/
theorem RandomDirection_zero_counterexample :
    directionDraw (sceneBackend []) 0 = Vector3.ZERO
      ∧ (directionDraw (sceneBackend []) 0).Length (sceneBackend []) = 0
      ∧ RandomDirection (sceneBackend []) 2 0
        = some ((directionDraw (sceneBackend []) 0).divScalar 0, 3)
      ∧ ∀ d rng', RandomDirection (sceneBackend []) 2 0 = some (d, rng') →
          d.LengthSquared ≠ 1 := by
  obtain ⟨h0, hlen⟩ := sceneBackend_draw [] 0
  have hret : RandomDirection (sceneBackend []) 2 0
      = some ((directionDraw (sceneBackend []) 0).divScalar 0, 3) := by
    rw [RandomDirection_step, hlen, if_neg (by norm_num)]
  refine ⟨h0, hlen, hret, ?_⟩
  intro d rng' h
  rw [hret, h0] at h
  simp only [Option.some.injEq, Prod.mk.injEq] at h
  rw [← h.1]
  simp [Vector3.LengthSquared, Vector3.divScalar, Vector3.ZERO]

/-- Over scalars with an exact square root, the first vector that is not longer than 1 and
is not the zero vector is divided by a length that is not zero, and what the two functions
return has the length 1. -/
theorem RandomDirectionOver_unit {K : Type} [LinearOrderedField K] (sqrt : K → K)
    (randomUnit : Nat → K) (fuel rng k : Nat) (normal : Vector3Of K)
    (hsqrt : ∀ x, 0 ≤ x → sqrt x * sqrt x = x) (hk : k < fuel)
    (hrej : ∀ j, j < k → sqrt (directionDrawOver randomUnit (rng + 3 * j)).LengthSquared > 1)
    (hacc : sqrt (directionDrawOver randomUnit (rng + 3 * k)).LengthSquared ≤ 1)
    (hne : (directionDrawOver randomUnit (rng + 3 * k)).LengthSquared ≠ 0) :
    sqrt (directionDrawOver randomUnit (rng + 3 * k)).LengthSquared ≠ 0
      ∧ (∃ d, RandomDirectionOver sqrt randomUnit fuel rng = some (d, rng + 3 * (k + 1))
          ∧ d = (directionDrawOver randomUnit (rng + 3 * k)).divScalar
              (sqrt (directionDrawOver randomUnit (rng + 3 * k)).LengthSquared)
          ∧ d.LengthSquared = 1)
      ∧ ∃ d, RandomHemisphereDirectionOver sqrt randomUnit fuel rng normal
            = some (d, rng + 3 * (k + 1))
          ∧ d.LengthSquared = 1 := by
  have hnn : 0 ≤ (directionDrawOver randomUnit (rng + 3 * k)).LengthSquared := by
    unfold Vector3Of.LengthSquared
    nlinarith [mul_self_nonneg (directionDrawOver randomUnit (rng + 3 * k)).x_,
      mul_self_nonneg (directionDrawOver randomUnit (rng + 3 * k)).y_,
      mul_self_nonneg (directionDrawOver randomUnit (rng + 3 * k)).z_]
  have hsq := hsqrt _ hnn
  have hlen : sqrt (directionDrawOver randomUnit (rng + 3 * k)).LengthSquared ≠ 0 := by
    intro h0
    apply hne
    rw [← hsq, h0, mul_zero]
  have hdir := RandomDirectionOver_first sqrt randomUnit k fuel rng hk hrej (not_lt.mpr hacc)
  have hunit := divScalarOver_unit _ _ hlen hsq
  refine ⟨hlen, ⟨_, hdir, rfl, hunit⟩, ?_⟩
  unfold RandomHemisphereDirectionOver
  rw [hdir]
  simp only [Option.map_some']
  split_ifs
  · exact ⟨_, rfl, by simpa [Vector3Of.LengthSquared, Vector3Of.neg] using hunit⟩
  · exact ⟨_, rfl, hunit⟩

/-- C21, amended: `RandomDirection` draws again every vector that is longer than 1 and
returns the first vector that is not, divided by its length, when it comes within the fuel;
`RandomHemisphereDirection` returns this direction or its opposite; when the length of that
vector is not 0 the division is not by zero and the squared length of what the two functions
return is the squared length of the vector over the square of the length, which is 1 when the
length is the square root of the squared length.  Over any ordered field of scalars with an
exact square root, such as the real numbers, this holds of every such vector that is not the
zero vector: its length is not 0 and what the two functions return has the length 1; over
the rationals the functions over a field are the two functions of the backend. -/
theorem RandomDirection_spec (be : Backend) (fuel rng k : Nat) (normal : Vector3)
    (hk : k < fuel) (hrej : ∀ j, j < k → (directionDraw be (rng + 3 * j)).Length be > 1)
    (hacc : (directionDraw be (rng + 3 * k)).Length be ≤ 1) :
    RandomDirection be fuel rng
        = some ((directionDraw be (rng + 3 * k)).divScalar
            ((directionDraw be (rng + 3 * k)).Length be), rng + 3 * (k + 1))
      ∧ RandomHemisphereDirection be fuel rng normal
        = some
            (if ((directionDraw be (rng + 3 * k)).divScalar
                ((directionDraw be (rng + 3 * k)).Length be)).DotProduct normal < 0 then
              ((directionDraw be (rng + 3 * k)).divScalar
                ((directionDraw be (rng + 3 * k)).Length be)).neg
            else (directionDraw be (rng + 3 * k)).divScalar
                ((directionDraw be (rng + 3 * k)).Length be),
              rng + 3 * (k + 1))
      ∧ ((directionDraw be (rng + 3 * k)).Length be ≠ 0 →
          (directionDraw be (rng + 3 * k)).Length be * (directionDraw be (rng + 3 * k)).Length be
            = (directionDraw be (rng + 3 * k)).LengthSquared →
          (∀ d rng', RandomDirection be fuel rng = some (d, rng') → d.LengthSquared = 1)
            ∧ ∀ d rng', RandomHemisphereDirection be fuel rng normal = some (d, rng') →
                d.LengthSquared = 1)
      ∧ ((directionDraw be (rng + 3 * k)).Length be ≠ 0 →
          (∀ d rng', RandomDirection be fuel rng = some (d, rng') →
              d.LengthSquared * ((directionDraw be (rng + 3 * k)).Length be
                  * (directionDraw be (rng + 3 * k)).Length be)
                = (directionDraw be (rng + 3 * k)).LengthSquared)
            ∧ ∀ d rng', RandomHemisphereDirection be fuel rng normal = some (d, rng') →
                d.LengthSquared * ((directionDraw be (rng + 3 * k)).Length be
                    * (directionDraw be (rng + 3 * k)).Length be)
                  = (directionDraw be (rng + 3 * k)).LengthSquared)
      ∧ RandomDirectionOver be.sqrt be.randomUnit fuel rng
          = ((RandomDirection be fuel rng).map fun r => (r.1.toVector3Of, r.2))
      ∧ ∀ (K : Type) [LinearOrderedField K] (sqrt : K → K) (randomUnit : Nat → K)
          (f r i : Nat) (n : Vector3Of K),
          (∀ x, 0 ≤ x → sqrt x * sqrt x = x) →
          i < f →
          (∀ j, j < i → sqrt (directionDrawOver randomUnit (r + 3 * j)).LengthSquared > 1) →
          sqrt (directionDrawOver randomUnit (r + 3 * i)).LengthSquared ≤ 1 →
          (directionDrawOver randomUnit (r + 3 * i)).LengthSquared ≠ 0 →
          sqrt (directionDrawOver randomUnit (r + 3 * i)).LengthSquared ≠ 0
            ∧ (∃ d, RandomDirectionOver sqrt randomUnit f r = some (d, r + 3 * (i + 1))
                ∧ d = (directionDrawOver randomUnit (r + 3 * i)).divScalar
                    (sqrt (directionDrawOver randomUnit (r + 3 * i)).LengthSquared)
                ∧ d.LengthSquared = 1)
            ∧ ∃ d, RandomHemisphereDirectionOver sqrt randomUnit f r n
                  = some (d, r + 3 * (i + 1))
                ∧ d.LengthSquared = 1 := by
  have hdir := RandomDirection_first be k fuel rng hk hrej (not_lt.mpr hacc)
  have hhemi : RandomHemisphereDirection be fuel rng normal
      = some
          (if ((directionDraw be (rng + 3 * k)).divScalar
              ((directionDraw be (rng + 3 * k)).Length be)).DotProduct normal < 0 then
            ((directionDraw be (rng + 3 * k)).divScalar
              ((directionDraw be (rng + 3 * k)).Length be)).neg
          else (directionDraw be (rng + 3 * k)).divScalar
              ((directionDraw be (rng + 3 * k)).Length be),
            rng + 3 * (k + 1)) := by
    unfold RandomHemisphereDirection
    rw [hdir]
    simp only [Option.map_some']
    split_ifs <;> rfl
  refine ⟨hdir, hhemi, fun hne hsq => ?_, fun hne => ?_, RandomDirectionOver_rat be fuel rng,
    fun K _ sqrt randomUnit f r i n hsqrt hi hr ha hz =>
      RandomDirectionOver_unit sqrt randomUnit f r i n hsqrt hi hr ha hz⟩
  · have hunit := divScalar_unit _ _ hne hsq
    constructor
    · intro d rng' h
      rw [hdir] at h
      simp only [Option.some.injEq, Prod.mk.injEq] at h
      rw [← h.1]
      exact hunit
    · intro d rng' h
      rw [hhemi] at h
      simp only [Option.some.injEq, Prod.mk.injEq] at h
      rw [← h.1]
      split_ifs
      · simpa [Vector3.LengthSquared, Vector3.neg] using hunit
      · exact hunit
  · have hrel := divScalar_lengthSquared (directionDraw be (rng + 3 * k)) _ hne
    constructor
    · intro d rng' h
      rw [hdir] at h
      simp only [Option.some.injEq, Prod.mk.injEq] at h
      rw [← h.1]
      exact hrel
    · intro d rng' h
      rw [hhemi] at h
      simp only [Option.some.injEq, Prod.mk.injEq] at h
      rw [← h.1]
      split_ifs
      · simpa [Vector3.LengthSquared, Vector3.neg] using hrel
      · exact hrel

/-- Witness of the amended C21: over the rationals the first vector `(1, 1, 1)` is too long
and is drawn again, the second vector `(3 / 10, 2 / 5, 0)` has the length `1 / 2` and what is
returned has the length 1; over the real numbers with their square root the vector
`(1 / 2, 1 / 2, 1 / 2)`, whose length is the square root of `3 / 4`, is returned with the
length 1. -/
theorem RandomDirection_spec_witness :
    RandomDirection drawBackend 2 0
        = some ((directionDraw drawBackend (0 + 3 * 1)).divScalar
            ((directionDraw drawBackend (0 + 3 * 1)).Length drawBackend), 0 + 3 * (1 + 1))
      ∧ (directionDraw drawBackend (0 + 3 * 1)).Length drawBackend = 1 / 2
      ∧ (∀ d rng', RandomHemisphereDirection drawBackend 2 0 Vector3.UP = some (d, rng') →
          d.LengthSquared = 1)
      ∧ (directionDrawOver (fun _ => (3 / 4 : ℝ)) (0 + 3 * 0)).LengthSquared = 3 / 4
      ∧ ∃ d, RandomDirectionOver Real.sqrt (fun _ => (3 / 4 : ℝ)) 1 0 = some (d, 0 + 3 * (0 + 1))
          ∧ d.LengthSquared = 1 :=
  have h := RandomDirection_spec drawBackend 2 0 1 Vector3.UP (by decide)
    (fun j hj => by
      obtain rfl : j = 0 := by omega
      rw [drawBackend_draw.1]
      norm_num)
    (by
      rw [drawBackend_draw.2.2]
      norm_num)
  have hls : (directionDrawOver (fun _ => (3 / 4 : ℝ)) (0 + 3 * 0)).LengthSquared = 3 / 4 := by
    simp only [directionDrawOver, RandomOver, Vector3Of.LengthSquared]
    norm_num
  have hreal := h.2.2.2.2.2 ℝ Real.sqrt (fun _ => (3 / 4 : ℝ)) 1 0 0 ⟨0, 1, 0⟩
    (fun x hx => Real.mul_self_sqrt hx) (by decide) (fun j hj => absurd hj (by omega))
    (by
      rw [hls]
      exact Real.sqrt_le_one.mpr (by norm_num))
    (by
      rw [hls]
      norm_num)
  ⟨h.1, drawBackend_draw.2.2, (h.2.2.1
    (by
      rw [drawBackend_draw.2.2]
      norm_num)
    (by
      rw [drawBackend_draw.2.2, drawBackend_draw.2.1]
      simp only [Vector3.LengthSquared]
      norm_num)).2, hls, hreal.2.1.imp fun _ hd => ⟨hd.1, hd.2.2⟩⟩

/-! ## Geometry buffer preprocessing: theorems -/

/-- The bounce loop with the record of its accesses is the bounce loop. -/
theorem TraceIndirectLightBouncesLog_erase (be : Backend) (fuel : Nat)
    (bakedDirect : List LightmapChartBakedDirect) (raytracerScene : RaytracerScene)
    (settings : LightmapTracingSettings) (n bounceIndex : Nat) (s : IndirectSampleState) :
    (TraceIndirectLightBouncesLog be fuel bakedDirect raytracerScene settings n bounceIndex s).map
        Prod.fst
      = TraceIndirectLightBounces be fuel bakedDirect raytracerScene settings n bounceIndex s := by
  induction n generalizing bounceIndex s with
  | zero => rfl
  | succ n ih =>
    unfold TraceIndirectLightBouncesLog TraceIndirectLightBounces
    simp only
    split_ifs
    · rfl
    · rfl
    · cases hd : RandomHemisphereDirection be fuel
          (rtcIntersect1 be (TracingFilterIndirect be) ({ geometryIndex_ := raytracerScene.geometries }, s.rng)
            { ray := { s.rayHit.ray with
                org := s.currentPosition, dir := s.currentRayDirection,
                tfar := raytracerScene.maxDistance }
              hit := { s.rayHit.hit with geomID := RTC_INVALID_GEOMETRY_ID } }).1.2
          (be.Normalized (rtcIntersect1 be (TracingFilterIndirect be)
            ({ geometryIndex_ := raytracerScene.geometries }, s.rng)
            { ray := { s.rayHit.ray with
                org := s.currentPosition, dir := s.currentRayDirection,
                tfar := raytracerScene.maxDistance }
              hit := { s.rayHit.hit with geomID := RTC_INVALID_GEOMETRY_ID } }).2.hit.Ng) with
      | none => rfl
      | some d =>
        simp only [Option.some_bind, Option.map_map]
        rw [← ih]
        rfl
    · simp only [Option.map_map]
      rw [← ih]
      rfl

/-- The bounce loop, started with as many bounces recorded as its index says and with no
more iterations than the settings allow, records one bounce for each index from its first
one on, writes `incomingSamples` and `incomingFactors` at each recorded index and `albedo`
at each recorded index but the first, and writes at no index from `numBounces_` on. -/
theorem TraceIndirectLightBouncesLog_spec (be : Backend) (fuel : Nat)
    (bakedDirect : List LightmapChartBakedDirect) (raytracerScene : RaytracerScene)
    (settings : LightmapTracingSettings) (n : Nat) :
    ∀ (bounceIndex : Nat) (s r : IndirectSampleState) (log : List BounceAccess),
      TraceIndirectLightBouncesLog be fuel bakedDirect raytracerScene settings n bounceIndex s
        = some (r, log) →
      s.numBounces = bounceIndex → n + bounceIndex ≤ settings.numBounces_ →
      bounceIndex ≤ r.numBounces ∧ r.numBounces ≤ bounceIndex + n
        ∧ (∀ a ∈ log, a.write = true ∧ a.index < settings.numBounces_)
        ∧ (∀ k, bounceIndex ≤ k → k < r.numBounces →
          (⟨BounceArray.incomingSamples, k, true⟩ : BounceAccess) ∈ log
            ∧ (⟨BounceArray.incomingFactors, k, true⟩ : BounceAccess) ∈ log
            ∧ (bounceIndex < k → (⟨BounceArray.albedo, k, true⟩ : BounceAccess) ∈ log)) := by
  induction n with
  | zero =>
    intro bounceIndex s r log h hs _
    simp only [TraceIndirectLightBouncesLog, Option.some.injEq, Prod.mk.injEq] at h
    obtain ⟨rfl, rfl⟩ := h
    refine ⟨by omega, by omega, fun a ha => absurd ha (List.not_mem_nil a), fun k h1 h2 => ?_⟩
    omega
  | succ n ih =>
    intro bounceIndex s r log h hs hn
    unfold TraceIndirectLightBouncesLog at h
    simp only at h
    split_ifs at h with h1 h2 h3
    · simp only [Option.some.injEq, Prod.mk.injEq] at h
      obtain ⟨rfl, rfl⟩ := h
      refine ⟨by simp only; omega, by simp only; omega,
        fun a ha => absurd ha (List.not_mem_nil a), fun k k1 k2 => ?_⟩
      simp only at k2
      omega
    · simp only [Option.some.injEq, Prod.mk.injEq] at h
      obtain ⟨rfl, rfl⟩ := h
      refine ⟨by simp only; omega, by simp only; omega,
        fun a ha => absurd ha (List.not_mem_nil a), fun k k1 k2 => ?_⟩
      simp only at k2
      omega
    · simp only [Option.bind_eq_some, Option.map_eq_some', Prod.mk.injEq, Prod.exists] at h
      obtain ⟨d, rng', -, r', log', hrec, rfl, rfl⟩ := h
      obtain ⟨i1, i2, i3, i4⟩ := ih (bounceIndex + 1) _ r' log' hrec
        (by simp only; omega) (by omega)
      refine ⟨by omega, by omega, ?_, ?_⟩
      · intro a ha
        simp only [List.cons_append, List.nil_append, List.mem_cons] at ha
        rcases ha with rfl | rfl | rfl | ha
        · exact ⟨rfl, by simp only; omega⟩
        · exact ⟨rfl, by simp only; omega⟩
        · exact ⟨rfl, by simp only; omega⟩
        · exact i3 a ha
      · intro k k1 k2
        simp only [List.cons_append, List.nil_append, List.mem_cons, BounceAccess.mk.injEq,
          reduceCtorEq, false_and, and_true, true_and, and_false, false_or]
        by_cases hk : k = bounceIndex
        · subst hk
          exact ⟨Or.inl rfl, Or.inl rfl, fun hlt => absurd hlt (Nat.lt_irrefl _)⟩
        · obtain ⟨j1, j2, j3⟩ := i4 k (by omega) k2
          refine ⟨Or.inr j1, Or.inr j2, fun _ => ?_⟩
          by_cases hk1 : k = bounceIndex + 1
          · exact Or.inl hk1
          · exact Or.inr (j3 (by omega))
    · simp only [Option.map_eq_some', Prod.mk.injEq, Prod.exists] at h
      obtain ⟨r', log', hrec, rfl, rfl⟩ := h
      obtain ⟨i1, i2, i3, i4⟩ := ih (bounceIndex + 1) _ r' log' hrec
        (by simp only; omega) (by omega)
      have hlast : n = 0 := by
        simp only at h3
        omega
      subst hlast
      refine ⟨by omega, by omega, ?_, ?_⟩
      · intro a ha
        simp only [List.cons_append, List.nil_append, List.mem_cons] at ha
        rcases ha with rfl | rfl | ha
        · exact ⟨rfl, by simp only; omega⟩
        · exact ⟨rfl, by simp only; omega⟩
        · exact i3 a ha
      · intro k k1 k2
        have hk : k = bounceIndex := by omega
        subst hk
        simp only [List.cons_append, List.nil_append, List.mem_cons, BounceAccess.mk.injEq,
          reduceCtorEq, false_and, and_true, true_and, and_false, false_or]
        exact ⟨Or.inl trivial, Or.inl trivial, fun hlt => absurd hlt (Nat.lt_irrefl _)⟩

/-- C25: with `numBounces_ ≤ MaxBounces`, for every backend the bounce loop of a sample of
`TraceIndirectLight` records at most `numBounces_` bounces; every index at which it writes
`albedo`, `incomingSamples` or `incomingFactors`, the write to `albedo[bounceIndex + 1]`
among them, is below `MaxBounces`; every index the accumulation reads is below `MaxBounces`,
and the element it reads was written before in the same sample, by the loop or, for
`albedo[0]`, by `BeginSample`, whose index is in bounds as soon as the arrays have an
element. The loop with the record of the accesses is the loop, and it returns when every
random direction is found within the fuel. -/
theorem TraceIndirectLightBounces_in_bounds (be : Backend) (fuel : Nat)
    (bakedDirect : List LightmapChartBakedDirect) (raytracerScene : RaytracerScene)
    (settings : LightmapTracingSettings) (s : IndirectSampleState)
    (hcap : settings.numBounces_ ≤ settings.MaxBounces) (hstart : s.numBounces = 0) :
    (TraceIndirectLightBouncesLog be fuel bakedDirect raytracerScene settings settings.numBounces_
        0 s).map Prod.fst
        = TraceIndirectLightBounces be fuel bakedDirect raytracerScene settings settings.numBounces_
            0 s
      ∧ ((∀ rng, (RandomDirection be fuel rng).isSome = true) →
        (TraceIndirectLightBouncesLog be fuel bakedDirect raytracerScene settings
          settings.numBounces_ 0 s).isSome = true)
      ∧ ∀ (r : IndirectSampleState) (log : List BounceAccess),
        TraceIndirectLightBouncesLog be fuel bakedDirect raytracerScene settings
            settings.numBounces_ 0 s = some (r, log) →
          r.numBounces ≤ settings.numBounces_
            ∧ (∀ a ∈ log, a.write = true ∧ a.index < settings.MaxBounces)
            ∧ (∀ a ∈ AccumulateBouncesLog r, a.write = false ∧ a.index < settings.MaxBounces
              ∧ (⟨a.array, a.index, true⟩ : BounceAccess) ∈ BeginSampleLog ++ log)
            ∧ (0 < settings.MaxBounces → ∀ a ∈ BeginSampleLog, a.index < settings.MaxBounces) := by
  have herase := TraceIndirectLightBouncesLog_erase be fuel bakedDirect raytracerScene settings
    settings.numBounces_ 0 s
  refine ⟨herase, fun hfuel => ?_, fun r log h => ?_⟩
  · have hsome := TraceIndirectLightBounces_isSome be fuel bakedDirect raytracerScene settings
      hfuel settings.numBounces_ 0 s
    rw [← herase, Option.isSome_map'] at hsome
    exact hsome
  · obtain ⟨-, i2, i3, i4⟩ := TraceIndirectLightBouncesLog_spec be fuel bakedDirect raytracerScene
      settings settings.numBounces_ 0 s r log h hstart (by omega)
    refine ⟨by omega, fun a ha => ⟨(i3 a ha).1, lt_of_lt_of_le (i3 a ha).2 hcap⟩, ?_, ?_⟩
    · intro a ha
      simp only [AccumulateBouncesLog, List.mem_flatMap, List.mem_reverse, List.mem_range,
        List.mem_cons, List.mem_singleton, List.not_mem_nil, or_false] at ha
      obtain ⟨k, hk, ha⟩ := ha
      obtain ⟨j1, j2, j3⟩ := i4 k (Nat.zero_le k) hk
      have halbedo : (⟨BounceArray.albedo, k, true⟩ : BounceAccess) ∈ BeginSampleLog ++ log := by
        by_cases hk0 : k = 0
        · subst hk0
          exact List.mem_append_left _ (List.mem_singleton.mpr rfl)
        · exact List.mem_append_right _ (j3 (by omega))
      rcases ha with rfl | rfl | rfl | rfl
      · exact ⟨rfl, by simp only; omega, halbedo⟩
      · exact ⟨rfl, by simp only; omega, List.mem_append_right _ j1⟩
      · exact ⟨rfl, by simp only; omega, List.mem_append_right _ j2⟩
      · exact ⟨rfl, by simp only; omega, halbedo⟩
    · intro hpos a ha
      simp only [BeginSampleLog, List.mem_singleton] at ha
      rw [ha]
      exact hpos

/-- Witness of C25: the sample that falls onto the floor of the test scene, with one bounce
allowed and arrays of 8 elements: the loop returns, records at most one bounce and writes
below index 8. -/
theorem TraceIndirectLightBounces_in_bounds_witness :
    ∃ (r : IndirectSampleState) (log : List BounceAccess),
      TraceIndirectLightBouncesLog (sceneBackend [⟨hitOf 0, 1⟩]) 1 [emptyChart] testScene
          (testSettings 1 1) (testSettings 1 1).numBounces_ 0 fallingSample = some (r, log)
        ∧ r.numBounces ≤ (testSettings 1 1).numBounces_
        ∧ (∀ a ∈ log, a.write = true ∧ a.index < (testSettings 1 1).MaxBounces)
        ∧ (∀ a ∈ AccumulateBouncesLog r, a.write = false ∧ a.index < (testSettings 1 1).MaxBounces
          ∧ (⟨a.array, a.index, true⟩ : BounceAccess) ∈ BeginSampleLog ++ log) := by
  have h := TraceIndirectLightBounces_in_bounds (sceneBackend [⟨hitOf 0, 1⟩]) 1 [emptyChart]
    testScene (testSettings 1 1) fallingSample (by decide) rfl
  have hfuel : ∀ rng, (RandomDirection (sceneBackend [⟨hitOf 0, 1⟩]) 1 rng).isSome = true := by
    intro rng
    rw [RandomDirection_step, (sceneBackend_draw [⟨hitOf 0, 1⟩] rng).2, if_neg (by norm_num)]
    rfl
  obtain ⟨⟨r, log⟩, hrl⟩ := Option.isSome_iff_exists.mp (h.2.1 hfuel)
  exact ⟨r, log, hrl, (h.2.2 r log hrl).1, (h.2.2 r log hrl).2.1, (h.2.2 r log hrl).2.2.1⟩

end Glow
